import Mathlib

/-!
# Multiple shooting C/GMRES with saturation: embedding and properties

Shallow embedding of `src/src/multiple_shooting_with_saturation.cpp`.

* A `double` is idealised as an element of a field `K` (exact arithmetic, no
  rounding); `std::exp` is the field `exp` of the configuration.
* An Eigen vector is its entry function `Nat → K`, an Eigen matrix is
  `Nat → Nat → K` (row, column).  Entries outside the allocated dimensions carry
  no meaning.
* Every `for` loop of the source is a fold over its index range
  (`forUp`, `forDown`), threading the buffers the loop body writes.
* Output arguments (`Eigen::Ref`) are passed in with their previous content and
  returned with the written entries replaced.
-/

namespace AutoGenU

/-- Entry function of an `Eigen::VectorXd`. -/
abbrev Vec (K : Type) := Nat → K

/-- Entry function of an `Eigen::MatrixXd`, row index first. -/
abbrev Mat (K : Type) := Nat → Nat → K

section Containers

variable {K : Type}

/-- Read access `v.segment(start, len)`: the `len` entries from `start` on. -/
def segment [Zero K] (v : Vec K) (start len : Nat) : Vec K :=
  fun k => if k < len then v (start + k) else 0

/-- Assignment `v.segment(start, len) = w`. -/
def setSegment (v : Vec K) (start len : Nat) (w : Vec K) : Vec K :=
  fun k => if start ≤ k ∧ k < start + len then w (k - start) else v k

/-- Read access `M.col(c)`. -/
def col (M : Mat K) (c : Nat) : Vec K := fun r => M r c

/-- Assignment `M.col(c) = v`. -/
def setCol (M : Mat K) (c : Nat) (v : Vec K) : Mat K :=
  fun r c' => if c' = c then v r else M r c'

/-- Assignment `M(r, c) = a`. -/
def setEntry (M : Mat K) (r c : Nat) (a : K) : Mat K :=
  fun r' c' => if r' = r ∧ c' = c then a else M r' c'

/-- Assignment `v(k) = a`. -/
def setAt (v : Vec K) (k : Nat) (a : K) : Vec K :=
  fun k' => if k' = k then a else v k'

variable [Field K]

/-- Coefficient-wise `v + w`. -/
def vadd (v w : Vec K) : Vec K := fun k => v k + w k

/-- Coefficient-wise `v - w`. -/
def vsub (v w : Vec K) : Vec K := fun k => v k - w k

/-- Scaling `a * v`. -/
def vscale (a : K) (v : Vec K) : Vec K := fun k => a * v k

/-- Coefficient-wise `A + B`. -/
def madd (A B : Mat K) : Mat K := fun r c => A r c + B r c

/-- Coefficient-wise `A - B`. -/
def msub (A B : Mat K) : Mat K := fun r c => A r c - B r c

/-- Scaling `a * A`. -/
def mscale (a : K) (A : Mat K) : Mat K := fun r c => a * A r c

/-- Division `A / a`. -/
def mdiv (A : Mat K) (a : K) : Mat K := fun r c => A r c / a

/-- Division `v / a`. -/
def vdiv (v : Vec K) (a : K) : Vec K := fun k => v k / a

end Containers

section Loops

variable {σ : Type}

/-- Loop `for (i = start; i < start + n; i++) s = body i s`. -/
def forUp (body : Nat → σ → σ) : Nat → Nat → σ → σ
  | 0, _, s => s
  | n + 1, start, s => forUp body n (start + 1) (body start s)

/-- Loop `for (i = top; i >= 1; i--) s = body i s`. -/
def forDown (body : Nat → σ → σ) : Nat → σ → σ
  | 0, s => s
  | i + 1, s => forDown body i (body (i + 1) s)

end Loops

/-- Interface of `NMPCModel` as used by the solver; each function returns the
vector the C++ method writes into its output argument. -/
structure NMPCModel (K : Type) where
  /-- Value of `dimState()`. -/
  dimState : Nat
  /-- Value of `dimControlInput()`. -/
  dimControlInput : Nat
  /-- Value of `dimConstraints()`. -/
  dimConstraints : Nat
  /-- Call `stateFunc(t, state, control_input, dx)`. -/
  stateFunc : K → Vec K → Vec K → Vec K
  /-- Call `huFunc(t, state, control_input_and_constraints, lambda, hu)`. -/
  huFunc : K → Vec K → Vec K → Vec K → Vec K
  /-- Call `hxFunc(t, state, control_input_and_constraints, lambda, hx)`. -/
  hxFunc : K → Vec K → Vec K → Vec K → Vec K
  /-- Call `phixFunc(t, state, phix)`. -/
  phixFunc : K → Vec K → Vec K

/-- Interface of `ControlInputSaturationSequence` as used by the solver. -/
structure ControlInputSaturationSequence (K : Type) where
  /-- Value of `dimSaturation()`. -/
  dimSaturation : Nat
  /-- Value of `index(j)`. -/
  index : Nat → Nat
  /-- Value of `min(j)`. -/
  min : Nat → K
  /-- Value of `max(j)`. -/
  max : Nat → K
  /-- Value of `weight(j)`. -/
  weight : Nat → K

/-- Members of `MultipleShootingWithSaturation` fixed by the constructor. -/
structure Config (K : Type) where
  /-- Member `model_`. -/
  model : NMPCModel K
  /-- Member `control_input_saturation_seq_`. -/
  control_input_saturation_seq : ControlInputSaturationSequence K
  /-- Member `horizon_max_length_`. -/
  horizon_max_length : K
  /-- Member `alpha_`. -/
  alpha : K
  /-- Member `horizon_division_num_`. -/
  horizon_division_num : Nat
  /-- Member `difference_increment_`. -/
  difference_increment : K
  /-- Member `zeta_`. -/
  zeta : K
  /-- Member `dim_krylov_`. -/
  dim_krylov : Nat
  /-- Library function `std::exp`. -/
  exp : K → K

namespace Config

variable {K : Type}

/-- Member `dim_state_`. -/
def dim_state (c : Config K) : Nat := c.model.dimState

/-- Member `dim_control_input_`. -/
def dim_control_input (c : Config K) : Nat := c.model.dimControlInput

/-- Member `dim_constraints_`. -/
def dim_constraints (c : Config K) : Nat := c.model.dimConstraints

/-- Member `dim_control_input_and_constraints_`. -/
def dim_control_input_and_constraints (c : Config K) : Nat :=
  c.dim_control_input + c.dim_constraints

/-- Member `dim_saturation_`. -/
def dim_saturation (c : Config K) : Nat := c.control_input_saturation_seq.dimSaturation

end Config

/-- Pair of output matrices `(optimality_for_dummy, optimality_for_saturation)`. -/
structure SaturationOut (K : Type) where
  /-- Output argument `optimality_for_dummy`. -/
  optimality_for_dummy : Mat K
  /-- Output argument `optimality_for_saturation`. -/
  optimality_for_saturation : Mat K

/-- Nested loop `for i < horizon_division_num_, for j < dim_saturation_` writing
`out(j, i) = val j i`. -/
def fillEntries {K : Type} (c : Config K) (val : Nat → Nat → K) (out : Mat K) : Mat K :=
  forUp (fun i M => forUp (fun j M' => setEntry M' j i (val j i)) c.dim_saturation 0 M)
    c.horizon_division_num 0 out

section Saturation

variable {K : Type} [Field K]

/-- Method `computeOptimalityErrorforSaturation`. -/
def computeOptimalityErrorforSaturation (c : Config K)
    (control_input_and_constraints_seq : Vec K)
    (dummy_input_seq saturation_lagrange_multiplier_seq : Mat K)
    (optimality_for_dummy optimality_for_saturation : Mat K) : SaturationOut K :=
  let sat := c.control_input_saturation_seq
  let u := fun j i =>
    control_input_and_constraints_seq (i * c.dim_control_input_and_constraints + sat.index j)
  { optimality_for_dummy :=
      fillEntries c
        (fun j i => 2 * saturation_lagrange_multiplier_seq j i * dummy_input_seq j i
          - sat.weight j)
        optimality_for_dummy
    optimality_for_saturation :=
      fillEntries c
        (fun j i =>
          (u j i - (sat.min j + sat.max j) / 2) * (u j i - (sat.min j + sat.max j) / 2)
            - (sat.max j - sat.min j) * (sat.max j - sat.min j) / 4
            + dummy_input_seq j i * dummy_input_seq j i)
        optimality_for_saturation }

/-- Method `multiplySaturationDerivativeWithControlInput`. -/
def multiplySaturationDerivativeWithControlInput (c : Config K)
    (control_input_and_constraints_seq multiplied_control_input_and_constraints_vec : Vec K)
    (optimality_for_dummy optimality_for_saturation : Mat K) : SaturationOut K :=
  let sat := c.control_input_saturation_seq
  { optimality_for_dummy := fillEntries c (fun _ _ => 0) optimality_for_dummy
    optimality_for_saturation :=
      fillEntries c
        (fun j i =>
          (2 * control_input_and_constraints_seq
                (i * c.dim_control_input_and_constraints + sat.index j)
              - sat.min j - sat.max j)
            * multiplied_control_input_and_constraints_vec
                (i * c.dim_control_input_and_constraints + sat.index j))
        optimality_for_saturation }

/-- Method `multiplySaturationSelfDerivativeInverse`; its first argument
`control_input_and_constraints_seq` is not read by the body. -/
def multiplySaturationSelfDerivativeInverse (c : Config K)
    (_control_input_and_constraints_seq : Vec K)
    (dummy_input_seq saturation_lagrange_multiplier_seq : Mat K)
    (multiplied_dummy_mat multiplied_saturation_mat : Mat K)
    (optimality_for_dummy optimality_for_saturation : Mat K) : SaturationOut K :=
  { optimality_for_dummy :=
      fillEntries c
        (fun j i => multiplied_saturation_mat j i / (2 * dummy_input_seq j i))
        optimality_for_dummy
    optimality_for_saturation :=
      fillEntries c
        (fun j i =>
          multiplied_dummy_mat j i / (2 * dummy_input_seq j i)
            - multiplied_saturation_mat j i * saturation_lagrange_multiplier_seq j i
                / (2 * dummy_input_seq j i * dummy_input_seq j i))
        optimality_for_saturation }

/-- Method `addDerivativeSaturationWithControlInput`, acting on one node's
segment of the control/constraint residual. -/
def addDerivativeSaturationWithControlInput (c : Config K)
    (control_input_and_constraints_vec saturation_lagrange_multiplier_vec : Vec K)
    (optimality_for_control_input_and_constraints_vec : Vec K) : Vec K :=
  let sat := c.control_input_saturation_seq
  forUp
    (fun i out =>
      setAt out (sat.index i)
        (out (sat.index i)
          + (2 * control_input_and_constraints_vec (sat.index i) - sat.min i - sat.max i)
              * saturation_lagrange_multiplier_vec i))
    c.dim_saturation 0 optimality_for_control_input_and_constraints_vec

end Saturation

section Residuals

variable {K : Type} [Field K]

/-- Local `horizon_length` of the three residual/sweep routines. -/
def horizonLength (c : Config K) (initial_time time_param : K) : K :=
  c.horizon_max_length * (1 - c.exp (-c.alpha * (time_param - initial_time)))

/-- Local `delta_tau` of the three residual/sweep routines. -/
def deltaTau (c : Config K) (initial_time time_param : K) : K :=
  horizonLength c initial_time time_param / (c.horizon_division_num : K)

/-- Loop-carried variables of a residual loop: the output vector and `tau`. -/
structure VecLoop (K : Type) where
  /-- Output vector being written. -/
  out : Vec K
  /-- Loop variable `tau`. -/
  tau : K

/-- Loop-carried variables of a sweep loop: the matrix being written, the
scratch member `dx_vec_` and `tau`. -/
structure MatLoop (K : Type) where
  /-- Matrix being written. -/
  mat : Mat K
  /-- Scratch member `dx_vec_`. -/
  dx_vec : Vec K
  /-- Loop variable `tau`. -/
  tau : K

/-- Result of `computeOptimalityErrorforStateAndLambda`: both output matrices and
the final content of the scratch member `dx_vec_`. -/
structure ErrorOut (K : Type) where
  /-- Output argument `optimality_for_state`. -/
  optimality_for_state : Mat K
  /-- Output argument `optimality_for_lambda`. -/
  optimality_for_lambda : Mat K
  /-- Scratch member `dx_vec_` on return. -/
  dx_vec : Vec K

/-- Result of `computeStateAndLambda`: both output matrices and the final content
of the scratch member `dx_vec_`. -/
structure SweepOut (K : Type) where
  /-- Output argument `state_mat`. -/
  state_mat : Mat K
  /-- Output argument `lambda_mat`. -/
  lambda_mat : Mat K
  /-- Scratch member `dx_vec_` on return. -/
  dx_vec : Vec K

/-- One node of `computeOptimalityErrorforControlInputAndConstraints`: `huFunc`
writes the node's segment, then `addDerivativeSaturationWithControlInput`
accumulates into it. -/
def controlNode (c : Config K) (tau : K) (state lambda : Vec K)
    (control_input_and_constraints_seq : Vec K) (saturation_lagrange_multiplier_mat : Mat K)
    (i : Nat) (out : Vec K) : Vec K :=
  let d := c.dim_control_input_and_constraints
  let u := segment control_input_and_constraints_seq (i * d) d
  setSegment out (i * d) d
    (addDerivativeSaturationWithControlInput c u (col saturation_lagrange_multiplier_mat i)
      (c.model.huFunc tau state u lambda))

/-- Body of the loop of `computeOptimalityErrorforControlInputAndConstraints`. -/
def controlErrorStep (c : Config K) (delta_tau : K) (control_input_and_constraints_seq : Vec K)
    (state_mat lambda_mat saturation_lagrange_multiplier_mat : Mat K)
    (i : Nat) (l : VecLoop K) : VecLoop K :=
  { out := controlNode c l.tau (col state_mat (i - 1)) (col lambda_mat i)
      control_input_and_constraints_seq saturation_lagrange_multiplier_mat i l.out
    tau := l.tau + delta_tau }

/-- Method `computeOptimalityErrorforControlInputAndConstraints`. -/
def computeOptimalityErrorforControlInputAndConstraints (c : Config K) (initial_time : K)
    (time_param : K) (state_vec control_input_and_constraints_seq : Vec K)
    (state_mat lambda_mat saturation_lagrange_multiplier_mat : Mat K)
    (optimality_for_control_input_and_constraints : Vec K) : Vec K :=
  let delta_tau := deltaTau c initial_time time_param
  let out0 := controlNode c time_param state_vec (col lambda_mat 0)
    control_input_and_constraints_seq saturation_lagrange_multiplier_mat 0
    optimality_for_control_input_and_constraints
  (forUp
    (controlErrorStep c delta_tau control_input_and_constraints_seq state_mat lambda_mat
      saturation_lagrange_multiplier_mat)
    (c.horizon_division_num - 1) 1
    { out := out0, tau := time_param + delta_tau }).out

/-- Body of the first loop of `computeOptimalityErrorforStateAndLambda` (state
defect of node `i`). -/
def stateErrorStep (c : Config K) (delta_tau : K) (control_input_and_constraints_seq : Vec K)
    (state_mat : Mat K) (i : Nat) (l : MatLoop K) : MatLoop K :=
  let dx := c.model.stateFunc l.tau (col state_mat (i - 1))
    (segment control_input_and_constraints_seq (i * c.dim_control_input_and_constraints)
      c.dim_control_input)
  { mat := setCol l.mat i
      (vsub (vsub (col state_mat i) (col state_mat (i - 1))) (vscale delta_tau dx))
    dx_vec := dx
    tau := l.tau + delta_tau }

/-- Body of the second loop of `computeOptimalityErrorforStateAndLambda` (costate
defect of node `i - 1`). -/
def lambdaErrorStep (c : Config K) (delta_tau : K) (control_input_and_constraints_seq : Vec K)
    (state_mat lambda_mat : Mat K) (i : Nat) (l : MatLoop K) : MatLoop K :=
  let dx := c.model.hxFunc l.tau (col state_mat (i - 1))
    (segment control_input_and_constraints_seq (i * c.dim_control_input_and_constraints)
      c.dim_control_input_and_constraints)
    (col lambda_mat i)
  { mat := setCol l.mat (i - 1)
      (vsub (vsub (col lambda_mat (i - 1)) (col lambda_mat i)) (vscale delta_tau dx))
    dx_vec := dx
    tau := l.tau - delta_tau }

/-- Method `computeOptimalityErrorforStateAndLambda`. -/
def computeOptimalityErrorforStateAndLambda (c : Config K) (initial_time : K)
    (time_param : K) (state_vec control_input_and_constraints_seq : Vec K)
    (state_mat lambda_mat : Mat K)
    (optimality_for_state optimality_for_lambda : Mat K) : ErrorOut K :=
  let n := c.horizon_division_num
  let delta_tau := deltaTau c initial_time time_param
  let dx0 := c.model.stateFunc time_param state_vec
    (segment control_input_and_constraints_seq 0 c.dim_control_input)
  let fwd := forUp (stateErrorStep c delta_tau control_input_and_constraints_seq state_mat)
    (n - 1) 1
    { mat := setCol optimality_for_state 0
        (vsub (vsub (col state_mat 0) state_vec) (vscale delta_tau dx0))
      dx_vec := dx0
      tau := time_param + delta_tau }
  let dxT := c.model.phixFunc fwd.tau (col state_mat (n - 1))
  let bwd := forDown
    (lambdaErrorStep c delta_tau control_input_and_constraints_seq state_mat lambda_mat)
    (n - 1)
    { mat := setCol optimality_for_lambda (n - 1) (vsub (col lambda_mat (n - 1)) dxT)
      dx_vec := dxT
      tau := fwd.tau }
  { optimality_for_state := fwd.mat
    optimality_for_lambda := bwd.mat
    dx_vec := bwd.dx_vec }

/-- Body of the first loop of `computeStateAndLambda` (state of node `i`, read
from the node before it in the matrix being written). -/
def stateSweepStep (c : Config K) (delta_tau : K) (control_input_and_constraints_seq : Vec K)
    (optimality_for_state : Mat K) (i : Nat) (l : MatLoop K) : MatLoop K :=
  let dx := c.model.stateFunc l.tau (col l.mat (i - 1))
    (segment control_input_and_constraints_seq (i * c.dim_control_input_and_constraints)
      c.dim_control_input)
  { mat := setCol l.mat i
      (vadd (vadd (col l.mat (i - 1)) (vscale delta_tau dx)) (col optimality_for_state i))
    dx_vec := dx
    tau := l.tau + delta_tau }

/-- Body of the second loop of `computeStateAndLambda` (costate of node `i - 1`,
read from node `i` in the matrix being written). -/
def lambdaSweepStep (c : Config K) (delta_tau : K) (control_input_and_constraints_seq : Vec K)
    (state_mat optimality_for_lambda : Mat K) (i : Nat) (l : MatLoop K) : MatLoop K :=
  let dx := c.model.hxFunc l.tau (col state_mat (i - 1))
    (segment control_input_and_constraints_seq (i * c.dim_control_input_and_constraints)
      c.dim_control_input_and_constraints)
    (col l.mat i)
  { mat := setCol l.mat (i - 1)
      (vadd (vadd (col l.mat i) (vscale delta_tau dx)) (col optimality_for_lambda (i - 1)))
    dx_vec := dx
    tau := l.tau - delta_tau }

/-- Method `computeStateAndLambda`. -/
def computeStateAndLambda (c : Config K) (initial_time : K)
    (time_param : K) (state_vec control_input_and_constraints_seq : Vec K)
    (optimality_for_state optimality_for_lambda : Mat K)
    (state_mat lambda_mat : Mat K) : SweepOut K :=
  let n := c.horizon_division_num
  let delta_tau := deltaTau c initial_time time_param
  let dx0 := c.model.stateFunc time_param state_vec
    (segment control_input_and_constraints_seq 0 c.dim_control_input)
  let fwd := forUp
    (stateSweepStep c delta_tau control_input_and_constraints_seq optimality_for_state)
    (n - 1) 1
    { mat := setCol state_mat 0
        (vadd (vadd state_vec (vscale delta_tau dx0)) (col optimality_for_state 0))
      dx_vec := dx0
      tau := time_param + delta_tau }
  let dxT := c.model.phixFunc fwd.tau (col fwd.mat (n - 1))
  let bwd := forDown
    (lambdaSweepStep c delta_tau control_input_and_constraints_seq fwd.mat optimality_for_lambda)
    (n - 1)
    { mat := setCol lambda_mat (n - 1) (vadd dxT (col optimality_for_lambda (n - 1)))
      dx_vec := dxT
      tau := fwd.tau }
  { state_mat := fwd.mat
    lambda_mat := bwd.mat
    dx_vec := bwd.dx_vec }

/-- Value of `tau` after `k` additions of `delta_tau` to `time_param`: the value
the upward loops hold when they reach index `k`. -/
def tauUp (time_param delta_tau : K) : Nat → K
  | 0 => time_param
  | k + 1 => tauUp time_param delta_tau k + delta_tau

/-- Value of `tau` after `k` subtractions of `delta_tau` from `tau_end`: the value
the downward loops hold after `k` iterations. -/
def tauDown (tau_end delta_tau : K) : Nat → K
  | 0 => tau_end
  | k + 1 => tauDown tau_end delta_tau k - delta_tau

end Residuals

/-- Mutable members of `MultipleShootingWithSaturation`. -/
structure Solver (K : Type) where
  /-- Member `initial_time_`. -/
  initial_time_ : K
  /-- Member `incremented_time_`. -/
  incremented_time_ : K
  /-- Member `dx_vec_`. -/
  dx_vec_ : Vec K
  /-- Member `incremented_state_vec_`. -/
  incremented_state_vec_ : Vec K
  /-- Member `control_input_and_constraints_seq_`. -/
  control_input_and_constraints_seq_ : Vec K
  /-- Member `incremented_control_input_and_constraints_seq_`. -/
  incremented_control_input_and_constraints_seq_ : Vec K
  /-- Member `control_input_and_constraints_error_seq_`. -/
  control_input_and_constraints_error_seq_ : Vec K
  /-- Member `control_input_and_constraints_error_seq_1_`. -/
  control_input_and_constraints_error_seq_1_ : Vec K
  /-- Member `control_input_and_constraints_error_seq_2_`. -/
  control_input_and_constraints_error_seq_2_ : Vec K
  /-- Member `control_input_and_constraints_error_seq_3_`. -/
  control_input_and_constraints_error_seq_3_ : Vec K
  /-- Member `control_input_and_constraints_update_seq_`. -/
  control_input_and_constraints_update_seq_ : Vec K
  /-- Member `state_mat_`. -/
  state_mat_ : Mat K
  /-- Member `lambda_mat_`. -/
  lambda_mat_ : Mat K
  /-- Member `incremented_state_mat_`. -/
  incremented_state_mat_ : Mat K
  /-- Member `incremented_lambda_mat_`. -/
  incremented_lambda_mat_ : Mat K
  /-- Member `state_error_mat_`. -/
  state_error_mat_ : Mat K
  /-- Member `state_error_mat_1_`. -/
  state_error_mat_1_ : Mat K
  /-- Member `lambda_error_mat_`. -/
  lambda_error_mat_ : Mat K
  /-- Member `lambda_error_mat_1_`. -/
  lambda_error_mat_1_ : Mat K
  /-- Member `state_update_mat_`. -/
  state_update_mat_ : Mat K
  /-- Member `lambda_update_mat_`. -/
  lambda_update_mat_ : Mat K
  /-- Member `dummy_input_mat_`. -/
  dummy_input_mat_ : Mat K
  /-- Member `saturation_lagrange_multiplier_mat_`. -/
  saturation_lagrange_multiplier_mat_ : Mat K
  /-- Member `dummy_error_mat_`. -/
  dummy_error_mat_ : Mat K
  /-- Member `saturation_error_mat_`. -/
  saturation_error_mat_ : Mat K
  /-- Member `dummy_error_mat_1_`. -/
  dummy_error_mat_1_ : Mat K
  /-- Member `saturation_error_mat_1_`. -/
  saturation_error_mat_1_ : Mat K
  /-- Member `dummy_update_mat_`. -/
  dummy_update_mat_ : Mat K
  /-- Member `saturation_update_mat_`. -/
  saturation_update_mat_ : Mat K

/-- Modelled from the spec: the Krylov engine, base class `MatrixFreeGMRES`
(`matrixfree_gmres.hpp`), of which the solver source shows only the call
`forwardDifferenceGMRES` and the two overridden hooks.  It invokes the b-hook once
and the Ax-hook at most `dim_krylov` times, and returns a direction.  `direction`
chooses the next vector handed to the Ax-hook from the warm start, the b-hook
output and the Ax-hook outputs so far (`none`: no further call); `solution` is
the direction written to the update vector on return. -/
structure KrylovEngine (K : Type) where
  /-- Next vector handed to the Ax-hook, if any. -/
  direction : Vec K → Vec K → List (Vec K) → Option (Vec K)
  /-- Direction returned by the solve. -/
  solution : Vec K → Vec K → List (Vec K) → Vec K

/-- Loop-carried variables of the Krylov solve: the solver members and the
Ax-hook outputs so far. -/
structure KrylovLoop (K : Type) where
  /-- Solver members. -/
  solver : Solver K
  /-- Ax-hook outputs so far, oldest first. -/
  ax : List (Vec K)

section Controller

variable {K : Type} [Field K]

/-- Method `bFunc`; returns the updated members and `equation_error_vec`. -/
def bFunc (c : Config K) (s : Solver K) (time_param : K)
    (state_vec current_solution_vec : Vec K) : Solver K × Vec K :=
  let h := c.difference_increment
  let s : Solver K := { s with
    control_input_and_constraints_error_seq_ :=
      computeOptimalityErrorforControlInputAndConstraints c s.initial_time_ time_param state_vec
        current_solution_vec s.state_mat_ s.lambda_mat_ s.saturation_lagrange_multiplier_mat_
        s.control_input_and_constraints_error_seq_ }
  let s : Solver K := { s with
    control_input_and_constraints_error_seq_1_ :=
      computeOptimalityErrorforControlInputAndConstraints c s.initial_time_ s.incremented_time_
        s.incremented_state_vec_ current_solution_vec s.state_mat_ s.lambda_mat_
        s.saturation_lagrange_multiplier_mat_ s.control_input_and_constraints_error_seq_1_ }
  let e : ErrorOut K := computeOptimalityErrorforStateAndLambda c s.initial_time_ time_param state_vec
    current_solution_vec s.state_mat_ s.lambda_mat_ s.state_error_mat_ s.lambda_error_mat_
  let s : Solver K := { s with
    state_error_mat_ := e.optimality_for_state
    lambda_error_mat_ := e.optimality_for_lambda
    dx_vec_ := e.dx_vec }
  let e : ErrorOut K := computeOptimalityErrorforStateAndLambda c s.initial_time_ s.incremented_time_
    s.incremented_state_vec_ current_solution_vec s.state_mat_ s.lambda_mat_
    s.state_error_mat_1_ s.lambda_error_mat_1_
  let s : Solver K := { s with
    state_error_mat_1_ := e.optimality_for_state
    lambda_error_mat_1_ := e.optimality_for_lambda
    dx_vec_ := e.dx_vec }
  let w : SweepOut K := computeStateAndLambda c s.initial_time_ s.incremented_time_
    s.incremented_state_vec_ current_solution_vec
    (mscale (1 - h * c.zeta) s.state_error_mat_) (mscale (1 - h * c.zeta) s.lambda_error_mat_)
    s.incremented_state_mat_ s.incremented_lambda_mat_
  let s : Solver K := { s with
    incremented_state_mat_ := w.state_mat
    incremented_lambda_mat_ := w.lambda_mat
    dx_vec_ := w.dx_vec }
  let o : SaturationOut K := computeOptimalityErrorforSaturation c current_solution_vec s.dummy_input_mat_
    s.saturation_lagrange_multiplier_mat_ s.dummy_error_mat_ s.saturation_error_mat_
  let s : Solver K := { s with
    dummy_error_mat_ := o.optimality_for_dummy
    saturation_error_mat_ := o.optimality_for_saturation }
  let o : SaturationOut K := multiplySaturationSelfDerivativeInverse c s.control_input_and_constraints_seq_
    s.dummy_input_mat_ s.saturation_lagrange_multiplier_mat_
    (mscale (-c.zeta) s.dummy_error_mat_) (mscale (-c.zeta) s.saturation_error_mat_)
    s.dummy_error_mat_1_ s.saturation_error_mat_1_
  let s : Solver K := { s with
    dummy_error_mat_1_ := o.optimality_for_dummy
    saturation_error_mat_1_ := o.optimality_for_saturation }
  let s : Solver K := { s with
    control_input_and_constraints_error_seq_3_ :=
      computeOptimalityErrorforControlInputAndConstraints c s.initial_time_ s.incremented_time_
        s.incremented_state_vec_ current_solution_vec s.incremented_state_mat_
        s.incremented_lambda_mat_
        (madd s.saturation_lagrange_multiplier_mat_ (mscale h s.saturation_error_mat_1_))
        s.control_input_and_constraints_error_seq_3_ }
  let s : Solver K := { s with
    incremented_control_input_and_constraints_seq_ :=
      vadd current_solution_vec (vscale h s.control_input_and_constraints_update_seq_) }
  let w : SweepOut K := computeStateAndLambda c s.initial_time_ s.incremented_time_
    s.incremented_state_vec_ s.incremented_control_input_and_constraints_seq_
    s.state_error_mat_1_ s.lambda_error_mat_1_
    s.incremented_state_mat_ s.incremented_lambda_mat_
  let s : Solver K := { s with
    incremented_state_mat_ := w.state_mat
    incremented_lambda_mat_ := w.lambda_mat
    dx_vec_ := w.dx_vec }
  let o : SaturationOut K := multiplySaturationDerivativeWithControlInput c current_solution_vec
    s.control_input_and_constraints_update_seq_ s.dummy_error_mat_ s.saturation_error_mat_
  let s : Solver K := { s with
    dummy_error_mat_ := o.optimality_for_dummy
    saturation_error_mat_ := o.optimality_for_saturation }
  let o : SaturationOut K := multiplySaturationSelfDerivativeInverse c current_solution_vec
    s.dummy_input_mat_ s.saturation_lagrange_multiplier_mat_
    s.dummy_error_mat_ s.saturation_error_mat_
    s.dummy_error_mat_1_ s.saturation_error_mat_1_
  let s : Solver K := { s with
    dummy_error_mat_1_ := o.optimality_for_dummy
    saturation_error_mat_1_ := o.optimality_for_saturation }
  let s : Solver K := { s with
    control_input_and_constraints_error_seq_2_ :=
      computeOptimalityErrorforControlInputAndConstraints c s.initial_time_ s.incremented_time_
        s.incremented_state_vec_ s.incremented_control_input_and_constraints_seq_
        s.incremented_state_mat_ s.incremented_lambda_mat_
        (msub s.saturation_lagrange_multiplier_mat_ (mscale h s.saturation_error_mat_1_))
        s.control_input_and_constraints_error_seq_2_ }
  (s, vsub
        (vsub (vscale (-(c.zeta - 1 / h)) s.control_input_and_constraints_error_seq_)
          (vdiv s.control_input_and_constraints_error_seq_3_ h))
        (vdiv (vsub s.control_input_and_constraints_error_seq_2_
          s.control_input_and_constraints_error_seq_1_) h))

/-- Method `axFunc`; returns the updated members and
`forward_difference_error_vec`.  The argument `state_vec` is not read. -/
def axFunc (c : Config K) (s : Solver K) (_time_param : K)
    (_state_vec current_solution_vec direction_vec : Vec K) : Solver K × Vec K :=
  let h := c.difference_increment
  let s : Solver K := { s with
    incremented_control_input_and_constraints_seq_ :=
      vadd current_solution_vec (vscale h direction_vec) }
  let w : SweepOut K := computeStateAndLambda c s.initial_time_ s.incremented_time_
    s.incremented_state_vec_ s.incremented_control_input_and_constraints_seq_
    s.state_error_mat_1_ s.lambda_error_mat_1_
    s.incremented_state_mat_ s.incremented_lambda_mat_
  let s : Solver K := { s with
    incremented_state_mat_ := w.state_mat
    incremented_lambda_mat_ := w.lambda_mat
    dx_vec_ := w.dx_vec }
  let o : SaturationOut K := multiplySaturationDerivativeWithControlInput c current_solution_vec
    direction_vec s.dummy_error_mat_ s.saturation_error_mat_
  let s : Solver K := { s with
    dummy_error_mat_ := o.optimality_for_dummy
    saturation_error_mat_ := o.optimality_for_saturation }
  let o : SaturationOut K := multiplySaturationSelfDerivativeInverse c current_solution_vec
    s.dummy_input_mat_ s.saturation_lagrange_multiplier_mat_
    s.dummy_error_mat_ s.saturation_error_mat_
    s.dummy_error_mat_1_ s.saturation_error_mat_1_
  let s : Solver K := { s with
    dummy_error_mat_1_ := o.optimality_for_dummy
    saturation_error_mat_1_ := o.optimality_for_saturation }
  let s : Solver K := { s with
    control_input_and_constraints_error_seq_2_ :=
      computeOptimalityErrorforControlInputAndConstraints c s.initial_time_ s.incremented_time_
        s.incremented_state_vec_ s.incremented_control_input_and_constraints_seq_
        s.incremented_state_mat_ s.incremented_lambda_mat_
        (msub s.saturation_lagrange_multiplier_mat_ (mscale h s.saturation_error_mat_1_))
        s.control_input_and_constraints_error_seq_2_ }
  (s, vdiv (vsub s.control_input_and_constraints_error_seq_2_
        s.control_input_and_constraints_error_seq_1_) h)

/-- One round of the Krylov solve: if the engine asks for another
matrix-vector product, run the Ax-hook on its vector and record the output. -/
def krylovStep (c : Config K) (eng : KrylovEngine K) (time_param : K)
    (state_vec current_solution_vec warm b : Vec K) (l : KrylovLoop K) : KrylovLoop K :=
  match eng.direction warm b l.ax with
  | none => l
  | some d =>
    let r := axFunc c l.solver time_param state_vec current_solution_vec d
    { solver := r.1, ax := l.ax ++ [r.2] }

/-- Modelled from the spec: the inherited method `forwardDifferenceGMRES`, called
with the members `control_input_and_constraints_seq_` (current solution) and
`control_input_and_constraints_update_seq_` (warm start on entry, direction on
return).  One call of the b-hook, at most `dim_krylov` calls of the Ax-hook, then
the direction is stored. -/
def forwardDifferenceGMRES (c : Config K) (eng : KrylovEngine K) (s : Solver K)
    (time_param : K) (state_vec : Vec K) : Solver K :=
  let current_solution_vec := s.control_input_and_constraints_seq_
  let warm := s.control_input_and_constraints_update_seq_
  let r := bFunc c s time_param state_vec current_solution_vec
  let l := forUp
    (fun _ l => krylovStep c eng time_param state_vec current_solution_vec warm r.2 l)
    c.dim_krylov 0 { solver := r.1, ax := [] }
  { l.solver with control_input_and_constraints_update_seq_ := eng.solution warm r.2 l.ax }

/-- First three statements of `controlUpdate`: predict the incremented time and
state. -/
def predictIncrementedState (c : Config K) (s : Solver K)
    (current_time : K) (current_state_vec : Vec K) : Solver K :=
  let h := c.difference_increment
  let s : Solver K := { s with
    incremented_time_ := current_time + h }
  let s : Solver K := { s with
    dx_vec_ := c.model.stateFunc current_time current_state_vec
      (segment s.control_input_and_constraints_seq_ 0 c.dim_control_input) }
  { s with
    incremented_state_vec_ := vadd current_state_vec (vscale h s.dx_vec_) }

/-- Method `controlUpdate`; returns the updated members and
`optimal_control_input_vec`. -/
def controlUpdate (c : Config K) (eng : KrylovEngine K) (s : Solver K)
    (current_time sampling_period : K) (current_state_vec : Vec K) : Solver K × Vec K :=
  let h := c.difference_increment
  let s : Solver K := predictIncrementedState c s current_time current_state_vec
  let s : Solver K := forwardDifferenceGMRES c eng s current_time current_state_vec
  let w : SweepOut K := computeStateAndLambda c s.initial_time_ s.incremented_time_
    s.incremented_state_vec_
    (vadd s.control_input_and_constraints_seq_
      (vscale h s.control_input_and_constraints_update_seq_))
    (mscale (1 - h * c.zeta) s.state_error_mat_) (mscale (1 - h * c.zeta) s.lambda_error_mat_)
    s.incremented_state_mat_ s.incremented_lambda_mat_
  let s : Solver K := { s with
    incremented_state_mat_ := w.state_mat
    incremented_lambda_mat_ := w.lambda_mat
    dx_vec_ := w.dx_vec }
  let s : Solver K := { s with
    state_update_mat_ := mdiv (msub s.incremented_state_mat_ s.state_mat_) h }
  let s : Solver K := { s with
    lambda_update_mat_ :=
      mdiv (msub s.incremented_lambda_mat_ s.lambda_mat_) h }
  let s : Solver K := { s with
    state_mat_ := madd s.state_mat_ (mscale sampling_period s.state_update_mat_) }
  let s : Solver K := { s with
    lambda_mat_ :=
      madd s.lambda_mat_ (mscale sampling_period s.lambda_update_mat_) }
  let o : SaturationOut K := computeOptimalityErrorforSaturation c s.control_input_and_constraints_seq_
    s.dummy_input_mat_ s.saturation_lagrange_multiplier_mat_
    s.dummy_error_mat_ s.saturation_error_mat_
  let s : Solver K := { s with
    dummy_error_mat_ := o.optimality_for_dummy
    saturation_error_mat_ := o.optimality_for_saturation }
  let o : SaturationOut K := multiplySaturationDerivativeWithControlInput c s.control_input_and_constraints_seq_
    s.control_input_and_constraints_update_seq_ s.dummy_error_mat_1_ s.saturation_error_mat_1_
  let s : Solver K := { s with
    dummy_error_mat_1_ := o.optimality_for_dummy
    saturation_error_mat_1_ := o.optimality_for_saturation }
  let o : SaturationOut K := multiplySaturationSelfDerivativeInverse c s.control_input_and_constraints_seq_
    s.dummy_input_mat_ s.saturation_lagrange_multiplier_mat_
    (msub (mscale (-c.zeta) s.dummy_error_mat_) s.dummy_error_mat_1_)
    (msub (mscale (-c.zeta) s.saturation_error_mat_) s.saturation_error_mat_1_)
    s.dummy_update_mat_ s.saturation_update_mat_
  let s : Solver K := { s with
    dummy_update_mat_ := o.optimality_for_dummy
    saturation_update_mat_ := o.optimality_for_saturation }
  let s : Solver K := { s with
    dummy_input_mat_ :=
      madd s.dummy_input_mat_ (mscale sampling_period s.dummy_update_mat_) }
  let s : Solver K := { s with
    saturation_lagrange_multiplier_mat_ :=
      madd s.saturation_lagrange_multiplier_mat_ (mscale sampling_period s.saturation_update_mat_) }
  let s : Solver K := { s with
    control_input_and_constraints_seq_ :=
      vadd s.control_input_and_constraints_seq_
        (vscale sampling_period s.control_input_and_constraints_update_seq_) }
  (s, segment s.control_input_and_constraints_seq_ 0 c.dim_control_input)

/-- Method `getControlInput`; returns `control_input_vec`. -/
def getControlInput (c : Config K) (s : Solver K) : Vec K :=
  segment s.control_input_and_constraints_seq_ 0 c.dim_control_input

end Controller

/-- Members that neither hook of the Krylov engine writes agree in `s` and `s'`. -/
structure Solver.SameTrajectory {K : Type} (s s' : Solver K) : Prop where
  /-- Member `initial_time_`. -/
  initial_time_ : s'.initial_time_ = s.initial_time_
  /-- Member `incremented_time_`. -/
  incremented_time_ : s'.incremented_time_ = s.incremented_time_
  /-- Member `incremented_state_vec_`. -/
  incremented_state_vec_ : s'.incremented_state_vec_ = s.incremented_state_vec_
  /-- Member `control_input_and_constraints_seq_`. -/
  control_input_and_constraints_seq_ :
    s'.control_input_and_constraints_seq_ = s.control_input_and_constraints_seq_
  /-- Member `state_mat_`. -/
  state_mat_ : s'.state_mat_ = s.state_mat_
  /-- Member `lambda_mat_`. -/
  lambda_mat_ : s'.lambda_mat_ = s.lambda_mat_
  /-- Member `dummy_input_mat_`. -/
  dummy_input_mat_ : s'.dummy_input_mat_ = s.dummy_input_mat_
  /-- Member `saturation_lagrange_multiplier_mat_`. -/
  saturation_lagrange_multiplier_mat_ :
    s'.saturation_lagrange_multiplier_mat_ = s.saturation_lagrange_multiplier_mat_

/-- Members written by the b-hook and read by the Ax-hook (incremented-time
defects and the residual on the current trajectory) agree in `s` and `s'`. -/
structure Solver.SameIncrementedDefects {K : Type} (s s' : Solver K) : Prop where
  /-- Member `state_error_mat_1_`. -/
  state_error_mat_1_ : s'.state_error_mat_1_ = s.state_error_mat_1_
  /-- Member `lambda_error_mat_1_`. -/
  lambda_error_mat_1_ : s'.lambda_error_mat_1_ = s.lambda_error_mat_1_
  /-- Member `control_input_and_constraints_error_seq_1_`. -/
  control_input_and_constraints_error_seq_1_ :
    s'.control_input_and_constraints_error_seq_1_ = s.control_input_and_constraints_error_seq_1_

/-! ## Right-hand side of the Newton system, stated on the trajectory -/

section RightHandSide

variable {K : Type} [Field K]

/-- Control/constraint residual `F` of a control sequence `V` at time `t` and state
`x` on the trajectory `(X, L, Mu)` (state, costate, saturation multipliers), written
into a zeroed vector. -/
def controlResidual (c : Config K) (t0 t : K) (x V : Vec K) (X L Mu : Mat K) : Vec K :=
  computeOptimalityErrorforControlInputAndConstraints c t0 t x V X L Mu (fun _ => 0)

/-- Residual of `U` at the incremented time `ti` and state `xi` with the condensed
variables: state/costate re-derived by the sweep from `(1 - h*zeta)` times the
defect of `(X, L)` at `(t, x)`, multipliers advanced by `h` times the eliminator
rate for `-zeta` times the saturation residuals. -/
def condensedResidual (c : Config K) (t0 ti : K) (xi : Vec K) (X L D Mu : Mat K)
    (t : K) (x U : Vec K) : Vec K :=
  let h := c.difference_increment
  let z : Mat K := fun _ _ => 0
  let e := computeOptimalityErrorforStateAndLambda c t0 t x U X L z z
  let w := computeStateAndLambda c t0 ti xi U
    (mscale (1 - h * c.zeta) e.optimality_for_state)
    (mscale (1 - h * c.zeta) e.optimality_for_lambda) z z
  let o := computeOptimalityErrorforSaturation c U D Mu z z
  let r := multiplySaturationSelfDerivativeInverse c U D Mu
    (mscale (-c.zeta) o.optimality_for_dummy) (mscale (-c.zeta) o.optimality_for_saturation) z z
  controlResidual c t0 ti xi U w.state_mat w.lambda_mat
    (madd Mu (mscale h r.optimality_for_saturation))

/-- Residual of `U + h*d` at the incremented time `ti` and state `xi`, with
state/costate re-derived by the sweep from the defect of `(X, L)` at `(ti, xi)`
and multipliers corrected by `h` times the eliminator applied to the cross term
of `d`. -/
def directionResidual (c : Config K) (t0 ti : K) (xi : Vec K) (X L D Mu : Mat K)
    (U d : Vec K) : Vec K :=
  let h := c.difference_increment
  let z : Mat K := fun _ _ => 0
  let e := computeOptimalityErrorforStateAndLambda c t0 ti xi U X L z z
  let w := computeStateAndLambda c t0 ti xi (vadd U (vscale h d))
    e.optimality_for_state e.optimality_for_lambda z z
  let m := multiplySaturationDerivativeWithControlInput c U d z z
  let r := multiplySaturationSelfDerivativeInverse c U D Mu
    m.optimality_for_dummy m.optimality_for_saturation z z
  controlResidual c t0 ti xi (vadd U (vscale h d)) w.state_mat w.lambda_mat
    (msub Mu (mscale h r.optimality_for_saturation))

/-- Warm-started right-hand side
`-(zeta - 1/h)*F_t(U) - F3/h - (F2 - F1)/h`: `F_t(U)` the residual at the current
time and state, `F3` the condensed residual at the incremented time and state,
`F1` the residual at the incremented time and state on the current trajectory,
`F2` the residual of `U + h*dprev` there (`dprev`: the stored direction). -/
def warmStartedRightHandSide (c : Config K) (t0 ti : K) (xi : Vec K) (X L D Mu : Mat K)
    (t : K) (x U dprev : Vec K) : Vec K :=
  let h := c.difference_increment
  vsub
    (vsub (vscale (-(c.zeta - 1 / h)) (controlResidual c t0 t x U X L Mu))
      (vdiv (condensedResidual c t0 ti xi X L D Mu t x U) h))
    (vdiv (vsub (directionResidual c t0 ti xi X L D Mu U dprev)
      (controlResidual c t0 ti xi U X L Mu)) h)

/-- Right-hand side as the claim reads it:
`-(zeta - 1/h)*F_t(U) - (1/h)*[F_(t+h)(U) - F_t(U)]`, with `F_(t+h)(U)` the
condensed residual. -/
def claimedRightHandSide (c : Config K) (t0 ti : K) (xi : Vec K) (X L D Mu : Mat K)
    (t : K) (x U : Vec K) : Vec K :=
  let h := c.difference_increment
  vsub (vscale (-(c.zeta - 1 / h)) (controlResidual c t0 t x U X L Mu))
    (vscale (1 / h)
      (vsub (condensedResidual c t0 ti xi X L D Mu t x U) (controlResidual c t0 t x U X L Mu)))

end RightHandSide

/-! ## Initialisation and error norm -/

/-- What `initSolution` obtains from the bootstrap solver: the vector
`initial_solution_vec` written by `solve0stepNOCP`, and the vectors returned by
`getControlInputAndConstraintsError`, `getDummyInputError` and
`getControlInputSaturationError` called on it. -/
structure BootstrapResult (K : Type) where
  /-- Output argument `initial_solution_vec` of `solve0stepNOCP`. -/
  initial_solution_vec : Vec K
  /-- Value of `getControlInputAndConstraintsError`. -/
  control_input_and_constraints_error : Vec K
  /-- Value of `getDummyInputError`. -/
  dummy_input_error : Vec K
  /-- Value of `getControlInputSaturationError`. -/
  control_input_saturation_error : Vec K

/-- Modelled from the spec: the bootstrap solver `InitCGMRESWithSaturation`
(`init_cgmres_with_saturation.hpp`), of which the solver source shows only the
calls.  One field per overload of `solve0stepNOCP` (no multiplier guess, vector
guess, scalar guess), each with arguments initial time, initial state, control
guess, (multiplier guess,) convergence radius and iteration bound. -/
structure InitCGMRESWithSaturation (K : Type) where
  /-- Overload without multiplier guess. -/
  solve0stepNOCP : K → Vec K → Vec K → K → Int → BootstrapResult K
  /-- Overload with a vector multiplier guess. -/
  solve0stepNOCPVector : K → Vec K → Vec K → Vec K → K → Int → BootstrapResult K
  /-- Overload with a scalar multiplier guess. -/
  solve0stepNOCPScalar : K → Vec K → Vec K → K → K → Int → BootstrapResult K

section Initialisation

variable {K : Type} [Field K]

/-- Method `initSolution`, overload without multiplier guess. -/
def initSolution (c : Config K) (initializer : InitCGMRESWithSaturation K) (s : Solver K)
    (initial_time : K) (initial_state_vec initial_guess_input_vec : Vec K)
    (convergence_radius : K) (max_iteration : Int) : Solver K :=
  let r := initializer.solve0stepNOCP initial_time initial_state_vec initial_guess_input_vec
    convergence_radius max_iteration
  let d := c.dim_control_input_and_constraints
  let s : Solver K := { s with
    initial_time_ := initial_time }
  let initial_solution_vec := r.initial_solution_vec
  let initial_lambda_vec := c.model.phixFunc initial_time initial_state_vec
  let s : Solver K := forUp
    (fun i (s : Solver K) =>
      { s with
        control_input_and_constraints_seq_ :=
          setSegment s.control_input_and_constraints_seq_ (i * d) d
            (segment initial_solution_vec 0 d)
        dummy_input_mat_ :=
          setCol s.dummy_input_mat_ i (segment initial_solution_vec d c.dim_saturation)
        saturation_lagrange_multiplier_mat_ :=
          setCol s.saturation_lagrange_multiplier_mat_ i
            (segment initial_solution_vec (d + c.dim_saturation) c.dim_saturation)
        state_mat_ := setCol s.state_mat_ i initial_state_vec
        lambda_mat_ := setCol s.lambda_mat_ i initial_lambda_vec })
    c.horizon_division_num 0 s
  let s : Solver K := forUp
    (fun i (s : Solver K) =>
      { s with
        control_input_and_constraints_error_seq_ :=
          setSegment s.control_input_and_constraints_error_seq_ (i * d) d
            r.control_input_and_constraints_error
        dummy_error_mat_ := setCol s.dummy_error_mat_ i r.dummy_input_error
        saturation_error_mat_ :=
          setCol s.saturation_error_mat_ i r.control_input_saturation_error })
    c.horizon_division_num 0 s
  let s : Solver K := { s with
    state_error_mat_ := fun _ _ => 0 }
  { s with
    lambda_error_mat_ := fun _ _ => 0 }

/-- Method `initSolution`, overload with a vector multiplier guess. -/
def initSolutionVectorGuess (c : Config K) (initializer : InitCGMRESWithSaturation K)
    (s : Solver K) (initial_time : K) (initial_state_vec initial_guess_input_vec : Vec K)
    (initial_guess_lagrange_multiplier : Vec K)
    (convergence_radius : K) (max_iteration : Int) : Solver K :=
  let r := initializer.solve0stepNOCPVector initial_time initial_state_vec
    initial_guess_input_vec initial_guess_lagrange_multiplier convergence_radius max_iteration
  let d := c.dim_control_input_and_constraints
  let s : Solver K := { s with
    initial_time_ := initial_time }
  let initial_solution_vec := r.initial_solution_vec
  let initial_lambda_vec := c.model.phixFunc initial_time initial_state_vec
  let s : Solver K := forUp
    (fun i (s : Solver K) =>
      { s with
        control_input_and_constraints_seq_ :=
          setSegment s.control_input_and_constraints_seq_ (i * d) d
            (segment initial_solution_vec 0 d)
        dummy_input_mat_ :=
          setCol s.dummy_input_mat_ i (segment initial_solution_vec d c.dim_saturation)
        saturation_lagrange_multiplier_mat_ :=
          setCol s.saturation_lagrange_multiplier_mat_ i
            (segment initial_solution_vec (d + c.dim_saturation) c.dim_saturation)
        state_mat_ := setCol s.state_mat_ i initial_state_vec
        lambda_mat_ := setCol s.lambda_mat_ i initial_lambda_vec })
    c.horizon_division_num 0 s
  let s : Solver K := forUp
    (fun i (s : Solver K) =>
      { s with
        control_input_and_constraints_error_seq_ :=
          setSegment s.control_input_and_constraints_error_seq_ (i * d) d
            r.control_input_and_constraints_error
        dummy_error_mat_ := setCol s.dummy_error_mat_ i r.dummy_input_error
        saturation_error_mat_ :=
          setCol s.saturation_error_mat_ i r.control_input_saturation_error })
    c.horizon_division_num 0 s
  let s : Solver K := { s with
    state_error_mat_ := fun _ _ => 0 }
  { s with
    lambda_error_mat_ := fun _ _ => 0 }

/-- Method `initSolution`, overload with a scalar multiplier guess. -/
def initSolutionScalarGuess (c : Config K) (initializer : InitCGMRESWithSaturation K)
    (s : Solver K) (initial_time : K) (initial_state_vec initial_guess_input_vec : Vec K)
    (initial_guess_lagrange_multiplier : K)
    (convergence_radius : K) (max_iteration : Int) : Solver K :=
  let r := initializer.solve0stepNOCPScalar initial_time initial_state_vec
    initial_guess_input_vec initial_guess_lagrange_multiplier convergence_radius max_iteration
  let d := c.dim_control_input_and_constraints
  let s : Solver K := { s with
    initial_time_ := initial_time }
  let initial_solution_vec := r.initial_solution_vec
  let initial_lambda_vec := c.model.phixFunc initial_time initial_state_vec
  let s : Solver K := forUp
    (fun i (s : Solver K) =>
      { s with
        control_input_and_constraints_seq_ :=
          setSegment s.control_input_and_constraints_seq_ (i * d) d
            (segment initial_solution_vec 0 d)
        dummy_input_mat_ :=
          setCol s.dummy_input_mat_ i (segment initial_solution_vec d c.dim_saturation)
        saturation_lagrange_multiplier_mat_ :=
          setCol s.saturation_lagrange_multiplier_mat_ i
            (segment initial_solution_vec (d + c.dim_saturation) c.dim_saturation)
        state_mat_ := setCol s.state_mat_ i initial_state_vec
        lambda_mat_ := setCol s.lambda_mat_ i initial_lambda_vec })
    c.horizon_division_num 0 s
  let s : Solver K := forUp
    (fun i (s : Solver K) =>
      { s with
        control_input_and_constraints_error_seq_ :=
          setSegment s.control_input_and_constraints_error_seq_ (i * d) d
            r.control_input_and_constraints_error
        dummy_error_mat_ := setCol s.dummy_error_mat_ i r.dummy_input_error
        saturation_error_mat_ :=
          setCol s.saturation_error_mat_ i r.control_input_saturation_error })
    c.horizon_division_num 0 s
  let s : Solver K := { s with
    state_error_mat_ := fun _ _ => 0 }
  { s with
    lambda_error_mat_ := fun _ _ => 0 }

end Initialisation

/-- The trajectory of `s` is the bootstrap solution `sol` replicated over all nodes
for initial time `t0` and initial state `x0`. -/
structure SeededFrom {K : Type} [Field K] (c : Config K) (s : Solver K) (t0 : K)
    (x0 sol : Vec K) : Prop where
  /-- Node segments of `control_input_and_constraints_seq_`. -/
  control_input_and_constraints : ∀ i, i < c.horizon_division_num →
    segment s.control_input_and_constraints_seq_ (i * c.dim_control_input_and_constraints)
        c.dim_control_input_and_constraints
      = segment sol 0 c.dim_control_input_and_constraints
  /-- Columns of `dummy_input_mat_`. -/
  dummy : ∀ i, i < c.horizon_division_num →
    col s.dummy_input_mat_ i = segment sol c.dim_control_input_and_constraints c.dim_saturation
  /-- Columns of `saturation_lagrange_multiplier_mat_`. -/
  multiplier : ∀ i, i < c.horizon_division_num →
    col s.saturation_lagrange_multiplier_mat_ i
      = segment sol (c.dim_control_input_and_constraints + c.dim_saturation) c.dim_saturation
  /-- Columns of `state_mat_`. -/
  state : ∀ i, i < c.horizon_division_num → col s.state_mat_ i = x0
  /-- Columns of `lambda_mat_`. -/
  lambda : ∀ i, i < c.horizon_division_num → col s.lambda_mat_ i = c.model.phixFunc t0 x0
  /-- Member `state_error_mat_`. -/
  state_error : s.state_error_mat_ = fun _ _ => 0
  /-- Member `lambda_error_mat_`. -/
  lambda_error : s.lambda_error_mat_ = fun _ _ => 0
  /-- Member `initial_time_`. -/
  initial_time : s.initial_time_ = t0

section ErrorNorm

variable {K : Type} [Field K]

/-- Member `dim_control_input_and_constraints_seq_`. -/
def Config.dim_control_input_and_constraints_seq (c : Config K) : Nat :=
  c.horizon_division_num * c.dim_control_input_and_constraints

/-- Call `v.squaredNorm()` on a vector of size `n`. -/
def squaredNorm (v : Vec K) (n : Nat) : K :=
  Finset.sum (Finset.range n) (fun k => v k * v k)

/-- Content of the local buffers of `getError` when they are allocated. -/
structure GetErrorLocals (K : Type) where
  /-- Local `control_input_and_constraints_error_seq`. -/
  control_input_and_constraints_error_seq : Vec K
  /-- Local `state_error_mat`. -/
  state_error_mat : Mat K
  /-- Local `lambda_error_mat`. -/
  lambda_error_mat : Mat K
  /-- Local `dummy_error_mat`. -/
  dummy_error_mat : Mat K
  /-- Local `saturation_error_mat`. -/
  saturation_error_mat : Mat K

/-- Method `getError`; `sqrt` is the library function `std::sqrt`.  Returns the
updated members (the scratch member `dx_vec_` is written) and the error. -/
def getError (sqrt : K → K) (c : Config K) (s : Solver K) (locals : GetErrorLocals K)
    (current_time : K) (current_state_vec : Vec K) : Solver K × K :=
  let control_input_and_constraints_error_seq :=
    computeOptimalityErrorforControlInputAndConstraints c s.initial_time_ current_time
      current_state_vec s.control_input_and_constraints_seq_ s.state_mat_ s.lambda_mat_
      s.saturation_lagrange_multiplier_mat_ locals.control_input_and_constraints_error_seq
  let e : ErrorOut K := computeOptimalityErrorforStateAndLambda c s.initial_time_ current_time
    current_state_vec s.control_input_and_constraints_seq_ s.state_mat_ s.lambda_mat_
    locals.state_error_mat locals.lambda_error_mat
  let s : Solver K := { s with
    dx_vec_ := e.dx_vec }
  let o : SaturationOut K := computeOptimalityErrorforSaturation c
    s.control_input_and_constraints_seq_ s.dummy_input_mat_
    s.saturation_lagrange_multiplier_mat_ locals.dummy_error_mat locals.saturation_error_mat
  let squared_error :=
    squaredNorm control_input_and_constraints_error_seq c.dim_control_input_and_constraints_seq
  let squared_error := forUp
    (fun i acc =>
      acc + (squaredNorm (col e.optimality_for_state i) c.dim_state
        + squaredNorm (col e.optimality_for_lambda i) c.dim_state
        + squaredNorm (col o.optimality_for_dummy i) c.dim_saturation
        + squaredNorm (col o.optimality_for_saturation i) c.dim_saturation))
    c.horizon_division_num 0 squared_error
  (s, sqrt squared_error)

end ErrorNorm

/-! ## Construction, bootstrap residuals and bounds symmetry -/

/-- Constructor `MultipleShootingWithSaturation(model, control_input_saturation_seq,
horizon_max_length, alpha, horizon_division_num, difference_increment, zeta,
dim_krylov)`: stores the parameters (`exp` is the library function `std::exp`),
allocates every buffer with `resize`, which leaves the content unset (`fresh`: what
the new allocations and the `double` members without an assignment hold), and
sets the stored Krylov direction and the two update matrices to zero. -/
def MultipleShootingWithSaturation {K : Type} [Field K] (exp : K → K) (model : NMPCModel K)
    (control_input_saturation_seq : ControlInputSaturationSequence K)
    (horizon_max_length alpha : K) (horizon_division_num : Nat)
    (difference_increment zeta : K) (dim_krylov : Nat) (fresh : Solver K) :
    Config K × Solver K :=
  ({ model := model
     control_input_saturation_seq := control_input_saturation_seq
     horizon_max_length := horizon_max_length
     alpha := alpha
     horizon_division_num := horizon_division_num
     difference_increment := difference_increment
     zeta := zeta
     dim_krylov := dim_krylov
     exp := exp },
   { fresh with
     control_input_and_constraints_update_seq_ := fun _ => 0
     state_update_mat_ := fun _ _ => 0
     lambda_update_mat_ := fun _ _ => 0 })

/-- The error accumulators of `s` hold the residual vectors reported by the
bootstrap solver, replicated over all nodes. -/
structure ResidualsFrom {K : Type} [Field K] (c : Config K) (s : Solver K)
    (r : BootstrapResult K) : Prop where
  /-- Node segments of `control_input_and_constraints_error_seq_`. -/
  control_input_and_constraints : ∀ i, i < c.horizon_division_num →
    segment s.control_input_and_constraints_error_seq_
        (i * c.dim_control_input_and_constraints) c.dim_control_input_and_constraints
      = segment r.control_input_and_constraints_error 0 c.dim_control_input_and_constraints
  /-- Columns of `dummy_error_mat_`. -/
  dummy : ∀ i, i < c.horizon_division_num → col s.dummy_error_mat_ i = r.dummy_input_error
  /-- Columns of `saturation_error_mat_`. -/
  saturation : ∀ i, i < c.horizon_division_num →
    col s.saturation_error_mat_ i = r.control_input_saturation_error

/-- Modelled from the spec: the quantity the bootstrap solver compares with
`convergence_radius` (`init_cgmres_with_saturation.hpp` is not part of the source):
the squared Euclidean norm of the three residual vectors it reports for the
solution it returned; it "reaches `convergenceRadius`" when this is at most
`convergence_radius^2`. -/
def BootstrapResult.squaredError {K : Type} [Field K] (c : Config K) (r : BootstrapResult K) :
    K :=
  squaredNorm r.control_input_and_constraints_error c.dim_control_input_and_constraints
    + squaredNorm r.dummy_input_error c.dim_saturation
    + squaredNorm r.control_input_saturation_error c.dim_saturation

/-- Saturation spec in which the entries selected by `swap` are given with their
two bounds exchanged: `min(j)` returns the former `max(j)` and `max(j)` the former
`min(j)`. -/
def ControlInputSaturationSequence.swapBounds {K : Type}
    (sat : ControlInputSaturationSequence K) (swap : Nat → Bool) :
    ControlInputSaturationSequence K :=
  { sat with
    min := fun j => if swap j then sat.max j else sat.min j
    max := fun j => if swap j then sat.min j else sat.max j }

/-- Controller parameters with the bounds of the entries selected by `swap`
exchanged in the saturation spec. -/
def Config.swapBounds {K : Type} (c : Config K) (swap : Nat → Bool) : Config K :=
  { c with
    control_input_saturation_seq := c.control_input_saturation_seq.swapBounds swap }

/-- The state/costate residual of the trajectory of `s`, evaluated at time `t` and
state `x` by `computeOptimalityErrorforStateAndLambda` into any output buffers, is
zero at every node, and the accumulators `state_error_mat_` and `lambda_error_mat_`
of `s` hold that residual there. -/
def ZeroDefects {K : Type} [Field K] (c : Config K) (s : Solver K) (t : K) (x : Vec K) :
    Prop :=
  ∀ (S0 T0 : Mat K) (i : Nat), i < c.horizon_division_num → ∀ r : Nat,
    ((computeOptimalityErrorforStateAndLambda c s.initial_time_ t x
          s.control_input_and_constraints_seq_ s.state_mat_ s.lambda_mat_
          S0 T0).optimality_for_state r i = 0
      ∧ (computeOptimalityErrorforStateAndLambda c s.initial_time_ t x
          s.control_input_and_constraints_seq_ s.state_mat_ s.lambda_mat_
          S0 T0).optimality_for_lambda r i = 0)
    ∧ (s.state_error_mat_ r i
        = (computeOptimalityErrorforStateAndLambda c s.initial_time_ t x
          s.control_input_and_constraints_seq_ s.state_mat_ s.lambda_mat_
          S0 T0).optimality_for_state r i
      ∧ s.lambda_error_mat_ r i
        = (computeOptimalityErrorforStateAndLambda c s.initial_time_ t x
          s.control_input_and_constraints_seq_ s.state_mat_ s.lambda_mat_
          S0 T0).optimality_for_lambda r i)

/-! ## Buffer accesses -/

/-- One Eigen access of the source, with the size the constructor gave the buffer
it goes to.  Indices are natural numbers; the only index of the source that can
leave them is `horizon_division_num_ - 1` for zero nodes, which is then `0` here
and still outside a buffer without columns. -/
inductive Access where
  /-- Coefficient `v(k)` of a vector with `size` entries. -/
  | vecCoeff (size k : Nat)
  /-- Block `v.segment(start, len)` of a vector with `size` entries. -/
  | vecSegment (size start len : Nat)
  /-- Column `M.col(k)` of a matrix with `cols` columns. -/
  | matCol (cols k : Nat)
  /-- Coefficient `M(r, k)` of a matrix with `rows` rows and `cols` columns. -/
  | matCoeff (rows cols r k : Nat)

/-- The access stays inside its buffer. -/
def Access.InBounds : Access → Prop
  | .vecCoeff size k => k < size
  | .vecSegment size start len => start + len ≤ size
  | .matCol cols k => k < cols
  | .matCoeff rows cols r k => r < rows ∧ k < cols

instance (a : Access) : Decidable a.InBounds := by
  cases a <;> unfold Access.InBounds <;> infer_instance

/-- Accesses of a loop `for (i = start; i < start + n; i++)` whose iteration `i`
performs the accesses `body i`, in execution order. -/
def accessesUp (body : Nat → List Access) (n start : Nat) : List Access :=
  forUp (fun i acc => acc ++ body i) n start []

/-- Accesses of a loop `for (i = top; i >= 1; i--)` whose iteration `i` performs the
accesses `body i`, in execution order. -/
def accessesDown (body : Nat → List Access) (top : Nat) : List Access :=
  forDown (fun i acc => acc ++ body i) top []

section Accesses

variable {K : Type}

/-- Accesses of `addDerivativeSaturationWithControlInput`; its vector arguments are
one node's segment (`dim_control_input_and_constraints_` entries) and one column of
the multiplier matrix (`dim_saturation_` entries). -/
def addDerivativeSaturationWithControlInput_accesses (c : Config K) : List Access :=
  accessesUp
    (fun i =>
      [.vecCoeff c.dim_control_input_and_constraints (c.control_input_saturation_seq.index i),
       .vecCoeff c.dim_control_input_and_constraints (c.control_input_saturation_seq.index i),
       .vecCoeff c.dim_saturation i])
    c.dim_saturation 0

/-- Accesses of one node of `computeOptimalityErrorforControlInputAndConstraints`:
the call of `huFunc` (with the state column `state`, if the state comes from the
matrix) and the call of `addDerivativeSaturationWithControlInput`. -/
def controlNode_accesses (c : Config K) (state : List Access) (i : Nat) : List Access :=
  let n := c.horizon_division_num
  let d := c.dim_control_input_and_constraints
  state
    ++ [.vecSegment (n * d) (i * d) d, .matCol n i, .vecSegment (n * d) (i * d) d]
    ++ [.vecSegment (n * d) (i * d) d, .matCol n i, .vecSegment (n * d) (i * d) d]
    ++ addDerivativeSaturationWithControlInput_accesses c

/-- Accesses of `computeOptimalityErrorforControlInputAndConstraints`. -/
def computeOptimalityErrorforControlInputAndConstraints_accesses (c : Config K) :
    List Access :=
  let n := c.horizon_division_num
  controlNode_accesses c [] 0
    ++ accessesUp (fun i => controlNode_accesses c [.matCol n (i - 1)] i) (n - 1) 1

/-- Accesses of `computeOptimalityErrorforStateAndLambda`. -/
def computeOptimalityErrorforStateAndLambda_accesses (c : Config K) : List Access :=
  let n := c.horizon_division_num
  let d := c.dim_control_input_and_constraints
  [.vecSegment (n * d) 0 c.dim_control_input, .matCol n 0, .matCol n 0]
    ++ accessesUp
      (fun i =>
        [.matCol n (i - 1), .vecSegment (n * d) (i * d) c.dim_control_input,
         .matCol n i, .matCol n i, .matCol n (i - 1)])
      (n - 1) 1
    ++ [.matCol n (n - 1), .matCol n (n - 1), .matCol n (n - 1)]
    ++ accessesDown
      (fun i =>
        [.matCol n (i - 1), .vecSegment (n * d) (i * d) d, .matCol n i,
         .matCol n (i - 1), .matCol n (i - 1), .matCol n i])
      (n - 1)

/-- Accesses of `computeStateAndLambda`. -/
def computeStateAndLambda_accesses (c : Config K) : List Access :=
  let n := c.horizon_division_num
  let d := c.dim_control_input_and_constraints
  [.vecSegment (n * d) 0 c.dim_control_input, .matCol n 0, .matCol n 0]
    ++ accessesUp
      (fun i =>
        [.matCol n (i - 1), .vecSegment (n * d) (i * d) c.dim_control_input,
         .matCol n i, .matCol n (i - 1), .matCol n i])
      (n - 1) 1
    ++ [.matCol n (n - 1), .matCol n (n - 1), .matCol n (n - 1)]
    ++ accessesDown
      (fun i =>
        [.matCol n (i - 1), .vecSegment (n * d) (i * d) d, .matCol n i,
         .matCol n (i - 1), .matCol n i, .matCol n (i - 1)])
      (n - 1)

/-- Accesses of a nested loop `for i < horizon_division_num_, for j < dim_saturation_`
whose iteration performs the accesses `body j i`. -/
def entryAccesses (c : Config K) (body : Nat → Nat → List Access) : List Access :=
  accessesUp (fun i => accessesUp (fun j => body j i) c.dim_saturation 0)
    c.horizon_division_num 0

/-- Accesses of `computeOptimalityErrorforSaturation`. -/
def computeOptimalityErrorforSaturation_accesses (c : Config K) : List Access :=
  let n := c.horizon_division_num
  let d := c.dim_control_input_and_constraints
  let m := c.dim_saturation
  let u := fun j i => Access.vecCoeff (n * d) (i * d + c.control_input_saturation_seq.index j)
  entryAccesses c (fun j i => [.matCoeff m n j i, .matCoeff m n j i, .matCoeff m n j i])
    ++ entryAccesses c
      (fun j i => [.matCoeff m n j i, u j i, u j i, .matCoeff m n j i, .matCoeff m n j i])

/-- Accesses of `multiplySaturationDerivativeWithControlInput`. -/
def multiplySaturationDerivativeWithControlInput_accesses (c : Config K) : List Access :=
  let n := c.horizon_division_num
  let d := c.dim_control_input_and_constraints
  let m := c.dim_saturation
  let u := fun j i => Access.vecCoeff (n * d) (i * d + c.control_input_saturation_seq.index j)
  entryAccesses c (fun j i => [.matCoeff m n j i])
    ++ entryAccesses c (fun j i => [.matCoeff m n j i, u j i, u j i])

/-- Accesses of `multiplySaturationSelfDerivativeInverse`. -/
def multiplySaturationSelfDerivativeInverse_accesses (c : Config K) : List Access :=
  let n := c.horizon_division_num
  let m := c.dim_saturation
  entryAccesses c (fun j i => [.matCoeff m n j i, .matCoeff m n j i, .matCoeff m n j i])
    ++ entryAccesses c
      (fun j i =>
        [.matCoeff m n j i, .matCoeff m n j i, .matCoeff m n j i, .matCoeff m n j i,
         .matCoeff m n j i, .matCoeff m n j i, .matCoeff m n j i])

end Accesses

/-! ## A concrete instance -/

section Demo

variable {K : Type} [Field K]

/-- Plant `dx/dt = u` with stage cost `u^2 / 2` and no terminal cost: one state, one
control input, no further constraint; Hamiltonian `u^2 / 2 + lambda * u`. -/
def demoModel : NMPCModel K where
  dimState := 1
  dimControlInput := 1
  dimConstraints := 0
  stateFunc := fun _ _ u k => if k = 0 then u 0 else 0
  huFunc := fun _ _ u lambda k => if k = 0 then u 0 + lambda 0 else 0
  hxFunc := fun _ _ _ _ _ => 0
  phixFunc := fun _ _ _ => 0

/-- One box constraint `-1 <= u_0 <= 1` with weight `1`. -/
def demoSaturation : ControlInputSaturationSequence K where
  dimSaturation := 1
  index := fun _ => 0
  min := fun _ => -1
  max := fun _ => 1
  weight := fun _ => 1

/-- Solver parameters of the instance with `n` shooting nodes: maximum horizon
length `1/2`, growth rate `1`, difference increment `1/2`, stabilisation rate `1`,
Krylov dimension `1`. -/
def demoConfig (exp : K → K) (n : Nat) : Config K where
  model := demoModel
  control_input_saturation_seq := demoSaturation
  horizon_max_length := 1 / 2
  alpha := 1
  horizon_division_num := n
  difference_increment := 1 / 2
  zeta := 1
  dim_krylov := 1
  exp := exp

/-- Members of the instance: every vector entry is `v`, every trajectory entry
is `x`, every dummy and multiplier entry is `1`, the stored direction is
constantly `upd`, every residual buffer is zero; initial time `0`. -/
def demoSolver (v x upd : K) : Solver K where
  initial_time_ := 0
  incremented_time_ := 0
  dx_vec_ := fun _ => 0
  incremented_state_vec_ := fun _ => 0
  control_input_and_constraints_seq_ := fun _ => v
  incremented_control_input_and_constraints_seq_ := fun _ => 0
  control_input_and_constraints_error_seq_ := fun _ => 0
  control_input_and_constraints_error_seq_1_ := fun _ => 0
  control_input_and_constraints_error_seq_2_ := fun _ => 0
  control_input_and_constraints_error_seq_3_ := fun _ => 0
  control_input_and_constraints_update_seq_ := fun _ => upd
  state_mat_ := fun _ _ => x
  lambda_mat_ := fun _ _ => x
  incremented_state_mat_ := fun _ _ => 0
  incremented_lambda_mat_ := fun _ _ => 0
  state_error_mat_ := fun _ _ => 0
  state_error_mat_1_ := fun _ _ => 0
  lambda_error_mat_ := fun _ _ => 0
  lambda_error_mat_1_ := fun _ _ => 0
  state_update_mat_ := fun _ _ => 0
  lambda_update_mat_ := fun _ _ => 0
  dummy_input_mat_ := fun _ _ => 1
  saturation_lagrange_multiplier_mat_ := fun _ _ => 1
  dummy_error_mat_ := fun _ _ => 0
  saturation_error_mat_ := fun _ _ => 0
  dummy_error_mat_1_ := fun _ _ => 0
  saturation_error_mat_1_ := fun _ _ => 0
  dummy_update_mat_ := fun _ _ => 0
  saturation_update_mat_ := fun _ _ => 0

/-- Plant `dx/dt = u` with the time-varying stage cost `tau*x + u^2 / 2` and no
terminal cost: Hamiltonian `tau*x + u^2 / 2 + lambda * u`, so `hxFunc` returns the
evaluation time. -/
def timeVaryingModel : NMPCModel K where
  dimState := 1
  dimControlInput := 1
  dimConstraints := 0
  stateFunc := fun _ _ u k => if k = 0 then u 0 else 0
  huFunc := fun _ _ u lambda k => if k = 0 then u 0 + lambda 0 else 0
  hxFunc := fun t _ _ _ k => if k = 0 then t else 0
  phixFunc := fun _ _ _ => 0

/-- Solver parameters of `demoConfig` with the time-varying plant. -/
def timeVaryingConfig (exp : K → K) (n : Nat) : Config K where
  model := timeVaryingModel
  control_input_saturation_seq := demoSaturation
  horizon_max_length := 1 / 2
  alpha := 1
  horizon_division_num := n
  difference_increment := 1 / 2
  zeta := 1
  dim_krylov := 1
  exp := exp

/-- Bootstrap solver of the instance: every overload returns the solution
`(u, dummy, multiplier) = (0, 1, 1/2)` of the one-node problem with zero residuals. -/
def demoInitializer : InitCGMRESWithSaturation K where
  solve0stepNOCP := fun _ _ _ _ _ =>
    { initial_solution_vec := fun k => if k = 0 then 0 else if k = 1 then 1 else 1 / 2
      control_input_and_constraints_error := fun _ => 0
      dummy_input_error := fun _ => 0
      control_input_saturation_error := fun _ => 0 }
  solve0stepNOCPVector := fun _ _ _ _ _ _ =>
    { initial_solution_vec := fun k => if k = 0 then 0 else if k = 1 then 1 else 1 / 2
      control_input_and_constraints_error := fun _ => 0
      dummy_input_error := fun _ => 0
      control_input_saturation_error := fun _ => 0 }
  solve0stepNOCPScalar := fun _ _ _ _ _ _ =>
    { initial_solution_vec := fun k => if k = 0 then 0 else if k = 1 then 1 else 1 / 2
      control_input_and_constraints_error := fun _ => 0
      dummy_input_error := fun _ => 0
      control_input_saturation_error := fun _ => 0 }

/-- Krylov engine of the instance: a single Ax-hook call on the warm start,
returning the warm start unchanged. -/
def demoEngine : KrylovEngine K where
  direction := fun warm _ ax => if ax.length = 0 then some warm else none
  solution := fun warm _ _ => warm

end Demo

section FurtherInstances

variable {K : Type} [Field K]

/-- Controller of the one-node instance as the constructor leaves it, before any
call of `initSolution`; the unset buffers hold: `v` in every vector entry, `x` in
every trajectory entry, `1` in every dummy and multiplier entry. -/
def freshController (exp : K → K) (v x : K) : Config K × Solver K :=
  MultipleShootingWithSaturation exp demoModel demoSaturation (1 / 2) 1 1 (1 / 2) 1 1
    (demoSolver v x 1)

/-- Bootstrap solver that stops without converging: every overload returns the
vector `(u, dummy, multiplier) = (7, 8, 9)` and reports the value `1` in every
residual entry. -/
def stalledInitializer : InitCGMRESWithSaturation K where
  solve0stepNOCP := fun _ _ _ _ _ =>
    { initial_solution_vec := fun k => if k = 0 then 7 else if k = 1 then 8 else 9
      control_input_and_constraints_error := fun _ => 1
      dummy_input_error := fun _ => 1
      control_input_saturation_error := fun _ => 1 }
  solve0stepNOCPVector := fun _ _ _ _ _ _ =>
    { initial_solution_vec := fun k => if k = 0 then 7 else if k = 1 then 8 else 9
      control_input_and_constraints_error := fun _ => 1
      dummy_input_error := fun _ => 1
      control_input_saturation_error := fun _ => 1 }
  solve0stepNOCPScalar := fun _ _ _ _ _ _ =>
    { initial_solution_vec := fun k => if k = 0 then 7 else if k = 1 then 8 else 9
      control_input_and_constraints_error := fun _ => 1
      dummy_input_error := fun _ => 1
      control_input_saturation_error := fun _ => 1 }

end FurtherInstances

/-! ## Loop lemmas -/

section LoopLemmas

variable {σ : Type}

theorem forUp_add (body : Nat → σ → σ) (m n start : Nat) (s : σ) :
    forUp body (m + n) start s = forUp body n (start + m) (forUp body m start s) := by
  induction m generalizing start s with
  | zero => simp [forUp]
  | succ m ih =>
    have h : m + 1 + n = (m + n) + 1 := by omega
    rw [h]
    simp only [forUp]
    rw [ih]
    congr 1
    omega

theorem forUp_succ (body : Nat → σ → σ) (n start : Nat) (s : σ) :
    forUp body (n + 1) start s = body (start + n) (forUp body n start s) := by
  rw [forUp_add body n 1 start s]
  simp [forUp]

/-- Invariant rule for an upward loop. -/
theorem forUp_invariant (body : Nat → σ → σ) (Inv : Nat → σ → Prop) (n start : Nat) (s : σ)
    (h0 : Inv start s)
    (hstep : ∀ i t, start ≤ i → i < start + n → Inv i t → Inv (i + 1) (body i t)) :
    Inv (start + n) (forUp body n start s) := by
  induction n generalizing start s with
  | zero => simpa [forUp] using h0
  | succ n ih =>
    simp only [forUp]
    have h1 : Inv (start + 1) (body start s) := hstep start s (le_refl _) (by omega) h0
    have := ih (start + 1) (body start s) h1
      (fun i t hi hlt hinv => hstep i t (by omega) (by omega) hinv)
    have e : start + (n + 1) = start + 1 + n := by omega
    rw [e]
    exact this

/-- Invariant rule for a downward loop; `Inv i` is the condition before the
iteration with index `i`. -/
theorem forDown_invariant (body : Nat → σ → σ) (Inv : Nat → σ → Prop) (top : Nat) (s : σ)
    (h0 : Inv top s)
    (hstep : ∀ i t, 1 ≤ i → i ≤ top → Inv i t → Inv (i - 1) (body i t)) :
    Inv 0 (forDown body top s) := by
  induction top generalizing s with
  | zero => simpa [forDown] using h0
  | succ n ih =>
    simp only [forDown]
    have h1 : Inv n (body (n + 1) s) := by
      have := hstep (n + 1) s (by omega) (le_refl _) h0
      simpa using this
    exact ih (body (n + 1) s) h1 (fun i t hi hle hinv => hstep i t hi (by omega) hinv)

/-- Relational rule for two upward loops run side by side. -/
theorem forUp_rel {τ : Type} (body : Nat → σ → σ) (body' : Nat → τ → τ)
    (R : Nat → σ → τ → Prop) (n start : Nat) (s : σ) (s' : τ)
    (h0 : R start s s')
    (hstep : ∀ i t t', start ≤ i → i < start + n → R i t t' →
      R (i + 1) (body i t) (body' i t')) :
    R (start + n) (forUp body n start s) (forUp body' n start s') := by
  induction n generalizing start s s' with
  | zero => simpa [forUp] using h0
  | succ n ih =>
    simp only [forUp]
    have h1 := hstep start s s' (le_refl _) (by omega) h0
    have := ih (start + 1) (body start s) (body' start s') h1
      (fun i t t' hi hlt hr => hstep i t t' (by omega) (by omega) hr)
    have e : start + (n + 1) = start + 1 + n := by omega
    rw [e]
    exact this

/-- A component of the loop state that every iteration maps by `g` runs through the
loop of `g` alone. -/
theorem forUp_proj {α : Type} (f : σ → α) (g : Nat → α → α) (body : Nat → σ → σ)
    (h : ∀ i s, f (body i s) = g i (f s)) (n start : Nat) (s : σ) :
    f (forUp body n start s) = forUp g n start (f s) := by
  induction n generalizing start s with
  | zero => simp [forUp]
  | succ n ih =>
    simp only [forUp]
    rw [ih, h]

theorem forUp_id {α : Type} (n start : Nat) (a : α) :
    forUp (fun _ (b : α) => b) n start a = a := by
  induction n generalizing start with
  | zero => simp [forUp]
  | succ n ih =>
    simp only [forUp]
    exact ih _

/-- An accumulating loop is a finite sum. -/
theorem forUp_accumulate {α : Type} [AddCommMonoid α] (f : Nat → α) (n : Nat) (a : α) :
    forUp (fun i acc => acc + f i) n 0 a = a + Finset.sum (Finset.range n) f := by
  induction n with
  | zero => simp [forUp]
  | succ n ih =>
    rw [forUp_succ, ih, Nat.zero_add, Finset.sum_range_succ, add_assoc]

end LoopLemmas

section SaturationLemmas

variable {K : Type}

/-- Entries written by the nested saturation loop. -/
theorem fillEntries_apply (c : Config K) (val : Nat → Nat → K) (out : Mat K) (j i : Nat) :
    fillEntries c val out j i =
      if i < c.horizon_division_num ∧ j < c.dim_saturation then val j i else out j i := by
  unfold fillEntries
  have inner : ∀ (n : Nat) (M : Mat K) (i' : Nat),
      forUp (fun j M' => setEntry M' j i' (val j i')) n 0 M
        = fun r cc => if cc = i' ∧ r < n then val r i' else M r cc := by
    intro n M i'
    induction n with
    | zero => funext r cc; simp [forUp]
    | succ n ih =>
      rw [forUp_succ, ih]
      funext r cc
      simp only [setEntry, Nat.zero_add]
      by_cases h1 : cc = i'
      · by_cases h2 : r = n
        · subst h1; subst h2; simp
        · have : r < n + 1 ↔ r < n := by omega
          simp [h1, h2, this]
      · simp [h1]
  have outer : ∀ (n : Nat),
      forUp (fun i M => forUp (fun j M' => setEntry M' j i (val j i)) c.dim_saturation 0 M)
          n 0 out
        = fun r cc => if cc < n ∧ r < c.dim_saturation then val r cc else out r cc := by
    intro n
    induction n with
    | zero => funext r cc; simp [forUp]
    | succ n ih =>
      rw [forUp_succ, ih, Nat.zero_add, inner]
      funext r cc
      by_cases h1 : cc = n
      · subst h1
        by_cases h2 : r < c.dim_saturation <;> simp [h2]
      · have : cc < n + 1 ↔ cc < n := by omega
        simp [h1, this]
  rw [outer]

end SaturationLemmas

/-! ## Saturation residual and eliminator -/

section SaturationTheorems

variable {K : Type} [Field K]

theorem computeOptimalityErrorforSaturation_dummy (c : Config K) (U : Vec K)
    (D M o1 o2 : Mat K) (j i : Nat)
    (hi : i < c.horizon_division_num) (hj : j < c.dim_saturation) :
    (computeOptimalityErrorforSaturation c U D M o1 o2).optimality_for_dummy j i
      = 2 * M j i * D j i - c.control_input_saturation_seq.weight j := by
  simp [computeOptimalityErrorforSaturation, fillEntries_apply, hi, hj]

theorem computeOptimalityErrorforSaturation_saturation (c : Config K) (U : Vec K)
    (D M o1 o2 : Mat K) (j i : Nat)
    (hi : i < c.horizon_division_num) (hj : j < c.dim_saturation) :
    (computeOptimalityErrorforSaturation c U D M o1 o2).optimality_for_saturation j i
      = (U (i * c.dim_control_input_and_constraints + c.control_input_saturation_seq.index j)
            - (c.control_input_saturation_seq.min j + c.control_input_saturation_seq.max j) / 2)
          * (U (i * c.dim_control_input_and_constraints + c.control_input_saturation_seq.index j)
            - (c.control_input_saturation_seq.min j + c.control_input_saturation_seq.max j) / 2)
        - (c.control_input_saturation_seq.max j - c.control_input_saturation_seq.min j)
          * (c.control_input_saturation_seq.max j - c.control_input_saturation_seq.min j) / 4
        + D j i * D j i := by
  simp [computeOptimalityErrorforSaturation, fillEntries_apply, hi, hj]

theorem multiplySaturationDerivativeWithControlInput_dummy (c : Config K) (U V : Vec K)
    (o1 o2 : Mat K) (j i : Nat)
    (hi : i < c.horizon_division_num) (hj : j < c.dim_saturation) :
    (multiplySaturationDerivativeWithControlInput c U V o1 o2).optimality_for_dummy j i = 0 := by
  simp [multiplySaturationDerivativeWithControlInput, fillEntries_apply, hi, hj]

theorem multiplySaturationDerivativeWithControlInput_saturation (c : Config K) (U V : Vec K)
    (o1 o2 : Mat K) (j i : Nat)
    (hi : i < c.horizon_division_num) (hj : j < c.dim_saturation) :
    (multiplySaturationDerivativeWithControlInput c U V o1 o2).optimality_for_saturation j i
      = (2 * U (i * c.dim_control_input_and_constraints + c.control_input_saturation_seq.index j)
            - c.control_input_saturation_seq.min j - c.control_input_saturation_seq.max j)
          * V (i * c.dim_control_input_and_constraints
                + c.control_input_saturation_seq.index j) := by
  simp [multiplySaturationDerivativeWithControlInput, fillEntries_apply, hi, hj]

theorem multiplySaturationSelfDerivativeInverse_dummy (c : Config K) (U : Vec K)
    (D M A B o1 o2 : Mat K) (j i : Nat)
    (hi : i < c.horizon_division_num) (hj : j < c.dim_saturation) :
    (multiplySaturationSelfDerivativeInverse c U D M A B o1 o2).optimality_for_dummy j i
      = B j i / (2 * D j i) := by
  simp [multiplySaturationSelfDerivativeInverse, fillEntries_apply, hi, hj]

theorem multiplySaturationSelfDerivativeInverse_saturation (c : Config K) (U : Vec K)
    (D M A B o1 o2 : Mat K) (j i : Nat)
    (hi : i < c.horizon_division_num) (hj : j < c.dim_saturation) :
    (multiplySaturationSelfDerivativeInverse c U D M A B o1 o2).optimality_for_saturation j i
      = A j i / (2 * D j i) - B j i * M j i / (2 * D j i * D j i) := by
  simp [multiplySaturationSelfDerivativeInverse, fillEntries_apply, hi, hj]

/-- Closed form of `addDerivativeSaturationWithControlInput` after the first `n`
saturation entries: every component holds its old value plus the contributions of
the entries whose index it is. -/
theorem addDerivativeSaturation_loop (c : Config K) (u m v : Vec K) (n p : Nat) :
    forUp
        (fun i out =>
          setAt out (c.control_input_saturation_seq.index i)
            (out (c.control_input_saturation_seq.index i)
              + (2 * u (c.control_input_saturation_seq.index i)
                  - c.control_input_saturation_seq.min i
                  - c.control_input_saturation_seq.max i) * m i))
        n 0 v p
      = v p + Finset.sum
          ((Finset.range n).filter (fun j => c.control_input_saturation_seq.index j = p))
          (fun j => (2 * u (c.control_input_saturation_seq.index j)
            - c.control_input_saturation_seq.min j
            - c.control_input_saturation_seq.max j) * m j) := by
  induction n generalizing p with
  | zero => simp [forUp]
  | succ n ih =>
    rw [forUp_succ, Nat.zero_add, Finset.range_succ, Finset.filter_insert]
    simp only [setAt]
    by_cases hp : p = c.control_input_saturation_seq.index n
    · subst hp
      simp only [if_true]
      rw [ih, Finset.sum_insert (by simp)]
      ring
    · have hp' : ¬ c.control_input_saturation_seq.index n = p := fun h => hp h.symm
      simp only [hp, hp', if_false]
      exact ih p

/-- Closed form of `addDerivativeSaturationWithControlInput`. -/
theorem addDerivativeSaturationWithControlInput_apply (c : Config K) (u m v : Vec K) (p : Nat) :
    addDerivativeSaturationWithControlInput c u m v p
      = v p + Finset.sum
          ((Finset.range c.dim_saturation).filter
            (fun j => c.control_input_saturation_seq.index j = p))
          (fun j => (2 * u (c.control_input_saturation_seq.index j)
            - c.control_input_saturation_seq.min j
            - c.control_input_saturation_seq.max j) * m j) :=
  addDerivativeSaturation_loop c u m v c.dim_saturation p

end SaturationTheorems

/-- Field identities behind the closed-form inverse of the (dummy, multiplier)
block. -/
theorem eliminator_algebra {K : Type} [Field K] [CharZero K] (d mu a b : K) (hd : d ≠ 0) :
    2 * d * (b / (2 * d)) = b
    ∧ 2 * mu * (b / (2 * d)) + 2 * d * (a / (2 * d) - b * mu / (2 * d * d)) = a := by
  have h2 : (2 : K) ≠ 0 := two_ne_zero
  have e1 : 2 * d * (a / (2 * d)) = a := by field_simp
  have e2 : 2 * d * (b * mu / (2 * d * d)) = 2 * mu * (b / (2 * d)) := by
    field_simp
    ring
  refine ⟨by field_simp, ?_⟩
  rw [mul_sub, e1, e2]
  ring


/-! ## Sweep and defect loops -/

section SweepLemmas

variable {K : Type}

theorem col_setCol_ne (M : Mat K) (k k' : Nat) (v : Vec K) (h : k' ≠ k) :
    col (setCol M k v) k' = col M k' := by
  funext r
  simp [col, setCol, h]

theorem setCol_same (M : Mat K) (k : Nat) (v : Vec K) (r : Nat) :
    setCol M k v r k = v r := by
  simp [setCol]

theorem setCol_other (M : Mat K) (k k' : Nat) (v : Vec K) (r : Nat) (h : k' ≠ k) :
    setCol M k v r k' = M r k' := by
  simp [setCol, h]

variable [Field K]

/-- Upward loop of `computeStateAndLambda`: value of `tau`, column `0` untouched,
and the recursion every written column satisfies. -/
theorem stateSweep_loop (c : Config K) (dtau t : K) (v0 U : Vec K) (P : Mat K) (m : Nat)
    (l0 : MatLoop K) (htau : l0.tau = tauUp t dtau 1) (h0 : ∀ r, l0.mat r 0 = v0 r) :
    (forUp (stateSweepStep c dtau U P) m 1 l0).tau = tauUp t dtau (1 + m)
    ∧ (∀ r, (forUp (stateSweepStep c dtau U P) m 1 l0).mat r 0 = v0 r)
    ∧ (∀ i, 1 ≤ i → i < 1 + m → ∀ r,
        (forUp (stateSweepStep c dtau U P) m 1 l0).mat r i
          = (forUp (stateSweepStep c dtau U P) m 1 l0).mat r (i - 1)
            + dtau * c.model.stateFunc (tauUp t dtau i)
                (col (forUp (stateSweepStep c dtau U P) m 1 l0).mat (i - 1))
                (segment U (i * c.dim_control_input_and_constraints) c.dim_control_input) r
            + P r i) := by
  refine forUp_invariant (stateSweepStep c dtau U P)
    (fun k l => l.tau = tauUp t dtau k ∧ (∀ r, l.mat r 0 = v0 r)
      ∧ (∀ i, 1 ≤ i → i < k → ∀ r,
          l.mat r i = l.mat r (i - 1)
            + dtau * c.model.stateFunc (tauUp t dtau i) (col l.mat (i - 1))
                (segment U (i * c.dim_control_input_and_constraints) c.dim_control_input) r
            + P r i))
    m 1 l0 ⟨htau, h0, fun i h1 h2 => absurd h1 (by omega)⟩ ?_
  rintro k l hk _ ⟨h1, h2, h3⟩
  refine ⟨by simp [stateSweepStep, h1, tauUp], ?_, ?_⟩
  · intro r
    simp only [stateSweepStep]
    rw [setCol_other _ _ _ _ _ (by omega)]
    exact h2 r
  · intro i hi hlt r
    simp only [stateSweepStep]
    rw [col_setCol_ne _ _ _ _ (by omega : i - 1 ≠ k)]
    by_cases hik : i = k
    · subst hik
      rw [setCol_same, setCol_other _ _ _ _ _ (by omega : i - 1 ≠ i), h1]
      simp [vadd, vscale, col]
    · rw [setCol_other _ _ _ _ _ hik, setCol_other _ _ _ _ _ (by omega : i - 1 ≠ k)]
      exact h3 i hi (by omega) r

/-- Upward loop of `computeOptimalityErrorforStateAndLambda`: value of `tau`,
column `0` untouched, and the defect written to every column. -/
theorem stateError_loop (c : Config K) (dtau t : K) (v0 U : Vec K) (X : Mat K) (m : Nat)
    (l0 : MatLoop K) (htau : l0.tau = tauUp t dtau 1) (h0 : ∀ r, l0.mat r 0 = v0 r) :
    (forUp (stateErrorStep c dtau U X) m 1 l0).tau = tauUp t dtau (1 + m)
    ∧ (∀ r, (forUp (stateErrorStep c dtau U X) m 1 l0).mat r 0 = v0 r)
    ∧ (∀ i, 1 ≤ i → i < 1 + m → ∀ r,
        (forUp (stateErrorStep c dtau U X) m 1 l0).mat r i
          = X r i - X r (i - 1)
            - dtau * c.model.stateFunc (tauUp t dtau i) (col X (i - 1))
                (segment U (i * c.dim_control_input_and_constraints) c.dim_control_input) r) := by
  refine forUp_invariant (stateErrorStep c dtau U X)
    (fun k l => l.tau = tauUp t dtau k ∧ (∀ r, l.mat r 0 = v0 r)
      ∧ (∀ i, 1 ≤ i → i < k → ∀ r,
          l.mat r i = X r i - X r (i - 1)
            - dtau * c.model.stateFunc (tauUp t dtau i) (col X (i - 1))
                (segment U (i * c.dim_control_input_and_constraints) c.dim_control_input) r))
    m 1 l0 ⟨htau, h0, fun i h1 h2 => absurd h1 (by omega)⟩ ?_
  rintro k l hk _ ⟨h1, h2, h3⟩
  refine ⟨by simp [stateErrorStep, h1, tauUp], ?_, ?_⟩
  · intro r
    simp only [stateErrorStep]
    rw [setCol_other _ _ _ _ _ (by omega)]
    exact h2 r
  · intro i hi hlt r
    simp only [stateErrorStep]
    by_cases hik : i = k
    · subst hik
      rw [setCol_same, h1]
      simp [vsub, vscale, col]
    · rw [setCol_other _ _ _ _ _ hik]
      exact h3 i hi (by omega) r

/-- Downward loop of `computeStateAndLambda`: the last column is untouched and
every written column satisfies the costate recursion. -/
theorem lambdaSweep_loop (c : Config K) (dtau tauEnd : K) (vT U : Vec K) (X Q : Mat K)
    (top : Nat) (l0 : MatLoop K) (htau : l0.tau = tauEnd) (h0 : ∀ r, l0.mat r top = vT r) :
    (∀ r, (forDown (lambdaSweepStep c dtau U X Q) top l0).mat r top = vT r)
    ∧ (∀ i, 1 ≤ i → i ≤ top → ∀ r,
        (forDown (lambdaSweepStep c dtau U X Q) top l0).mat r (i - 1)
          = (forDown (lambdaSweepStep c dtau U X Q) top l0).mat r i
            + dtau * c.model.hxFunc (tauDown tauEnd dtau (top - i)) (col X (i - 1))
                (segment U (i * c.dim_control_input_and_constraints)
                  c.dim_control_input_and_constraints)
                (col (forDown (lambdaSweepStep c dtau U X Q) top l0).mat i) r
            + Q r (i - 1)) := by
  have key := forDown_invariant (lambdaSweepStep c dtau U X Q)
    (fun k l => l.tau = tauDown tauEnd dtau (top - k) ∧ (∀ r, l.mat r top = vT r)
      ∧ (∀ i, k < i → i ≤ top → ∀ r,
          l.mat r (i - 1) = l.mat r i
            + dtau * c.model.hxFunc (tauDown tauEnd dtau (top - i)) (col X (i - 1))
                (segment U (i * c.dim_control_input_and_constraints)
                  c.dim_control_input_and_constraints)
                (col l.mat i) r
            + Q r (i - 1)))
    top l0 ⟨by simp [htau, tauDown], h0, fun i h1 h2 => absurd h1 (by omega)⟩ ?_
  · exact ⟨key.2.1, fun i hi hle r => key.2.2 i (by omega) hle r⟩
  rintro k l hk hkt ⟨h1, h2, h3⟩
  refine ⟨?_, ?_, ?_⟩
  · have e : top - (k - 1) = (top - k) + 1 := by omega
    simp [lambdaSweepStep, h1, e, tauDown]
  · intro r
    simp only [lambdaSweepStep]
    rw [setCol_other _ _ _ _ _ (by omega)]
    exact h2 r
  · intro i hi hle r
    simp only [lambdaSweepStep]
    rw [col_setCol_ne _ _ _ _ (by omega : i ≠ k - 1)]
    by_cases hik : i = k
    · subst hik
      rw [setCol_same, setCol_other _ _ _ _ _ (by omega : i ≠ i - 1), h1]
      simp [vadd, vscale, col]
    · rw [setCol_other _ _ _ _ _ (by omega : i - 1 ≠ k - 1),
        setCol_other _ _ _ _ _ (by omega : i ≠ k - 1)]
      exact h3 i (by omega) hle r

/-- Downward loop of `computeOptimalityErrorforStateAndLambda`: the last column is
untouched and every written column holds the costate defect. -/
theorem lambdaError_loop (c : Config K) (dtau tauEnd : K) (vT U : Vec K) (X L : Mat K)
    (top : Nat) (l0 : MatLoop K) (htau : l0.tau = tauEnd) (h0 : ∀ r, l0.mat r top = vT r) :
    (∀ r, (forDown (lambdaErrorStep c dtau U X L) top l0).mat r top = vT r)
    ∧ (∀ i, 1 ≤ i → i ≤ top → ∀ r,
        (forDown (lambdaErrorStep c dtau U X L) top l0).mat r (i - 1)
          = L r (i - 1) - L r i
            - dtau * c.model.hxFunc (tauDown tauEnd dtau (top - i)) (col X (i - 1))
                (segment U (i * c.dim_control_input_and_constraints)
                  c.dim_control_input_and_constraints)
                (col L i) r) := by
  have key := forDown_invariant (lambdaErrorStep c dtau U X L)
    (fun k l => l.tau = tauDown tauEnd dtau (top - k) ∧ (∀ r, l.mat r top = vT r)
      ∧ (∀ i, k < i → i ≤ top → ∀ r,
          l.mat r (i - 1) = L r (i - 1) - L r i
            - dtau * c.model.hxFunc (tauDown tauEnd dtau (top - i)) (col X (i - 1))
                (segment U (i * c.dim_control_input_and_constraints)
                  c.dim_control_input_and_constraints)
                (col L i) r))
    top l0 ⟨by simp [htau, tauDown], h0, fun i h1 h2 => absurd h1 (by omega)⟩ ?_
  · exact ⟨key.2.1, fun i hi hle r => key.2.2 i (by omega) hle r⟩
  rintro k l hk hkt ⟨h1, h2, h3⟩
  refine ⟨?_, ?_, ?_⟩
  · have e : top - (k - 1) = (top - k) + 1 := by omega
    simp [lambdaErrorStep, h1, e, tauDown]
  · intro r
    simp only [lambdaErrorStep]
    rw [setCol_other _ _ _ _ _ (by omega)]
    exact h2 r
  · intro i hi hle r
    simp only [lambdaErrorStep]
    by_cases hik : i = k
    · subst hik
      rw [setCol_same, h1]
      simp [vsub, vscale, col]
    · rw [setCol_other _ _ _ _ _ (by omega : i - 1 ≠ k - 1)]
      exact h3 i (by omega) hle r

/-- Columns of the trajectory returned by `computeStateAndLambda`. -/
theorem computeStateAndLambda_columns (c : Config K) (t0 t : K) (x U : Vec K)
    (P Q X0 L0 : Mat K) :
    (∀ r, (computeStateAndLambda c t0 t x U P Q X0 L0).state_mat r 0
        = x r + deltaTau c t0 t
            * c.model.stateFunc t x (segment U 0 c.dim_control_input) r + P r 0)
    ∧ (∀ i, 1 ≤ i → i < 1 + (c.horizon_division_num - 1) → ∀ r,
        (computeStateAndLambda c t0 t x U P Q X0 L0).state_mat r i
          = (computeStateAndLambda c t0 t x U P Q X0 L0).state_mat r (i - 1)
            + deltaTau c t0 t * c.model.stateFunc (tauUp t (deltaTau c t0 t) i)
                (col (computeStateAndLambda c t0 t x U P Q X0 L0).state_mat (i - 1))
                (segment U (i * c.dim_control_input_and_constraints) c.dim_control_input) r
            + P r i)
    ∧ (∀ r, (computeStateAndLambda c t0 t x U P Q X0 L0).lambda_mat r
          (c.horizon_division_num - 1)
        = c.model.phixFunc (tauUp t (deltaTau c t0 t) (1 + (c.horizon_division_num - 1)))
            (col (computeStateAndLambda c t0 t x U P Q X0 L0).state_mat
              (c.horizon_division_num - 1)) r
          + Q r (c.horizon_division_num - 1))
    ∧ (∀ i, 1 ≤ i → i ≤ c.horizon_division_num - 1 → ∀ r,
        (computeStateAndLambda c t0 t x U P Q X0 L0).lambda_mat r (i - 1)
          = (computeStateAndLambda c t0 t x U P Q X0 L0).lambda_mat r i
            + deltaTau c t0 t * c.model.hxFunc
                (tauDown (tauUp t (deltaTau c t0 t) (1 + (c.horizon_division_num - 1)))
                  (deltaTau c t0 t) (c.horizon_division_num - 1 - i))
                (col (computeStateAndLambda c t0 t x U P Q X0 L0).state_mat (i - 1))
                (segment U (i * c.dim_control_input_and_constraints)
                  c.dim_control_input_and_constraints)
                (col (computeStateAndLambda c t0 t x U P Q X0 L0).lambda_mat i) r
            + Q r (i - 1)) := by
  have fw := stateSweep_loop c (deltaTau c t0 t) t
    (fun r => x r + deltaTau c t0 t
      * c.model.stateFunc t x (segment U 0 c.dim_control_input) r + P r 0)
    U P (c.horizon_division_num - 1)
    { mat := setCol X0 0
        (vadd (vadd x (vscale (deltaTau c t0 t)
          (c.model.stateFunc t x (segment U 0 c.dim_control_input)))) (col P 0))
      dx_vec := c.model.stateFunc t x (segment U 0 c.dim_control_input)
      tau := t + deltaTau c t0 t }
    rfl (fun r => by simp [setCol, vadd, vscale, col])
  obtain ⟨fw1, fw2, fw3⟩ := fw
  refine ⟨fw2, fw3, ?_, ?_⟩
  · intro r
    simp only [computeStateAndLambda]
    rw [fw1]
    refine (lambdaSweep_loop c _ _
      (fun r => c.model.phixFunc (tauUp t (deltaTau c t0 t) (1 + (c.horizon_division_num - 1)))
        (col (computeStateAndLambda c t0 t x U P Q X0 L0).state_mat
          (c.horizon_division_num - 1)) r + Q r (c.horizon_division_num - 1))
      U _ Q _ _ rfl (fun r => ?_)).1 r
    simp [setCol, vadd, col, computeStateAndLambda]
  · intro i hi hle r
    simp only [computeStateAndLambda]
    rw [fw1]
    exact (lambdaSweep_loop c _ _
      (fun r => c.model.phixFunc (tauUp t (deltaTau c t0 t) (1 + (c.horizon_division_num - 1)))
        (col (computeStateAndLambda c t0 t x U P Q X0 L0).state_mat
          (c.horizon_division_num - 1)) r + Q r (c.horizon_division_num - 1))
      U _ Q _ _ rfl (fun r => by simp [setCol, vadd, col, computeStateAndLambda])).2 i hi hle r

/-- Columns of the defects returned by `computeOptimalityErrorforStateAndLambda`. -/
theorem computeOptimalityErrorforStateAndLambda_columns (c : Config K) (t0 t : K)
    (x U : Vec K) (X L S0 T0 : Mat K) :
    (∀ r, (computeOptimalityErrorforStateAndLambda c t0 t x U X L S0 T0).optimality_for_state r 0
        = X r 0 - x r - deltaTau c t0 t
            * c.model.stateFunc t x (segment U 0 c.dim_control_input) r)
    ∧ (∀ i, 1 ≤ i → i < 1 + (c.horizon_division_num - 1) → ∀ r,
        (computeOptimalityErrorforStateAndLambda c t0 t x U X L S0 T0).optimality_for_state r i
          = X r i - X r (i - 1)
            - deltaTau c t0 t * c.model.stateFunc (tauUp t (deltaTau c t0 t) i)
                (col X (i - 1))
                (segment U (i * c.dim_control_input_and_constraints) c.dim_control_input) r)
    ∧ (∀ r, (computeOptimalityErrorforStateAndLambda c t0 t x U X L S0 T0).optimality_for_lambda r
          (c.horizon_division_num - 1)
        = L r (c.horizon_division_num - 1)
          - c.model.phixFunc (tauUp t (deltaTau c t0 t) (1 + (c.horizon_division_num - 1)))
              (col X (c.horizon_division_num - 1)) r)
    ∧ (∀ i, 1 ≤ i → i ≤ c.horizon_division_num - 1 → ∀ r,
        (computeOptimalityErrorforStateAndLambda c t0 t x U X L S0 T0).optimality_for_lambda r
            (i - 1)
          = L r (i - 1) - L r i
            - deltaTau c t0 t * c.model.hxFunc
                (tauDown (tauUp t (deltaTau c t0 t) (1 + (c.horizon_division_num - 1)))
                  (deltaTau c t0 t) (c.horizon_division_num - 1 - i))
                (col X (i - 1))
                (segment U (i * c.dim_control_input_and_constraints)
                  c.dim_control_input_and_constraints)
                (col L i) r) := by
  have fw := stateError_loop c (deltaTau c t0 t) t
    (fun r => X r 0 - x r - deltaTau c t0 t
      * c.model.stateFunc t x (segment U 0 c.dim_control_input) r)
    U X (c.horizon_division_num - 1)
    { mat := setCol S0 0
        (vsub (vsub (col X 0) x) (vscale (deltaTau c t0 t)
          (c.model.stateFunc t x (segment U 0 c.dim_control_input))))
      dx_vec := c.model.stateFunc t x (segment U 0 c.dim_control_input)
      tau := t + deltaTau c t0 t }
    rfl (fun r => by simp [setCol, vsub, vscale, col])
  obtain ⟨fw1, fw2, fw3⟩ := fw
  refine ⟨fw2, fw3, ?_, ?_⟩
  · intro r
    simp only [computeOptimalityErrorforStateAndLambda]
    rw [fw1]
    refine (lambdaError_loop c _ _
      (fun r => L r (c.horizon_division_num - 1)
        - c.model.phixFunc (tauUp t (deltaTau c t0 t) (1 + (c.horizon_division_num - 1)))
            (col X (c.horizon_division_num - 1)) r)
      U X L _ _ rfl (fun r => ?_)).1 r
    simp [setCol, vsub, col]
  · intro i hi hle r
    simp only [computeOptimalityErrorforStateAndLambda]
    rw [fw1]
    exact (lambdaError_loop c _ _
      (fun r => L r (c.horizon_division_num - 1)
        - c.model.phixFunc (tauUp t (deltaTau c t0 t) (1 + (c.horizon_division_num - 1)))
            (col X (c.horizon_division_num - 1)) r)
      U X L _ _ rfl (fun r => by simp [setCol, vsub, col])).2 i hi hle r

/-- The defects of a trajectory produced by the sweep are the perturbations that
were fed to the sweep. -/
theorem error_of_sweep (c : Config K) (t0 t : K) (x U : Vec K)
    (P Q X0 L0 S0 T0 : Mat K) (i : Nat) (hi : i < c.horizon_division_num) (r : Nat) :
    (computeOptimalityErrorforStateAndLambda c t0 t x U
        (computeStateAndLambda c t0 t x U P Q X0 L0).state_mat
        (computeStateAndLambda c t0 t x U P Q X0 L0).lambda_mat S0 T0).optimality_for_state r i
      = P r i
    ∧ (computeOptimalityErrorforStateAndLambda c t0 t x U
        (computeStateAndLambda c t0 t x U P Q X0 L0).state_mat
        (computeStateAndLambda c t0 t x U P Q X0 L0).lambda_mat S0 T0).optimality_for_lambda r i
      = Q r i := by
  obtain ⟨s1, s2, s3, s4⟩ := computeStateAndLambda_columns c t0 t x U P Q X0 L0
  obtain ⟨e1, e2, e3, e4⟩ := computeOptimalityErrorforStateAndLambda_columns c t0 t x U
    (computeStateAndLambda c t0 t x U P Q X0 L0).state_mat
    (computeStateAndLambda c t0 t x U P Q X0 L0).lambda_mat S0 T0
  constructor
  · rcases Nat.eq_zero_or_pos i with h0 | hpos
    · subst h0
      rw [e1, s1]
      ring
    · rw [e2 i hpos (by omega) r, s2 i hpos (by omega) r]
      ring
  · by_cases hlast : i = c.horizon_division_num - 1
    · subst hlast
      rw [e3, s3]
      ring
    · have h1 := e4 (i + 1) (by omega) (by omega) r
      have h2 := s4 (i + 1) (by omega) (by omega) r
      simp only [Nat.add_sub_cancel] at h1 h2
      rw [h1, h2]
      ring

end SweepLemmas

/-! ## Initialisation -/

section InitialisationLemmas

variable {K : Type}

/-- Loop assigning the same vector to the columns `0 .. n-1`. -/
theorem forUp_setCol_apply (v : Vec K) (M0 : Mat K) (n r i : Nat) :
    forUp (fun k (M : Mat K) => setCol M k v) n 0 M0 r i
      = if i < n then v r else M0 r i := by
  induction n with
  | zero => simp [forUp]
  | succ n ih =>
    rw [forUp_succ, Nat.zero_add]
    simp only [setCol]
    by_cases h : i = n
    · subst h
      simp
    · have : i < n + 1 ↔ i < n := by omega
      simp only [h, if_false, ih, this]

/-- Loop assigning the same vector to the segments of the nodes `0 .. n-1`. -/
theorem forUp_setSegment_apply (d : Nat) (v w0 : Vec K) (n i p : Nat)
    (hi : i < n) (hp : p < d) :
    forUp (fun k (w : Vec K) => setSegment w (k * d) d v) n 0 w0 (i * d + p) = v p := by
  induction n with
  | zero => omega
  | succ n ih =>
    rw [forUp_succ, Nat.zero_add]
    simp only [setSegment]
    by_cases h : i = n
    · subst h
      rw [if_pos ⟨by omega, by omega⟩, Nat.add_sub_cancel_left]
    · have hle : (i + 1) * d ≤ n * d := Nat.mul_le_mul_right _ (by omega)
      rw [Nat.add_mul, Nat.one_mul] at hle
      rw [if_neg (by rintro ⟨h1, _⟩; omega)]
      exact ih (by omega)

end InitialisationLemmas

section InitialisationMembers

variable {K : Type} [Field K]

/-- Members after `initSolution`, each as the loop that writes it. -/
theorem initSolution_members (c : Config K) (B : InitCGMRESWithSaturation K) (s : Solver K)
    (t0 : K) (x0 g : Vec K) (cr : K) (mi : Int) :
    (initSolution c B s t0 x0 g cr mi).control_input_and_constraints_seq_
        = forUp (fun k (w : Vec K) => setSegment w (k * c.dim_control_input_and_constraints)
            c.dim_control_input_and_constraints
            (segment (B.solve0stepNOCP t0 x0 g cr mi).initial_solution_vec 0 c.dim_control_input_and_constraints))
          c.horizon_division_num 0 s.control_input_and_constraints_seq_
    ∧ (initSolution c B s t0 x0 g cr mi).dummy_input_mat_
        = forUp (fun k (M : Mat K) => setCol M k
            (segment (B.solve0stepNOCP t0 x0 g cr mi).initial_solution_vec c.dim_control_input_and_constraints
              c.dim_saturation))
          c.horizon_division_num 0 s.dummy_input_mat_
    ∧ (initSolution c B s t0 x0 g cr mi).saturation_lagrange_multiplier_mat_
        = forUp (fun k (M : Mat K) => setCol M k
            (segment (B.solve0stepNOCP t0 x0 g cr mi).initial_solution_vec
              (c.dim_control_input_and_constraints + c.dim_saturation) c.dim_saturation))
          c.horizon_division_num 0 s.saturation_lagrange_multiplier_mat_
    ∧ (initSolution c B s t0 x0 g cr mi).state_mat_
        = forUp (fun k (M : Mat K) => setCol M k x0) c.horizon_division_num 0 s.state_mat_
    ∧ (initSolution c B s t0 x0 g cr mi).lambda_mat_
        = forUp (fun k (M : Mat K) => setCol M k (c.model.phixFunc t0 x0))
          c.horizon_division_num 0 s.lambda_mat_
    ∧ (initSolution c B s t0 x0 g cr mi).initial_time_ = t0
    ∧ (initSolution c B s t0 x0 g cr mi).state_error_mat_ = (fun _ _ => 0)
    ∧ (initSolution c B s t0 x0 g cr mi).lambda_error_mat_ = (fun _ _ => 0) := by
  refine ⟨?_, ?_, ?_, ?_, ?_, ?_, rfl, rfl⟩
  · unfold initSolution
    dsimp only
    refine (forUp_proj Solver.control_input_and_constraints_seq_ (fun _ a => a) _ ?_ _ _ _).trans ?_
    · intro i s
      rfl
    rw [forUp_id]
    refine forUp_proj Solver.control_input_and_constraints_seq_ _ _ ?_ _ _ _
    intro i s
    rfl
  · unfold initSolution
    dsimp only
    refine (forUp_proj Solver.dummy_input_mat_ (fun _ a => a) _ ?_ _ _ _).trans ?_
    · intro i s
      rfl
    rw [forUp_id]
    refine forUp_proj Solver.dummy_input_mat_ _ _ ?_ _ _ _
    intro i s
    rfl
  · unfold initSolution
    dsimp only
    refine (forUp_proj Solver.saturation_lagrange_multiplier_mat_ (fun _ a => a) _ ?_ _ _ _).trans ?_
    · intro i s
      rfl
    rw [forUp_id]
    refine forUp_proj Solver.saturation_lagrange_multiplier_mat_ _ _ ?_ _ _ _
    intro i s
    rfl
  · unfold initSolution
    dsimp only
    refine (forUp_proj Solver.state_mat_ (fun _ a => a) _ ?_ _ _ _).trans ?_
    · intro i s
      rfl
    rw [forUp_id]
    refine forUp_proj Solver.state_mat_ _ _ ?_ _ _ _
    intro i s
    rfl
  · unfold initSolution
    dsimp only
    refine (forUp_proj Solver.lambda_mat_ (fun _ a => a) _ ?_ _ _ _).trans ?_
    · intro i s
      rfl
    rw [forUp_id]
    refine forUp_proj Solver.lambda_mat_ _ _ ?_ _ _ _
    intro i s
    rfl
  · unfold initSolution
    dsimp only
    refine (forUp_proj Solver.initial_time_ (fun _ a => a) _ ?_ _ _ _).trans ?_
    · intro i s
      rfl
    rw [forUp_id]
    refine (forUp_proj Solver.initial_time_ (fun _ a => a) _ ?_ _ _ _).trans ?_
    · intro i s
      rfl
    rw [forUp_id]

/-- Members after `initSolutionVectorGuess`, each as the loop that writes it. -/
theorem initSolutionVectorGuess_members (c : Config K) (B : InitCGMRESWithSaturation K) (s : Solver K)
    (t0 : K) (x0 g : Vec K) (lv : Vec K) (cr : K) (mi : Int) :
    (initSolutionVectorGuess c B s t0 x0 g lv cr mi).control_input_and_constraints_seq_
        = forUp (fun k (w : Vec K) => setSegment w (k * c.dim_control_input_and_constraints)
            c.dim_control_input_and_constraints
            (segment (B.solve0stepNOCPVector t0 x0 g lv cr mi).initial_solution_vec 0 c.dim_control_input_and_constraints))
          c.horizon_division_num 0 s.control_input_and_constraints_seq_
    ∧ (initSolutionVectorGuess c B s t0 x0 g lv cr mi).dummy_input_mat_
        = forUp (fun k (M : Mat K) => setCol M k
            (segment (B.solve0stepNOCPVector t0 x0 g lv cr mi).initial_solution_vec c.dim_control_input_and_constraints
              c.dim_saturation))
          c.horizon_division_num 0 s.dummy_input_mat_
    ∧ (initSolutionVectorGuess c B s t0 x0 g lv cr mi).saturation_lagrange_multiplier_mat_
        = forUp (fun k (M : Mat K) => setCol M k
            (segment (B.solve0stepNOCPVector t0 x0 g lv cr mi).initial_solution_vec
              (c.dim_control_input_and_constraints + c.dim_saturation) c.dim_saturation))
          c.horizon_division_num 0 s.saturation_lagrange_multiplier_mat_
    ∧ (initSolutionVectorGuess c B s t0 x0 g lv cr mi).state_mat_
        = forUp (fun k (M : Mat K) => setCol M k x0) c.horizon_division_num 0 s.state_mat_
    ∧ (initSolutionVectorGuess c B s t0 x0 g lv cr mi).lambda_mat_
        = forUp (fun k (M : Mat K) => setCol M k (c.model.phixFunc t0 x0))
          c.horizon_division_num 0 s.lambda_mat_
    ∧ (initSolutionVectorGuess c B s t0 x0 g lv cr mi).initial_time_ = t0
    ∧ (initSolutionVectorGuess c B s t0 x0 g lv cr mi).state_error_mat_ = (fun _ _ => 0)
    ∧ (initSolutionVectorGuess c B s t0 x0 g lv cr mi).lambda_error_mat_ = (fun _ _ => 0) := by
  refine ⟨?_, ?_, ?_, ?_, ?_, ?_, rfl, rfl⟩
  · unfold initSolutionVectorGuess
    dsimp only
    refine (forUp_proj Solver.control_input_and_constraints_seq_ (fun _ a => a) _ ?_ _ _ _).trans ?_
    · intro i s
      rfl
    rw [forUp_id]
    refine forUp_proj Solver.control_input_and_constraints_seq_ _ _ ?_ _ _ _
    intro i s
    rfl
  · unfold initSolutionVectorGuess
    dsimp only
    refine (forUp_proj Solver.dummy_input_mat_ (fun _ a => a) _ ?_ _ _ _).trans ?_
    · intro i s
      rfl
    rw [forUp_id]
    refine forUp_proj Solver.dummy_input_mat_ _ _ ?_ _ _ _
    intro i s
    rfl
  · unfold initSolutionVectorGuess
    dsimp only
    refine (forUp_proj Solver.saturation_lagrange_multiplier_mat_ (fun _ a => a) _ ?_ _ _ _).trans ?_
    · intro i s
      rfl
    rw [forUp_id]
    refine forUp_proj Solver.saturation_lagrange_multiplier_mat_ _ _ ?_ _ _ _
    intro i s
    rfl
  · unfold initSolutionVectorGuess
    dsimp only
    refine (forUp_proj Solver.state_mat_ (fun _ a => a) _ ?_ _ _ _).trans ?_
    · intro i s
      rfl
    rw [forUp_id]
    refine forUp_proj Solver.state_mat_ _ _ ?_ _ _ _
    intro i s
    rfl
  · unfold initSolutionVectorGuess
    dsimp only
    refine (forUp_proj Solver.lambda_mat_ (fun _ a => a) _ ?_ _ _ _).trans ?_
    · intro i s
      rfl
    rw [forUp_id]
    refine forUp_proj Solver.lambda_mat_ _ _ ?_ _ _ _
    intro i s
    rfl
  · unfold initSolutionVectorGuess
    dsimp only
    refine (forUp_proj Solver.initial_time_ (fun _ a => a) _ ?_ _ _ _).trans ?_
    · intro i s
      rfl
    rw [forUp_id]
    refine (forUp_proj Solver.initial_time_ (fun _ a => a) _ ?_ _ _ _).trans ?_
    · intro i s
      rfl
    rw [forUp_id]

/-- Members after `initSolutionScalarGuess`, each as the loop that writes it. -/
theorem initSolutionScalarGuess_members (c : Config K) (B : InitCGMRESWithSaturation K) (s : Solver K)
    (t0 : K) (x0 g : Vec K) (ls : K) (cr : K) (mi : Int) :
    (initSolutionScalarGuess c B s t0 x0 g ls cr mi).control_input_and_constraints_seq_
        = forUp (fun k (w : Vec K) => setSegment w (k * c.dim_control_input_and_constraints)
            c.dim_control_input_and_constraints
            (segment (B.solve0stepNOCPScalar t0 x0 g ls cr mi).initial_solution_vec 0 c.dim_control_input_and_constraints))
          c.horizon_division_num 0 s.control_input_and_constraints_seq_
    ∧ (initSolutionScalarGuess c B s t0 x0 g ls cr mi).dummy_input_mat_
        = forUp (fun k (M : Mat K) => setCol M k
            (segment (B.solve0stepNOCPScalar t0 x0 g ls cr mi).initial_solution_vec c.dim_control_input_and_constraints
              c.dim_saturation))
          c.horizon_division_num 0 s.dummy_input_mat_
    ∧ (initSolutionScalarGuess c B s t0 x0 g ls cr mi).saturation_lagrange_multiplier_mat_
        = forUp (fun k (M : Mat K) => setCol M k
            (segment (B.solve0stepNOCPScalar t0 x0 g ls cr mi).initial_solution_vec
              (c.dim_control_input_and_constraints + c.dim_saturation) c.dim_saturation))
          c.horizon_division_num 0 s.saturation_lagrange_multiplier_mat_
    ∧ (initSolutionScalarGuess c B s t0 x0 g ls cr mi).state_mat_
        = forUp (fun k (M : Mat K) => setCol M k x0) c.horizon_division_num 0 s.state_mat_
    ∧ (initSolutionScalarGuess c B s t0 x0 g ls cr mi).lambda_mat_
        = forUp (fun k (M : Mat K) => setCol M k (c.model.phixFunc t0 x0))
          c.horizon_division_num 0 s.lambda_mat_
    ∧ (initSolutionScalarGuess c B s t0 x0 g ls cr mi).initial_time_ = t0
    ∧ (initSolutionScalarGuess c B s t0 x0 g ls cr mi).state_error_mat_ = (fun _ _ => 0)
    ∧ (initSolutionScalarGuess c B s t0 x0 g ls cr mi).lambda_error_mat_ = (fun _ _ => 0) := by
  refine ⟨?_, ?_, ?_, ?_, ?_, ?_, rfl, rfl⟩
  · unfold initSolutionScalarGuess
    dsimp only
    refine (forUp_proj Solver.control_input_and_constraints_seq_ (fun _ a => a) _ ?_ _ _ _).trans ?_
    · intro i s
      rfl
    rw [forUp_id]
    refine forUp_proj Solver.control_input_and_constraints_seq_ _ _ ?_ _ _ _
    intro i s
    rfl
  · unfold initSolutionScalarGuess
    dsimp only
    refine (forUp_proj Solver.dummy_input_mat_ (fun _ a => a) _ ?_ _ _ _).trans ?_
    · intro i s
      rfl
    rw [forUp_id]
    refine forUp_proj Solver.dummy_input_mat_ _ _ ?_ _ _ _
    intro i s
    rfl
  · unfold initSolutionScalarGuess
    dsimp only
    refine (forUp_proj Solver.saturation_lagrange_multiplier_mat_ (fun _ a => a) _ ?_ _ _ _).trans ?_
    · intro i s
      rfl
    rw [forUp_id]
    refine forUp_proj Solver.saturation_lagrange_multiplier_mat_ _ _ ?_ _ _ _
    intro i s
    rfl
  · unfold initSolutionScalarGuess
    dsimp only
    refine (forUp_proj Solver.state_mat_ (fun _ a => a) _ ?_ _ _ _).trans ?_
    · intro i s
      rfl
    rw [forUp_id]
    refine forUp_proj Solver.state_mat_ _ _ ?_ _ _ _
    intro i s
    rfl
  · unfold initSolutionScalarGuess
    dsimp only
    refine (forUp_proj Solver.lambda_mat_ (fun _ a => a) _ ?_ _ _ _).trans ?_
    · intro i s
      rfl
    rw [forUp_id]
    refine forUp_proj Solver.lambda_mat_ _ _ ?_ _ _ _
    intro i s
    rfl
  · unfold initSolutionScalarGuess
    dsimp only
    refine (forUp_proj Solver.initial_time_ (fun _ a => a) _ ?_ _ _ _).trans ?_
    · intro i s
      rfl
    rw [forUp_id]
    refine (forUp_proj Solver.initial_time_ (fun _ a => a) _ ?_ _ _ _).trans ?_
    · intro i s
      rfl
    rw [forUp_id]

/-- Trajectory seeded by the loops of `initSolution`: what the members hold at every
node when they are the loops of `*_members`. -/
theorem seeded_nodes (c : Config K) (sol x0 lam0 w0 : Vec K) (D0 M0 X0 L0 : Mat K)
    (i : Nat) (hi : i < c.horizon_division_num) :
    segment (forUp (fun k (w : Vec K) => setSegment w (k * c.dim_control_input_and_constraints)
          c.dim_control_input_and_constraints
          (segment sol 0 c.dim_control_input_and_constraints))
        c.horizon_division_num 0 w0)
        (i * c.dim_control_input_and_constraints) c.dim_control_input_and_constraints
      = segment sol 0 c.dim_control_input_and_constraints
    ∧ col (forUp (fun k (M : Mat K) => setCol M k
          (segment sol c.dim_control_input_and_constraints c.dim_saturation))
        c.horizon_division_num 0 D0) i
      = segment sol c.dim_control_input_and_constraints c.dim_saturation
    ∧ col (forUp (fun k (M : Mat K) => setCol M k
          (segment sol (c.dim_control_input_and_constraints + c.dim_saturation)
            c.dim_saturation))
        c.horizon_division_num 0 M0) i
      = segment sol (c.dim_control_input_and_constraints + c.dim_saturation) c.dim_saturation
    ∧ col (forUp (fun k (M : Mat K) => setCol M k x0) c.horizon_division_num 0 X0) i = x0
    ∧ col (forUp (fun k (M : Mat K) => setCol M k lam0) c.horizon_division_num 0 L0) i
      = lam0 := by
  refine ⟨?_, ?_, ?_, ?_, ?_⟩
  · funext p
    simp only [segment]
    by_cases hp : p < c.dim_control_input_and_constraints
    · rw [if_pos hp, if_pos hp, forUp_setSegment_apply _ _ _ _ i p hi hp]
      simp [segment, hp]
    · rw [if_neg hp, if_neg hp]
  · funext r
    simp only [col]
    rw [forUp_setCol_apply, if_pos hi]
  · funext r
    simp only [col]
    rw [forUp_setCol_apply, if_pos hi]
  · funext r
    simp only [col]
    rw [forUp_setCol_apply, if_pos hi]
  · funext r
    simp only [col]
    rw [forUp_setCol_apply, if_pos hi]

end InitialisationMembers

/-! ## Hooks and Krylov solve -/

section ControllerLemmas

variable {K : Type}

theorem Solver.SameTrajectory.refl (s : Solver K) : s.SameTrajectory s :=
  ⟨rfl, rfl, rfl, rfl, rfl, rfl, rfl, rfl⟩

theorem Solver.SameTrajectory.trans {s s' s'' : Solver K}
    (h : s.SameTrajectory s') (h' : s'.SameTrajectory s'') : s.SameTrajectory s'' :=
  ⟨h'.1.trans h.1, h'.2.trans h.2, h'.3.trans h.3, h'.4.trans h.4, h'.5.trans h.5,
    h'.6.trans h.6, h'.7.trans h.7, h'.8.trans h.8⟩

variable [Field K]

theorem bFunc_sameTrajectory (c : Config K) (s : Solver K) (t : K) (x U : Vec K) :
    s.SameTrajectory (bFunc c s t x U).1 :=
  ⟨rfl, rfl, rfl, rfl, rfl, rfl, rfl, rfl⟩

theorem axFunc_sameTrajectory (c : Config K) (s : Solver K) (t : K) (x U d : Vec K) :
    s.SameTrajectory (axFunc c s t x U d).1 :=
  ⟨rfl, rfl, rfl, rfl, rfl, rfl, rfl, rfl⟩

theorem tauUp_eq (t dtau : K) (k : Nat) : tauUp t dtau k = t + (k : K) * dtau := by
  induction k with
  | zero => simp [tauUp]
  | succ k ih =>
    simp only [tauUp, ih, Nat.cast_succ]
    ring

theorem tauDown_eq (e dtau : K) (k : Nat) : tauDown e dtau k = e - (k : K) * dtau := by
  induction k with
  | zero => simp [tauDown]
  | succ k ih =>
    simp only [tauDown, ih, Nat.cast_succ]
    ring

/-- Loop of `computeOptimalityErrorforControlInputAndConstraints`: value of `tau`,
node `0` untouched, and the value written to every later node segment. -/
theorem controlError_loop (c : Config K) (dtau t : K) (U v0 : Vec K) (X L M : Mat K) (m : Nat)
    (l0 : VecLoop K) (htau : l0.tau = tauUp t dtau 1)
    (h0 : ∀ p, p < c.dim_control_input_and_constraints → l0.out p = v0 p) :
    (∀ p, p < c.dim_control_input_and_constraints →
        (forUp (controlErrorStep c dtau U X L M) m 1 l0).out p = v0 p)
    ∧ (∀ i, 1 ≤ i → i < 1 + m → ∀ p, p < c.dim_control_input_and_constraints →
        (forUp (controlErrorStep c dtau U X L M) m 1 l0).out
            (i * c.dim_control_input_and_constraints + p)
          = addDerivativeSaturationWithControlInput c
              (segment U (i * c.dim_control_input_and_constraints)
                c.dim_control_input_and_constraints)
              (col M i)
              (c.model.huFunc (tauUp t dtau i) (col X (i - 1))
                (segment U (i * c.dim_control_input_and_constraints)
                  c.dim_control_input_and_constraints)
                (col L i)) p) := by
  have key := forUp_invariant (controlErrorStep c dtau U X L M)
    (fun k l => l.tau = tauUp t dtau k
      ∧ (∀ p, p < c.dim_control_input_and_constraints → l.out p = v0 p)
      ∧ (∀ i, 1 ≤ i → i < k → ∀ p, p < c.dim_control_input_and_constraints →
          l.out (i * c.dim_control_input_and_constraints + p)
            = addDerivativeSaturationWithControlInput c
                (segment U (i * c.dim_control_input_and_constraints)
                  c.dim_control_input_and_constraints)
                (col M i)
                (c.model.huFunc (tauUp t dtau i) (col X (i - 1))
                  (segment U (i * c.dim_control_input_and_constraints)
                    c.dim_control_input_and_constraints)
                  (col L i)) p))
    m 1 l0 ⟨htau, h0, fun i h1 h2 => absurd h1 (by omega)⟩ ?_
  · exact ⟨key.2.1, key.2.2⟩
  rintro k l hk _ ⟨h1, h2, h3⟩
  refine ⟨by simp [controlErrorStep, h1, tauUp], ?_, ?_⟩
  · intro p hp
    simp only [controlErrorStep, controlNode, setSegment]
    have hlt : ¬ (k * c.dim_control_input_and_constraints ≤ p
        ∧ p < k * c.dim_control_input_and_constraints + c.dim_control_input_and_constraints) := by
      rintro ⟨hle, _⟩
      have : 1 * c.dim_control_input_and_constraints
          ≤ k * c.dim_control_input_and_constraints := Nat.mul_le_mul_right _ hk
      omega
    rw [if_neg hlt]
    exact h2 p hp
  · intro i hi hlt p hp
    simp only [controlErrorStep, controlNode, setSegment]
    by_cases hik : i = k
    · subst hik
      have hin : i * c.dim_control_input_and_constraints
            ≤ i * c.dim_control_input_and_constraints + p
          ∧ i * c.dim_control_input_and_constraints + p
            < i * c.dim_control_input_and_constraints
              + c.dim_control_input_and_constraints := ⟨by omega, by omega⟩
      rw [if_pos hin, h1, Nat.add_sub_cancel_left]
    · have hle : (i + 1) * c.dim_control_input_and_constraints
          ≤ k * c.dim_control_input_and_constraints :=
        Nat.mul_le_mul_right _ (by omega)
      rw [Nat.add_mul, Nat.one_mul] at hle
      have hout : ¬ (k * c.dim_control_input_and_constraints
            ≤ i * c.dim_control_input_and_constraints + p
          ∧ i * c.dim_control_input_and_constraints + p
            < k * c.dim_control_input_and_constraints
              + c.dim_control_input_and_constraints) := by
        rintro ⟨h, _⟩
        omega
      rw [if_neg hout]
      exact h3 i hi (by omega) p hp

/-- Node segments written by `computeOptimalityErrorforControlInputAndConstraints`. -/
theorem computeOptimalityErrorforControlInputAndConstraints_nodes (c : Config K) (t0 t : K)
    (x U : Vec K) (X L M : Mat K) (buf : Vec K) :
    (∀ p, p < c.dim_control_input_and_constraints →
        computeOptimalityErrorforControlInputAndConstraints c t0 t x U X L M buf p
          = addDerivativeSaturationWithControlInput c
              (segment U 0 c.dim_control_input_and_constraints) (col M 0)
              (c.model.huFunc t x (segment U 0 c.dim_control_input_and_constraints) (col L 0)) p)
    ∧ (∀ i, 1 ≤ i → i < 1 + (c.horizon_division_num - 1) →
        ∀ p, p < c.dim_control_input_and_constraints →
        computeOptimalityErrorforControlInputAndConstraints c t0 t x U X L M buf
            (i * c.dim_control_input_and_constraints + p)
          = addDerivativeSaturationWithControlInput c
              (segment U (i * c.dim_control_input_and_constraints)
                c.dim_control_input_and_constraints)
              (col M i)
              (c.model.huFunc (tauUp t (deltaTau c t0 t) i) (col X (i - 1))
                (segment U (i * c.dim_control_input_and_constraints)
                  c.dim_control_input_and_constraints)
                (col L i)) p) := by
  have key := controlError_loop c (deltaTau c t0 t) t U
    (addDerivativeSaturationWithControlInput c
      (segment U 0 c.dim_control_input_and_constraints) (col M 0)
      (c.model.huFunc t x (segment U 0 c.dim_control_input_and_constraints) (col L 0)))
    X L M (c.horizon_division_num - 1)
    { out := controlNode c t x (col L 0) U M 0 buf, tau := t + deltaTau c t0 t }
    rfl
    (fun p hp => by
      simp only [controlNode, setSegment, Nat.zero_mul, Nat.zero_add, Nat.sub_zero]
      rw [if_pos ⟨Nat.zero_le _, hp⟩])
  exact key

/-- Evaluation times of `computeOptimalityErrorforStateAndLambda`: node `i`'s state
defect evaluates `stateFunc` at `t + i*dtau`, while the costate defect of node
`i - 1` evaluates `hxFunc` at `t + (i+1)*dtau`. -/
theorem computeOptimalityErrorforStateAndLambda_times (c : Config K) (t0 t : K)
    (x U : Vec K) (X L S0 T0 : Mat K) (i : Nat) (hi : 1 ≤ i)
    (hle : i ≤ c.horizon_division_num - 1) (r : Nat) :
    (computeOptimalityErrorforStateAndLambda c t0 t x U X L S0 T0).optimality_for_state r i
        = X r i - X r (i - 1)
          - deltaTau c t0 t * c.model.stateFunc (t + (i : K) * deltaTau c t0 t) (col X (i - 1))
              (segment U (i * c.dim_control_input_and_constraints) c.dim_control_input) r
    ∧ (computeOptimalityErrorforStateAndLambda c t0 t x U X L S0 T0).optimality_for_lambda r
          (i - 1)
        = L r (i - 1) - L r i
          - deltaTau c t0 t * c.model.hxFunc (t + ((i : K) + 1) * deltaTau c t0 t)
              (col X (i - 1))
              (segment U (i * c.dim_control_input_and_constraints)
                c.dim_control_input_and_constraints)
              (col L i) r := by
  obtain ⟨_, e2, _, e4⟩ := computeOptimalityErrorforStateAndLambda_columns c t0 t x U X L S0 T0
  constructor
  · rw [e2 i hi (by omega) r, tauUp_eq]
  · rw [e4 i hi hle r, tauDown_eq, tauUp_eq]
    have hcast : ((c.horizon_division_num - 1 - i : Nat) : K)
        = ((1 + (c.horizon_division_num - 1) : Nat) : K) - ((i : K) + 1) := by
      have : 1 + (c.horizon_division_num - 1) = (c.horizon_division_num - 1 - i) + (i + 1) := by
        omega
      rw [this]
      push_cast
      ring
    rw [hcast]
    congr 3
    ring

theorem krylovStep_sameTrajectory (c : Config K) (eng : KrylovEngine K) (t : K)
    (x U warm b : Vec K) (l : KrylovLoop K) :
    l.solver.SameTrajectory (krylovStep c eng t x U warm b l).solver := by
  unfold krylovStep
  cases eng.direction warm b l.ax with
  | none => exact Solver.SameTrajectory.refl _
  | some d => exact axFunc_sameTrajectory c l.solver t x U d

/-- The Krylov solve leaves the trajectory, the predicted state and the time
members as they were. -/
theorem forwardDifferenceGMRES_sameTrajectory (c : Config K) (eng : KrylovEngine K)
    (s : Solver K) (t : K) (x : Vec K) :
    s.SameTrajectory (forwardDifferenceGMRES c eng s t x) := by
  have hb := bFunc_sameTrajectory c s t x s.control_input_and_constraints_seq_
  have hl := forUp_invariant
    (fun _ l => krylovStep c eng t x s.control_input_and_constraints_seq_
      s.control_input_and_constraints_update_seq_
      (bFunc c s t x s.control_input_and_constraints_seq_).2 l)
    (fun _ l => s.SameTrajectory l.solver) c.dim_krylov 0
    { solver := (bFunc c s t x s.control_input_and_constraints_seq_).1, ax := [] } hb
    (fun _ l _ _ h => h.trans (krylovStep_sameTrajectory c eng t x _ _ _ l))
  exact ⟨hl.1, hl.2, hl.3, hl.4, hl.5, hl.6, hl.7, hl.8⟩

/-- On the node columns the trajectory returned by `computeStateAndLambda` depends
on the perturbation matrices through their node columns only, and not on the
previous content of its output matrices. -/
theorem computeStateAndLambda_congr (c : Config K) (t0 t : K) (x U : Vec K)
    (P Q X0 L0 P' Q' X1 L1 : Mat K)
    (hP : ∀ k, k < c.horizon_division_num → col P k = col P' k)
    (hQ : ∀ k, k < c.horizon_division_num → col Q k = col Q' k)
    (i : Nat) (hi : i < c.horizon_division_num) :
    col (computeStateAndLambda c t0 t x U P Q X0 L0).state_mat i
        = col (computeStateAndLambda c t0 t x U P' Q' X1 L1).state_mat i
    ∧ col (computeStateAndLambda c t0 t x U P Q X0 L0).lambda_mat i
        = col (computeStateAndLambda c t0 t x U P' Q' X1 L1).lambda_mat i := by
  obtain ⟨a1, a2, a3, a4⟩ := computeStateAndLambda_columns c t0 t x U P Q X0 L0
  obtain ⟨b1, b2, b3, b4⟩ := computeStateAndLambda_columns c t0 t x U P' Q' X1 L1
  have eP : ∀ k, k < c.horizon_division_num → ∀ r, P r k = P' r k := fun k hk r => by
    have := congrFun (hP k hk) r
    simpa [col] using this
  have eQ : ∀ k, k < c.horizon_division_num → ∀ r, Q r k = Q' r k := fun k hk r => by
    have := congrFun (hQ k hk) r
    simpa [col] using this
  have hs : ∀ k, k < c.horizon_division_num →
      col (computeStateAndLambda c t0 t x U P Q X0 L0).state_mat k
        = col (computeStateAndLambda c t0 t x U P' Q' X1 L1).state_mat k := by
    intro k
    induction k with
    | zero =>
      intro hk
      funext r
      simp only [col]
      rw [a1, b1, eP 0 hk r]
    | succ k ih =>
      intro hk
      have ihk := ih (by omega)
      funext r
      simp only [col]
      rw [a2 (k + 1) (by omega) (by omega) r, b2 (k + 1) (by omega) (by omega) r]
      simp only [Nat.add_sub_cancel]
      rw [ihk, eP (k + 1) hk r]
      have := congrFun ihk r
      simp only [col] at this
      rw [this]
  refine ⟨hs i hi, ?_⟩
  have hl : ∀ m k, k + m = c.horizon_division_num - 1 →
      col (computeStateAndLambda c t0 t x U P Q X0 L0).lambda_mat k
        = col (computeStateAndLambda c t0 t x U P' Q' X1 L1).lambda_mat k := by
    intro m
    induction m with
    | zero =>
      intro k hk
      have hk' : k = c.horizon_division_num - 1 := by omega
      subst hk'
      funext r
      simp only [col]
      rw [a3, b3, hs _ (by omega), eQ _ (by omega) r]
    | succ m ih =>
      intro k hk
      have ihk := ih (k + 1) (by omega)
      funext r
      simp only [col]
      have ha := a4 (k + 1) (by omega) (by omega) r
      have hb := b4 (k + 1) (by omega) (by omega) r
      simp only [Nat.add_sub_cancel] at ha hb
      rw [ha, hb, ihk, hs k (by omega), eQ k (by omega) r]
      have := congrFun ihk r
      simp only [col] at this
      rw [this]
  exact hl (c.horizon_division_num - 1 - i) i (by omega)

/-- On the node columns the trajectory returned by `computeStateAndLambda` does not
depend on the previous content of its output matrices. -/
theorem computeStateAndLambda_buffer (c : Config K) (t0 t : K) (x U : Vec K)
    (P Q X0 L0 X1 L1 : Mat K) (i : Nat) (hi : i < c.horizon_division_num) :
    col (computeStateAndLambda c t0 t x U P Q X0 L0).state_mat i
        = col (computeStateAndLambda c t0 t x U P Q X1 L1).state_mat i
    ∧ col (computeStateAndLambda c t0 t x U P Q X0 L0).lambda_mat i
        = col (computeStateAndLambda c t0 t x U P Q X1 L1).lambda_mat i :=
  computeStateAndLambda_congr c t0 t x U P Q X0 L0 P Q X1 L1 (fun _ _ => rfl) (fun _ _ => rfl)
    i hi

/-- On the node columns the defects returned by
`computeOptimalityErrorforStateAndLambda` do not depend on the previous content
of its output matrices. -/
theorem computeOptimalityErrorforStateAndLambda_buffer (c : Config K) (t0 t : K)
    (x U : Vec K) (X L S0 T0 S1 T1 : Mat K) (i : Nat) (hi : i < c.horizon_division_num) :
    col (computeOptimalityErrorforStateAndLambda c t0 t x U X L S0 T0).optimality_for_state i
        = col (computeOptimalityErrorforStateAndLambda c t0 t x U X L S1 T1).optimality_for_state i
    ∧ col (computeOptimalityErrorforStateAndLambda c t0 t x U X L S0 T0).optimality_for_lambda i
        = col (computeOptimalityErrorforStateAndLambda c t0 t x U X L S1 T1).optimality_for_lambda
            i := by
  obtain ⟨a1, a2, a3, a4⟩ := computeOptimalityErrorforStateAndLambda_columns c t0 t x U X L S0 T0
  obtain ⟨b1, b2, b3, b4⟩ := computeOptimalityErrorforStateAndLambda_columns c t0 t x U X L S1 T1
  constructor
  · funext r
    simp only [col]
    rcases Nat.eq_zero_or_pos i with h0 | hpos
    · subst h0
      rw [a1, b1]
    · rw [a2 i hpos (by omega) r, b2 i hpos (by omega) r]
  · funext r
    simp only [col]
    by_cases hlast : i = c.horizon_division_num - 1
    · subst hlast
      rw [a3, b3]
    · have h1 := a4 (i + 1) (by omega) (by omega) r
      have h2 := b4 (i + 1) (by omega) (by omega) r
      simp only [Nat.add_sub_cancel] at h1 h2
      rw [h1, h2]

/-- The saturation contribution reads the multiplier vector on the saturation
rows only. -/
theorem addDerivativeSaturationWithControlInput_congr (c : Config K) (u m m' v : Vec K)
    (hm : ∀ j, j < c.dim_saturation → m j = m' j) :
    addDerivativeSaturationWithControlInput c u m v
      = addDerivativeSaturationWithControlInput c u m' v := by
  unfold addDerivativeSaturationWithControlInput
  have := forUp_rel
    (fun i out => setAt out (c.control_input_saturation_seq.index i)
      (out (c.control_input_saturation_seq.index i)
        + (2 * u (c.control_input_saturation_seq.index i)
            - c.control_input_saturation_seq.min i - c.control_input_saturation_seq.max i) * m i))
    (fun i out => setAt out (c.control_input_saturation_seq.index i)
      (out (c.control_input_saturation_seq.index i)
        + (2 * u (c.control_input_saturation_seq.index i)
            - c.control_input_saturation_seq.min i - c.control_input_saturation_seq.max i) * m' i))
    (fun _ a b => a = b) c.dim_saturation 0 v v rfl
    (fun i a b _ hlt hab => by
      subst hab
      show setAt _ _ _ = setAt _ _ _
      rw [hm i (by omega)])
  exact this

/-- On the node segments the control/constraint residual depends on the state
matrix through the columns before the last node, on the costate matrix through
the node columns, on the multiplier matrix through its saturation rows of the
node columns, and not on the previous content of the output vector. -/
theorem computeOptimalityErrorforControlInputAndConstraints_congr (c : Config K) (t0 t : K)
    (x U : Vec K) (X L M X' L' M' : Mat K) (buf buf' : Vec K)
    (hX : ∀ i, i + 1 < c.horizon_division_num → col X i = col X' i)
    (hL : ∀ i, i < c.horizon_division_num → col L i = col L' i)
    (hM : ∀ i, i < c.horizon_division_num → ∀ j, j < c.dim_saturation → M j i = M' j i)
    (k : Nat) (hk : k < c.horizon_division_num * c.dim_control_input_and_constraints) :
    computeOptimalityErrorforControlInputAndConstraints c t0 t x U X L M buf k
      = computeOptimalityErrorforControlInputAndConstraints c t0 t x U X' L' M' buf' k := by
  have hN : 0 < c.horizon_division_num := by
    rcases Nat.eq_zero_or_pos c.horizon_division_num with h | h
    · rw [h] at hk
      simp at hk
    · exact h
  have node : ∀ (tau : K) (st : Vec K) (i : Nat) (o o' : Vec K), i < c.horizon_division_num →
      (∀ p, p < i * c.dim_control_input_and_constraints → o p = o' p) →
      ∀ p, p < (i + 1) * c.dim_control_input_and_constraints →
        controlNode c tau st (col L i) U M i o p = controlNode c tau st (col L' i) U M' i o' p := by
    intro tau st i o o' hi ho p hp
    simp only [controlNode, setSegment]
    rw [hL i hi, addDerivativeSaturationWithControlInput_congr c _ (col M i) (col M' i) _
      (fun j hj => hM i hi j hj)]
    by_cases hseg : i * c.dim_control_input_and_constraints ≤ p
        ∧ p < i * c.dim_control_input_and_constraints + c.dim_control_input_and_constraints
    · simp [hseg]
    · simp only [hseg, if_false]
      apply ho
      rw [Nat.add_mul, Nat.one_mul] at hp
      by_contra hcon
      exact hseg ⟨by omega, hp⟩
  have key := forUp_rel
    (controlErrorStep c (deltaTau c t0 t) U X L M)
    (controlErrorStep c (deltaTau c t0 t) U X' L' M')
    (fun i l l' => l.tau = l'.tau
      ∧ ∀ p, p < i * c.dim_control_input_and_constraints → l.out p = l'.out p)
    (c.horizon_division_num - 1) 1
    { out := controlNode c t x (col L 0) U M 0 buf, tau := t + deltaTau c t0 t }
    { out := controlNode c t x (col L' 0) U M' 0 buf', tau := t + deltaTau c t0 t }
    ⟨rfl, fun p hp => node t x 0 buf buf' hN (fun q hq => absurd hq (by simp)) p
      (by simpa using hp)⟩
    (fun i l l' h1 h2 ⟨ht, ho⟩ => by
      refine ⟨by simp [controlErrorStep, ht], ?_⟩
      intro p hp
      simp only [controlErrorStep]
      rw [ht, hX (i - 1) (by omega)]
      exact node _ _ i l.out l'.out (by omega) ho p hp)
  have e : 1 + (c.horizon_division_num - 1) = c.horizon_division_num := by omega
  rw [e] at key
  exact key.2 k hk

theorem col_mscale_congr (a : K) (A B : Mat K) (k : Nat) (h : col A k = col B k) :
    col (mscale a A) k = col (mscale a B) k := by
  funext r
  have := congrFun h r
  simp only [col] at this
  simp only [col, mscale, this]

/-- The condensed residual as the b-hook evaluates it, with arbitrary previous
content of every buffer involved, agrees on the node segments with
`condensedResidual`. -/
theorem condensedResidual_buffers (c : Config K) (t0 ti : K) (xi : Vec K) (X L D Mu : Mat K)
    (t : K) (x U W buf : Vec K) (S0 T0 X0 L0 d0 s0 d1 s1 : Mat K)
    (k : Nat) (hk : k < c.horizon_division_num * c.dim_control_input_and_constraints) :
    computeOptimalityErrorforControlInputAndConstraints c t0 ti xi U
        (computeStateAndLambda c t0 ti xi U
          (mscale (1 - c.difference_increment * c.zeta)
            (computeOptimalityErrorforStateAndLambda c t0 t x U X L S0 T0).optimality_for_state)
          (mscale (1 - c.difference_increment * c.zeta)
            (computeOptimalityErrorforStateAndLambda c t0 t x U X L S0 T0).optimality_for_lambda)
          X0 L0).state_mat
        (computeStateAndLambda c t0 ti xi U
          (mscale (1 - c.difference_increment * c.zeta)
            (computeOptimalityErrorforStateAndLambda c t0 t x U X L S0 T0).optimality_for_state)
          (mscale (1 - c.difference_increment * c.zeta)
            (computeOptimalityErrorforStateAndLambda c t0 t x U X L S0 T0).optimality_for_lambda)
          X0 L0).lambda_mat
        (madd Mu (mscale c.difference_increment
          (multiplySaturationSelfDerivativeInverse c W D Mu
            (mscale (-c.zeta) (computeOptimalityErrorforSaturation c U D Mu d0
              s0).optimality_for_dummy)
            (mscale (-c.zeta) (computeOptimalityErrorforSaturation c U D Mu d0
              s0).optimality_for_saturation)
            d1 s1).optimality_for_saturation))
        buf k
      = condensedResidual c t0 ti xi X L D Mu t x U k := by
  have hP : ∀ j, j < c.horizon_division_num →
      col (mscale (1 - c.difference_increment * c.zeta)
          (computeOptimalityErrorforStateAndLambda c t0 t x U X L S0 T0).optimality_for_state) j
        = col (mscale (1 - c.difference_increment * c.zeta)
          (computeOptimalityErrorforStateAndLambda c t0 t x U X L (fun _ _ => 0)
            (fun _ _ => 0)).optimality_for_state) j :=
    fun j hj => col_mscale_congr _ _ _ _
      (computeOptimalityErrorforStateAndLambda_buffer c t0 t x U X L S0 T0 _ _ j hj).1
  have hQ : ∀ j, j < c.horizon_division_num →
      col (mscale (1 - c.difference_increment * c.zeta)
          (computeOptimalityErrorforStateAndLambda c t0 t x U X L S0 T0).optimality_for_lambda) j
        = col (mscale (1 - c.difference_increment * c.zeta)
          (computeOptimalityErrorforStateAndLambda c t0 t x U X L (fun _ _ => 0)
            (fun _ _ => 0)).optimality_for_lambda) j :=
    fun j hj => col_mscale_congr _ _ _ _
      (computeOptimalityErrorforStateAndLambda_buffer c t0 t x U X L S0 T0 _ _ j hj).2
  unfold condensedResidual controlResidual
  refine computeOptimalityErrorforControlInputAndConstraints_congr c t0 ti xi U _ _ _ _ _ _ _ _
    ?_ ?_ ?_ k hk
  · intro i hi
    exact (computeStateAndLambda_congr c t0 ti xi U _ _ X0 L0 _ _ (fun _ _ => 0) (fun _ _ => 0)
      hP hQ i (by omega)).1
  · intro i hi
    exact (computeStateAndLambda_congr c t0 ti xi U _ _ X0 L0 _ _ (fun _ _ => 0) (fun _ _ => 0)
      hP hQ i hi).2
  · intro i hi j hj
    simp only [madd, mscale]
    rw [multiplySaturationSelfDerivativeInverse_saturation _ _ _ _ _ _ _ _ j i hi hj,
      multiplySaturationSelfDerivativeInverse_saturation _ _ _ _ _ _ _ _ j i hi hj]
    simp only [mscale]
    rw [computeOptimalityErrorforSaturation_dummy _ _ _ _ _ _ j i hi hj,
      computeOptimalityErrorforSaturation_dummy _ _ _ _ _ _ j i hi hj,
      computeOptimalityErrorforSaturation_saturation _ _ _ _ _ _ j i hi hj,
      computeOptimalityErrorforSaturation_saturation _ _ _ _ _ _ j i hi hj]

/-- The residual of `U + h*d` as both hooks evaluate it, with arbitrary previous
content of every buffer involved, agrees on the node segments with
`directionResidual`. -/
theorem directionResidual_buffers (c : Config K) (t0 ti : K) (xi : Vec K) (X L D Mu : Mat K)
    (U d buf : Vec K) (S0 T0 X0 L0 d0 s0 d1 s1 : Mat K)
    (k : Nat) (hk : k < c.horizon_division_num * c.dim_control_input_and_constraints) :
    computeOptimalityErrorforControlInputAndConstraints c t0 ti xi
        (vadd U (vscale c.difference_increment d))
        (computeStateAndLambda c t0 ti xi (vadd U (vscale c.difference_increment d))
          (computeOptimalityErrorforStateAndLambda c t0 ti xi U X L S0 T0).optimality_for_state
          (computeOptimalityErrorforStateAndLambda c t0 ti xi U X L S0 T0).optimality_for_lambda
          X0 L0).state_mat
        (computeStateAndLambda c t0 ti xi (vadd U (vscale c.difference_increment d))
          (computeOptimalityErrorforStateAndLambda c t0 ti xi U X L S0 T0).optimality_for_state
          (computeOptimalityErrorforStateAndLambda c t0 ti xi U X L S0 T0).optimality_for_lambda
          X0 L0).lambda_mat
        (msub Mu (mscale c.difference_increment
          (multiplySaturationSelfDerivativeInverse c U D Mu
            (multiplySaturationDerivativeWithControlInput c U d d0 s0).optimality_for_dummy
            (multiplySaturationDerivativeWithControlInput c U d d0 s0).optimality_for_saturation
            d1 s1).optimality_for_saturation))
        buf k
      = directionResidual c t0 ti xi X L D Mu U d k := by
  unfold directionResidual controlResidual
  refine computeOptimalityErrorforControlInputAndConstraints_congr c t0 ti xi _ _ _ _ _ _ _ _ _
    ?_ ?_ ?_ k hk
  · intro i hi
    exact (computeStateAndLambda_congr c t0 ti xi _ _ _ X0 L0 _ _ (fun _ _ => 0) (fun _ _ => 0)
      (fun j hj =>
        (computeOptimalityErrorforStateAndLambda_buffer c t0 ti xi U X L S0 T0 _ _ j hj).1)
      (fun j hj =>
        (computeOptimalityErrorforStateAndLambda_buffer c t0 ti xi U X L S0 T0 _ _ j hj).2)
      i (by omega)).1
  · intro i hi
    exact (computeStateAndLambda_congr c t0 ti xi _ _ _ X0 L0 _ _ (fun _ _ => 0) (fun _ _ => 0)
      (fun j hj =>
        (computeOptimalityErrorforStateAndLambda_buffer c t0 ti xi U X L S0 T0 _ _ j hj).1)
      (fun j hj =>
        (computeOptimalityErrorforStateAndLambda_buffer c t0 ti xi U X L S0 T0 _ _ j hj).2)
      i hi).2
  · intro i hi j hj
    simp only [msub, mscale]
    rw [multiplySaturationSelfDerivativeInverse_saturation _ _ _ _ _ _ _ _ j i hi hj,
      multiplySaturationSelfDerivativeInverse_saturation _ _ _ _ _ _ _ _ j i hi hj,
      multiplySaturationDerivativeWithControlInput_dummy _ _ _ _ _ j i hi hj,
      multiplySaturationDerivativeWithControlInput_dummy _ _ _ _ _ j i hi hj,
      multiplySaturationDerivativeWithControlInput_saturation _ _ _ _ _ j i hi hj,
      multiplySaturationDerivativeWithControlInput_saturation _ _ _ _ _ j i hi hj]

/-- On its node segments the vector the b-hook returns is the warm-started
right-hand side built from the arguments, the trajectory members, the predicted
time and state, and the stored direction. -/
theorem bFunc_eq_warmStartedRightHandSide (c : Config K) (s : Solver K) (t : K) (x U : Vec K)
    (k : Nat) (hk : k < c.horizon_division_num * c.dim_control_input_and_constraints) :
    (bFunc c s t x U).2 k
      = warmStartedRightHandSide c s.initial_time_ s.incremented_time_ s.incremented_state_vec_
          s.state_mat_ s.lambda_mat_ s.dummy_input_mat_ s.saturation_lagrange_multiplier_mat_
          t x U s.control_input_and_constraints_update_seq_ k := by
  have h0 : (bFunc c s t x U).1.control_input_and_constraints_error_seq_ k
      = controlResidual c s.initial_time_ t x U s.state_mat_ s.lambda_mat_
          s.saturation_lagrange_multiplier_mat_ k :=
    computeOptimalityErrorforControlInputAndConstraints_congr c _ _ _ _ _ _ _ _ _ _ _ _
      (fun _ _ => rfl) (fun _ _ => rfl) (fun _ _ _ _ => rfl) k hk
  have h1 : (bFunc c s t x U).1.control_input_and_constraints_error_seq_1_ k
      = controlResidual c s.initial_time_ s.incremented_time_ s.incremented_state_vec_ U
          s.state_mat_ s.lambda_mat_ s.saturation_lagrange_multiplier_mat_ k :=
    computeOptimalityErrorforControlInputAndConstraints_congr c _ _ _ _ _ _ _ _ _ _ _ _
      (fun _ _ => rfl) (fun _ _ => rfl) (fun _ _ _ _ => rfl) k hk
  have h3 : (bFunc c s t x U).1.control_input_and_constraints_error_seq_3_ k
      = condensedResidual c s.initial_time_ s.incremented_time_ s.incremented_state_vec_
          s.state_mat_ s.lambda_mat_ s.dummy_input_mat_ s.saturation_lagrange_multiplier_mat_
          t x U k :=
    condensedResidual_buffers c _ _ _ _ _ _ _ _ _ _ s.control_input_and_constraints_seq_
      _ _ _ _ _ _ _ s.dummy_error_mat_1_ _ k hk
  have h2 : (bFunc c s t x U).1.control_input_and_constraints_error_seq_2_ k
      = directionResidual c s.initial_time_ s.incremented_time_ s.incremented_state_vec_
          s.state_mat_ s.lambda_mat_ s.dummy_input_mat_ s.saturation_lagrange_multiplier_mat_
          U s.control_input_and_constraints_update_seq_ k :=
    directionResidual_buffers c _ _ _ _ _ _ _ _ _ _ _ _ _ _ _ _ s.dummy_error_mat_1_ _ k hk
  have hb : (bFunc c s t x U).2 k
      = -(c.zeta - 1 / c.difference_increment)
          * (bFunc c s t x U).1.control_input_and_constraints_error_seq_ k
        - (bFunc c s t x U).1.control_input_and_constraints_error_seq_3_ k
            / c.difference_increment
        - ((bFunc c s t x U).1.control_input_and_constraints_error_seq_2_ k
            - (bFunc c s t x U).1.control_input_and_constraints_error_seq_1_ k)
          / c.difference_increment := rfl
  rw [hb, h0, h1, h2, h3]
  rfl

/-- The sweep fed with the defects of a trajectory returns that trajectory on the
node columns. -/
theorem sweep_of_error (c : Config K) (t0 t : K) (x U : Vec K)
    (X L S0 T0 X0 L0 : Mat K) (i : Nat) (hi : i < c.horizon_division_num) :
    col (computeStateAndLambda c t0 t x U
        (computeOptimalityErrorforStateAndLambda c t0 t x U X L S0 T0).optimality_for_state
        (computeOptimalityErrorforStateAndLambda c t0 t x U X L S0 T0).optimality_for_lambda
        X0 L0).state_mat i = col X i
    ∧ col (computeStateAndLambda c t0 t x U
        (computeOptimalityErrorforStateAndLambda c t0 t x U X L S0 T0).optimality_for_state
        (computeOptimalityErrorforStateAndLambda c t0 t x U X L S0 T0).optimality_for_lambda
        X0 L0).lambda_mat i = col L i := by
  obtain ⟨e1, e2, e3, e4⟩ := computeOptimalityErrorforStateAndLambda_columns c t0 t x U X L S0 T0
  obtain ⟨a1, a2, a3, a4⟩ := computeStateAndLambda_columns c t0 t x U
    (computeOptimalityErrorforStateAndLambda c t0 t x U X L S0 T0).optimality_for_state
    (computeOptimalityErrorforStateAndLambda c t0 t x U X L S0 T0).optimality_for_lambda X0 L0
  have hs : ∀ k, k < c.horizon_division_num →
      col (computeStateAndLambda c t0 t x U
        (computeOptimalityErrorforStateAndLambda c t0 t x U X L S0 T0).optimality_for_state
        (computeOptimalityErrorforStateAndLambda c t0 t x U X L S0 T0).optimality_for_lambda
        X0 L0).state_mat k = col X k := by
    intro k
    induction k with
    | zero =>
      intro _
      funext r
      simp only [col]
      rw [a1, e1]
      ring
    | succ k ih =>
      intro hk
      have ihk := ih (by omega)
      funext r
      simp only [col]
      rw [a2 (k + 1) (by omega) (by omega) r, e2 (k + 1) (by omega) (by omega) r]
      simp only [Nat.add_sub_cancel]
      rw [ihk]
      have := congrFun ihk r
      simp only [col] at this
      rw [this]
      ring
  refine ⟨hs i hi, ?_⟩
  have hl : ∀ m k, k + m = c.horizon_division_num - 1 →
      col (computeStateAndLambda c t0 t x U
        (computeOptimalityErrorforStateAndLambda c t0 t x U X L S0 T0).optimality_for_state
        (computeOptimalityErrorforStateAndLambda c t0 t x U X L S0 T0).optimality_for_lambda
        X0 L0).lambda_mat k = col L k := by
    intro m
    induction m with
    | zero =>
      intro k hk
      have hk' : k = c.horizon_division_num - 1 := by omega
      subst hk'
      funext r
      simp only [col]
      rw [a3, e3, hs _ (by omega)]
      ring
    | succ m ih =>
      intro k hk
      have ihk := ih (k + 1) (by omega)
      funext r
      simp only [col]
      have ha := a4 (k + 1) (by omega) (by omega) r
      have he := e4 (k + 1) (by omega) (by omega) r
      simp only [Nat.add_sub_cancel] at ha he
      rw [ha, he, ihk, hs k (by omega)]
      have := congrFun ihk r
      simp only [col] at this
      rw [this]
      ring
  exact hl (c.horizon_division_num - 1 - i) i (by omega)

/-- For the zero direction the residual of `U + h*d` is, on the node segments, the
residual of `U` at the incremented time and state on the trajectory itself. -/
theorem directionResidual_zero (c : Config K) (t0 ti : K) (xi : Vec K) (X L D Mu : Mat K)
    (U : Vec K) (k : Nat)
    (hk : k < c.horizon_division_num * c.dim_control_input_and_constraints) :
    directionResidual c t0 ti xi X L D Mu U (fun _ => 0) k
      = controlResidual c t0 ti xi U X L Mu k := by
  have hU : vadd U (vscale c.difference_increment (fun _ => (0 : K))) = U := by
    funext q
    simp [vadd, vscale]
  unfold directionResidual controlResidual
  simp only [hU]
  refine computeOptimalityErrorforControlInputAndConstraints_congr c t0 ti xi U _ _ _ _ _ _ _ _
    ?_ ?_ ?_ k hk
  · intro i hi
    exact (sweep_of_error c t0 ti xi U X L _ _ _ _ i (by omega)).1
  · intro i hi
    exact (sweep_of_error c t0 ti xi U X L _ _ _ _ i hi).2
  · intro i hi j hj
    simp only [msub, mscale]
    rw [multiplySaturationSelfDerivativeInverse_saturation _ _ _ _ _ _ _ _ j i hi hj,
      multiplySaturationDerivativeWithControlInput_dummy _ _ _ _ _ j i hi hj,
      multiplySaturationDerivativeWithControlInput_saturation _ _ _ _ _ j i hi hj]
    simp

theorem axFunc_sameIncrementedDefects (c : Config K) (s : Solver K) (t : K) (x U d : Vec K) :
    s.SameIncrementedDefects (axFunc c s t x U d).1 :=
  ⟨rfl, rfl, rfl⟩

/-- Any number of Ax-hook calls leaves the trajectory members and the members
written by the b-hook for the Ax-hook as they were. -/
theorem axFunc_foldl_same (c : Config K) (t : K) (x U : Vec K) (ds : List (Vec K))
    (s : Solver K) :
    s.SameTrajectory (ds.foldl (fun a d => (axFunc c a t x U d).1) s)
    ∧ s.SameIncrementedDefects (ds.foldl (fun a d => (axFunc c a t x U d).1) s) := by
  induction ds generalizing s with
  | nil => exact ⟨Solver.SameTrajectory.refl s, ⟨rfl, rfl, rfl⟩⟩
  | cons d ds ih =>
    simp only [List.foldl]
    obtain ⟨h1, h2⟩ := ih (axFunc c s t x U d).1
    refine ⟨(axFunc_sameTrajectory c s t x U d).trans h1, ?_⟩
    exact ⟨h2.1.trans rfl, h2.2.trans rfl, h2.3.trans rfl⟩

/-- The Ax-hook called in a state whose trajectory members are those of `s` and
whose incremented-time members are those the b-hook left returns, on the node
segments, the forward difference of `directionResidual`. -/
theorem axFunc_eq_forward_difference (c : Config K) (s s' : Solver K) (t : K) (x U d : Vec K)
    (hT : s.SameTrajectory s') (hD : (bFunc c s t x U).1.SameIncrementedDefects s')
    (k : Nat) (hk : k < c.horizon_division_num * c.dim_control_input_and_constraints) :
    (axFunc c s' t x U d).2 k
      = (directionResidual c s.initial_time_ s.incremented_time_ s.incremented_state_vec_
            s.state_mat_ s.lambda_mat_ s.dummy_input_mat_ s.saturation_lagrange_multiplier_mat_
            U d k
          - directionResidual c s.initial_time_ s.incremented_time_ s.incremented_state_vec_
            s.state_mat_ s.lambda_mat_ s.dummy_input_mat_ s.saturation_lagrange_multiplier_mat_
            U (fun _ => 0) k)
        / c.difference_increment := by
  obtain ⟨t1, t2, t3, _, t5, t6, t7, t8⟩ := hT
  obtain ⟨d1, d2, d3⟩ := hD
  have hval : (axFunc c s' t x U d).2 k
      = (computeOptimalityErrorforControlInputAndConstraints c s'.initial_time_
            s'.incremented_time_ s'.incremented_state_vec_
            (vadd U (vscale c.difference_increment d))
            (computeStateAndLambda c s'.initial_time_ s'.incremented_time_
              s'.incremented_state_vec_ (vadd U (vscale c.difference_increment d))
              s'.state_error_mat_1_ s'.lambda_error_mat_1_
              s'.incremented_state_mat_ s'.incremented_lambda_mat_).state_mat
            (computeStateAndLambda c s'.initial_time_ s'.incremented_time_
              s'.incremented_state_vec_ (vadd U (vscale c.difference_increment d))
              s'.state_error_mat_1_ s'.lambda_error_mat_1_
              s'.incremented_state_mat_ s'.incremented_lambda_mat_).lambda_mat
            (msub s'.saturation_lagrange_multiplier_mat_ (mscale c.difference_increment
              (multiplySaturationSelfDerivativeInverse c U s'.dummy_input_mat_
                s'.saturation_lagrange_multiplier_mat_
                (multiplySaturationDerivativeWithControlInput c U d s'.dummy_error_mat_
                  s'.saturation_error_mat_).optimality_for_dummy
                (multiplySaturationDerivativeWithControlInput c U d s'.dummy_error_mat_
                  s'.saturation_error_mat_).optimality_for_saturation
                s'.dummy_error_mat_1_ s'.saturation_error_mat_1_).optimality_for_saturation))
            s'.control_input_and_constraints_error_seq_2_ k
          - s'.control_input_and_constraints_error_seq_1_ k)
        / c.difference_increment := rfl
  have hb1 : (bFunc c s t x U).1.state_error_mat_1_
      = (computeOptimalityErrorforStateAndLambda c s.initial_time_ s.incremented_time_
          s.incremented_state_vec_ U s.state_mat_ s.lambda_mat_
          s.state_error_mat_1_ s.lambda_error_mat_1_).optimality_for_state := rfl
  have hb2 : (bFunc c s t x U).1.lambda_error_mat_1_
      = (computeOptimalityErrorforStateAndLambda c s.initial_time_ s.incremented_time_
          s.incremented_state_vec_ U s.state_mat_ s.lambda_mat_
          s.state_error_mat_1_ s.lambda_error_mat_1_).optimality_for_lambda := rfl
  have hb3 : (bFunc c s t x U).1.control_input_and_constraints_error_seq_1_ k
      = controlResidual c s.initial_time_ s.incremented_time_ s.incremented_state_vec_ U
          s.state_mat_ s.lambda_mat_ s.saturation_lagrange_multiplier_mat_ k :=
    computeOptimalityErrorforControlInputAndConstraints_congr c _ _ _ _ _ _ _ _ _ _ _ _
      (fun _ _ => rfl) (fun _ _ => rfl) (fun _ _ _ _ => rfl) k hk
  rw [hval, t1, t2, t3, t7, t8, d1, d2, d3, hb1, hb2, hb3,
    directionResidual_buffers c _ _ _ _ _ _ _ U d _ _ _ _ _ _ _ _ _ k hk,
    directionResidual_zero c _ _ _ _ _ _ _ U k hk]

end ControllerLemmas

section FurtherLemmas

variable {K : Type} [Field K]

/-- The sum of the two bounds of an entry does not change when they are exchanged. -/
theorem swapBounds_sum (sat : ControlInputSaturationSequence K) (swap : Nat → Bool) (j : Nat) :
    (sat.swapBounds swap).min j + (sat.swapBounds swap).max j = sat.min j + sat.max j := by
  unfold ControlInputSaturationSequence.swapBounds
  cases h : swap j
  · simp [h]
  · simp [h, add_comm]

/-- The squared width of an entry does not change when its bounds are exchanged. -/
theorem swapBounds_width (sat : ControlInputSaturationSequence K) (swap : Nat → Bool) (j : Nat) :
    ((sat.swapBounds swap).max j - (sat.swapBounds swap).min j)
        * ((sat.swapBounds swap).max j - (sat.swapBounds swap).min j)
      = (sat.max j - sat.min j) * (sat.max j - sat.min j) := by
  unfold ControlInputSaturationSequence.swapBounds
  cases h : swap j
  · simp [h]
  · simp only [h, if_true]
    ring

/-- The only member `getError` writes is the scratch vector `dx_vec_`. -/
theorem getError_members (sqrt : K → K) (c : Config K) (s : Solver K) (locals : GetErrorLocals K)
    (t : K) (x : Vec K) :
    (getError sqrt c s locals t x).1
      = { s with
          dx_vec_ := (computeOptimalityErrorforStateAndLambda c s.initial_time_ t x
            s.control_input_and_constraints_seq_ s.state_mat_ s.lambda_mat_
            locals.state_error_mat locals.lambda_error_mat).dx_vec } := rfl

/-- The prediction step of `controlUpdate` overwrites `dx_vec_` without reading it. -/
theorem predictIncrementedState_dx_vec (c : Config K) (s : Solver K) (v : Vec K) (t : K)
    (x : Vec K) :
    predictIncrementedState c { s with dx_vec_ := v } t x = predictIncrementedState c s t x := rfl

/-- The result of `controlUpdate` does not depend on the content of `dx_vec_`. -/
theorem controlUpdate_dx_vec (c : Config K) (eng : KrylovEngine K) (s : Solver K) (v : Vec K)
    (t sp : K) (x : Vec K) :
    controlUpdate c eng { s with dx_vec_ := v } t sp x = controlUpdate c eng s t sp x := by
  unfold controlUpdate
  rw [predictIncrementedState_dx_vec]

/-- For the zero direction the trajectory the Ax-hook re-derives is, on the node
columns, the current trajectory. -/
theorem axFunc_zero_trajectory (c : Config K) (s s' : Solver K) (t : K) (x U : Vec K)
    (hT : s.SameTrajectory s') (hD : (bFunc c s t x U).1.SameIncrementedDefects s')
    (i : Nat) (hi : i < c.horizon_division_num) :
    col (axFunc c s' t x U (fun _ => 0)).1.incremented_state_mat_ i = col s.state_mat_ i
    ∧ col (axFunc c s' t x U (fun _ => 0)).1.incremented_lambda_mat_ i = col s.lambda_mat_ i := by
  obtain ⟨t1, t2, t3, _, _, _, _, _⟩ := hT
  obtain ⟨d1, d2, _⟩ := hD
  have hU : vadd U (vscale c.difference_increment (fun _ => (0 : K))) = U := by
    funext q
    simp [vadd, vscale]
  have e1 : (axFunc c s' t x U (fun _ => 0)).1.incremented_state_mat_
      = (computeStateAndLambda c s'.initial_time_ s'.incremented_time_
          s'.incremented_state_vec_ (vadd U (vscale c.difference_increment (fun _ => 0)))
          s'.state_error_mat_1_ s'.lambda_error_mat_1_
          s'.incremented_state_mat_ s'.incremented_lambda_mat_).state_mat := rfl
  have e2 : (axFunc c s' t x U (fun _ => 0)).1.incremented_lambda_mat_
      = (computeStateAndLambda c s'.initial_time_ s'.incremented_time_
          s'.incremented_state_vec_ (vadd U (vscale c.difference_increment (fun _ => 0)))
          s'.state_error_mat_1_ s'.lambda_error_mat_1_
          s'.incremented_state_mat_ s'.incremented_lambda_mat_).lambda_mat := rfl
  have hb1 : (bFunc c s t x U).1.state_error_mat_1_
      = (computeOptimalityErrorforStateAndLambda c s.initial_time_ s.incremented_time_
          s.incremented_state_vec_ U s.state_mat_ s.lambda_mat_
          s.state_error_mat_1_ s.lambda_error_mat_1_).optimality_for_state := rfl
  have hb2 : (bFunc c s t x U).1.lambda_error_mat_1_
      = (computeOptimalityErrorforStateAndLambda c s.initial_time_ s.incremented_time_
          s.incremented_state_vec_ U s.state_mat_ s.lambda_mat_
          s.state_error_mat_1_ s.lambda_error_mat_1_).optimality_for_lambda := rfl
  rw [e1, e2, hU, t1, t2, t3, d1, d2, hb1, hb2]
  exact sweep_of_error c s.initial_time_ s.incremented_time_ s.incremented_state_vec_ U
    s.state_mat_ s.lambda_mat_ _ _ _ _ i hi

/-- For the zero direction the multiplier correction of the Ax-hook, the quotient
`0 / (2*dummy) - 0 * mu / (2*dummy*dummy)`, is zero on the allocated entries; the
quotient is defined in the source where the dummy entry is nonzero. -/
theorem axFunc_zero_correction (c : Config K) (s' : Solver K) (t : K) (x U : Vec K)
    (j i : Nat) (hi : i < c.horizon_division_num) (hj : j < c.dim_saturation) :
    (axFunc c s' t x U (fun _ => 0)).1.saturation_error_mat_1_ j i = 0 := by
  have e : (axFunc c s' t x U (fun _ => 0)).1.saturation_error_mat_1_
      = (multiplySaturationSelfDerivativeInverse c U s'.dummy_input_mat_
          s'.saturation_lagrange_multiplier_mat_
          (multiplySaturationDerivativeWithControlInput c U (fun _ => 0) s'.dummy_error_mat_
            s'.saturation_error_mat_).optimality_for_dummy
          (multiplySaturationDerivativeWithControlInput c U (fun _ => 0) s'.dummy_error_mat_
            s'.saturation_error_mat_).optimality_for_saturation
          s'.dummy_error_mat_1_ s'.saturation_error_mat_1_).optimality_for_saturation := rfl
  rw [e, multiplySaturationSelfDerivativeInverse_saturation _ _ _ _ _ _ _ _ j i hi hj,
    multiplySaturationDerivativeWithControlInput_dummy _ _ _ _ _ j i hi hj,
    multiplySaturationDerivativeWithControlInput_saturation _ _ _ _ _ j i hi hj]
  simp

/-- Members that are the loops of `initSolution` hold the replicated bootstrap
solution. -/
theorem seededFrom_of_loops (c : Config K) (s' : Solver K) (t0 : K)
    (x0 sol w0 : Vec K) (D0 M0 X0 L0 : Mat K)
    (m1 : s'.control_input_and_constraints_seq_
        = forUp (fun k (w : Vec K) => setSegment w (k * c.dim_control_input_and_constraints)
            c.dim_control_input_and_constraints
            (segment sol 0 c.dim_control_input_and_constraints))
          c.horizon_division_num 0 w0)
    (m2 : s'.dummy_input_mat_
        = forUp (fun k (M : Mat K) => setCol M k
            (segment sol c.dim_control_input_and_constraints c.dim_saturation))
          c.horizon_division_num 0 D0)
    (m3 : s'.saturation_lagrange_multiplier_mat_
        = forUp (fun k (M : Mat K) => setCol M k
            (segment sol (c.dim_control_input_and_constraints + c.dim_saturation)
              c.dim_saturation))
          c.horizon_division_num 0 M0)
    (m4 : s'.state_mat_
        = forUp (fun k (M : Mat K) => setCol M k x0) c.horizon_division_num 0 X0)
    (m5 : s'.lambda_mat_
        = forUp (fun k (M : Mat K) => setCol M k (c.model.phixFunc t0 x0))
          c.horizon_division_num 0 L0)
    (m6 : s'.initial_time_ = t0)
    (m7 : s'.state_error_mat_ = (fun _ _ => 0))
    (m8 : s'.lambda_error_mat_ = (fun _ _ => 0)) :
    SeededFrom c s' t0 x0 sol := by
  refine ⟨?_, ?_, ?_, ?_, ?_, m7, m8, m6⟩
  · intro i hi
    rw [m1]
    exact (seeded_nodes c sol x0 (c.model.phixFunc t0 x0) w0 D0 M0 X0 L0 i hi).1
  · intro i hi
    rw [m2]
    exact (seeded_nodes c sol x0 (c.model.phixFunc t0 x0) w0 D0 M0 X0 L0 i hi).2.1
  · intro i hi
    rw [m3]
    exact (seeded_nodes c sol x0 (c.model.phixFunc t0 x0) w0 D0 M0 X0 L0 i hi).2.2.1
  · intro i hi
    rw [m4]
    exact (seeded_nodes c sol x0 (c.model.phixFunc t0 x0) w0 D0 M0 X0 L0 i hi).2.2.2.1
  · intro i hi
    rw [m5]
    exact (seeded_nodes c sol x0 (c.model.phixFunc t0 x0) w0 D0 M0 X0 L0 i hi).2.2.2.2

theorem initSolution_seededFrom (c : Config K) (B : InitCGMRESWithSaturation K) (s : Solver K)
    (t0 : K) (x0 g : Vec K) (cr : K) (mi : Int) :
    SeededFrom c (initSolution c B s t0 x0 g cr mi) t0 x0
      (B.solve0stepNOCP t0 x0 g cr mi).initial_solution_vec := by
  obtain ⟨m1, m2, m3, m4, m5, m6, m7, m8⟩ := initSolution_members c B s t0 x0 g cr mi
  exact seededFrom_of_loops c _ t0 x0 _ _ _ _ _ _ m1 m2 m3 m4 m5 m6 m7 m8

theorem initSolutionVectorGuess_seededFrom (c : Config K) (B : InitCGMRESWithSaturation K)
    (s : Solver K) (t0 : K) (x0 g lv : Vec K) (cr : K) (mi : Int) :
    SeededFrom c (initSolutionVectorGuess c B s t0 x0 g lv cr mi) t0 x0
      (B.solve0stepNOCPVector t0 x0 g lv cr mi).initial_solution_vec := by
  obtain ⟨m1, m2, m3, m4, m5, m6, m7, m8⟩ :=
    initSolutionVectorGuess_members c B s t0 x0 g lv cr mi
  exact seededFrom_of_loops c _ t0 x0 _ _ _ _ _ _ m1 m2 m3 m4 m5 m6 m7 m8

theorem initSolutionScalarGuess_seededFrom (c : Config K) (B : InitCGMRESWithSaturation K)
    (s : Solver K) (t0 : K) (x0 g : Vec K) (ls cr : K) (mi : Int) :
    SeededFrom c (initSolutionScalarGuess c B s t0 x0 g ls cr mi) t0 x0
      (B.solve0stepNOCPScalar t0 x0 g ls cr mi).initial_solution_vec := by
  obtain ⟨m1, m2, m3, m4, m5, m6, m7, m8⟩ :=
    initSolutionScalarGuess_members c B s t0 x0 g ls cr mi
  exact seededFrom_of_loops c _ t0 x0 _ _ _ _ _ _ m1 m2 m3 m4 m5 m6 m7 m8

/-- At the initial time the horizon has length zero, so the step size is zero. -/
theorem deltaTau_initial_time (c : Config K) (t0 : K) (hexp : c.exp 0 = 1) :
    deltaTau c t0 t0 = 0 := by
  unfold deltaTau horizonLength
  rw [sub_self, mul_zero, hexp, sub_self, mul_zero, zero_div]

/-- A trajectory seeded at `(t0, x0)` has zero state/costate residual at `(t0, x0)`. -/
theorem seeded_zero_defects (c : Config K) (s : Solver K) (t0 : K) (x0 sol : Vec K)
    (hs : SeededFrom c s t0 x0 sol) (hexp : c.exp 0 = 1) : ZeroDefects c s t0 x0 := by
  have key : ∀ (S0 T0 : Mat K) (i : Nat), i < c.horizon_division_num → ∀ r : Nat,
      (computeOptimalityErrorforStateAndLambda c s.initial_time_ t0 x0
          s.control_input_and_constraints_seq_ s.state_mat_ s.lambda_mat_
          S0 T0).optimality_for_state r i = 0
      ∧ (computeOptimalityErrorforStateAndLambda c s.initial_time_ t0 x0
          s.control_input_and_constraints_seq_ s.state_mat_ s.lambda_mat_
          S0 T0).optimality_for_lambda r i = 0 := by
    intro S0 T0 i hi r
    obtain ⟨e1, e2, e3, e4⟩ := computeOptimalityErrorforStateAndLambda_columns c s.initial_time_
      t0 x0 s.control_input_and_constraints_seq_ s.state_mat_ s.lambda_mat_ S0 T0
    have hd : deltaTau c s.initial_time_ t0 = 0 := by
      rw [hs.initial_time]
      exact deltaTau_initial_time c t0 hexp
    have hX : ∀ k, k < c.horizon_division_num → ∀ q, s.state_mat_ q k = x0 q :=
      fun k hk q => congrFun (hs.state k hk) q
    have hL : ∀ k, k < c.horizon_division_num → ∀ q,
        s.lambda_mat_ q k = c.model.phixFunc t0 x0 q :=
      fun k hk q => congrFun (hs.lambda k hk) q
    constructor
    · rcases Nat.eq_zero_or_pos i with h0 | hpos
      · subst h0
        rw [e1 r, hd, hX 0 hi r]
        ring
      · rw [e2 i hpos (by omega) r, hd, hX i hi r, hX (i - 1) (by omega) r]
        ring
    · by_cases hlast : i = c.horizon_division_num - 1
      · subst hlast
        rw [e3 r, hd, tauUp_eq, hs.state _ hi, hL _ hi r]
        simp
      · have h := e4 (i + 1) (by omega) (by omega) r
        rw [Nat.add_sub_cancel] at h
        rw [h, hd, hL i hi r, hL (i + 1) (by omega) r]
        ring
  intro S0 T0 i hi r
  refine ⟨key S0 T0 i hi r, ?_, ?_⟩
  · rw [(key S0 T0 i hi r).1, hs.state_error]
  · rw [(key S0 T0 i hi r).2, hs.lambda_error]

/-- Dummy entry after `controlUpdate`: one Euler step of length `sp` along the
eliminator rate for `-zeta` times the saturation residual minus the cross term of
the stored direction. -/
theorem controlUpdate_dummy_entry (c : Config K) (eng : KrylovEngine K) (s : Solver K)
    (t sp : K) (x : Vec K) (B1 B2 : Mat K) (j i : Nat)
    (hi : i < c.horizon_division_num) (hj : j < c.dim_saturation) :
    (controlUpdate c eng s t sp x).1.dummy_input_mat_ j i
      = s.dummy_input_mat_ j i
        + sp * ((-c.zeta
              * (computeOptimalityErrorforSaturation c s.control_input_and_constraints_seq_
                  s.dummy_input_mat_ s.saturation_lagrange_multiplier_mat_ B1
                  B2).optimality_for_saturation j i
            - (2 * s.control_input_and_constraints_seq_
                  (i * c.dim_control_input_and_constraints
                    + c.control_input_saturation_seq.index j)
                - c.control_input_saturation_seq.min j - c.control_input_saturation_seq.max j)
              * (controlUpdate c eng s t sp x).1.control_input_and_constraints_update_seq_
                  (i * c.dim_control_input_and_constraints
                    + c.control_input_saturation_seq.index j))
          / (2 * s.dummy_input_mat_ j i)) := by
  have hg := forwardDifferenceGMRES_sameTrajectory c eng (predictIncrementedState c s t x) t x
  obtain ⟨_, _, _, g4, _, _, g7, g8⟩ := hg
  have p4 : (predictIncrementedState c s t x).control_input_and_constraints_seq_
      = s.control_input_and_constraints_seq_ := rfl
  have p7 : (predictIncrementedState c s t x).dummy_input_mat_ = s.dummy_input_mat_ := rfl
  have p8 : (predictIncrementedState c s t x).saturation_lagrange_multiplier_mat_
      = s.saturation_lagrange_multiplier_mat_ := rfl
  rw [p4] at g4
  rw [p7] at g7
  rw [p8] at g8
  have e1 : (controlUpdate c eng s t sp x).1.dummy_input_mat_
      = madd (forwardDifferenceGMRES c eng (predictIncrementedState c s t x) t x).dummy_input_mat_
          (mscale sp (controlUpdate c eng s t sp x).1.dummy_update_mat_) := rfl
  have e3 : (controlUpdate c eng s t sp x).1.dummy_update_mat_
      = (multiplySaturationSelfDerivativeInverse c
          (forwardDifferenceGMRES c eng (predictIncrementedState c s t x) t
            x).control_input_and_constraints_seq_
          (forwardDifferenceGMRES c eng (predictIncrementedState c s t x) t x).dummy_input_mat_
          (forwardDifferenceGMRES c eng (predictIncrementedState c s t x) t
            x).saturation_lagrange_multiplier_mat_
          (msub (mscale (-c.zeta) (controlUpdate c eng s t sp x).1.dummy_error_mat_)
            (controlUpdate c eng s t sp x).1.dummy_error_mat_1_)
          (msub (mscale (-c.zeta) (controlUpdate c eng s t sp x).1.saturation_error_mat_)
            (controlUpdate c eng s t sp x).1.saturation_error_mat_1_)
          (forwardDifferenceGMRES c eng (predictIncrementedState c s t x) t x).dummy_update_mat_
          (forwardDifferenceGMRES c eng (predictIncrementedState c s t x) t
            x).saturation_update_mat_).optimality_for_dummy := rfl
  have e6 : (controlUpdate c eng s t sp x).1.saturation_error_mat_
      = (computeOptimalityErrorforSaturation c
          (forwardDifferenceGMRES c eng (predictIncrementedState c s t x) t
            x).control_input_and_constraints_seq_
          (forwardDifferenceGMRES c eng (predictIncrementedState c s t x) t x).dummy_input_mat_
          (forwardDifferenceGMRES c eng (predictIncrementedState c s t x) t
            x).saturation_lagrange_multiplier_mat_
          (forwardDifferenceGMRES c eng (predictIncrementedState c s t x) t x).dummy_error_mat_
          (forwardDifferenceGMRES c eng (predictIncrementedState c s t x) t
            x).saturation_error_mat_).optimality_for_saturation := rfl
  have e8 : (controlUpdate c eng s t sp x).1.saturation_error_mat_1_
      = (multiplySaturationDerivativeWithControlInput c
          (forwardDifferenceGMRES c eng (predictIncrementedState c s t x) t
            x).control_input_and_constraints_seq_
          (controlUpdate c eng s t sp x).1.control_input_and_constraints_update_seq_
          (forwardDifferenceGMRES c eng (predictIncrementedState c s t x) t x).dummy_error_mat_1_
          (forwardDifferenceGMRES c eng (predictIncrementedState c s t x) t
            x).saturation_error_mat_1_).optimality_for_saturation := rfl
  rw [g4, g7, g8] at e3 e6
  rw [g4] at e8
  rw [g7] at e1
  have rs : (controlUpdate c eng s t sp x).1.saturation_error_mat_ j i
      = (computeOptimalityErrorforSaturation c s.control_input_and_constraints_seq_
          s.dummy_input_mat_ s.saturation_lagrange_multiplier_mat_ B1
          B2).optimality_for_saturation j i := by
    rw [e6, computeOptimalityErrorforSaturation_saturation _ _ _ _ _ _ j i hi hj,
      computeOptimalityErrorforSaturation_saturation _ _ _ _ _ _ j i hi hj]
  have ms : (controlUpdate c eng s t sp x).1.saturation_error_mat_1_ j i
      = (2 * s.control_input_and_constraints_seq_
            (i * c.dim_control_input_and_constraints + c.control_input_saturation_seq.index j)
          - c.control_input_saturation_seq.min j - c.control_input_saturation_seq.max j)
        * (controlUpdate c eng s t sp x).1.control_input_and_constraints_update_seq_
            (i * c.dim_control_input_and_constraints
              + c.control_input_saturation_seq.index j) := by
    rw [e8, multiplySaturationDerivativeWithControlInput_saturation _ _ _ _ _ j i hi hj]
  have hdd := congrFun (congrFun e3 j) i
  rw [multiplySaturationSelfDerivativeInverse_dummy _ _ _ _ _ _ _ _ j i hi hj] at hdd
  simp only [msub, mscale] at hdd
  rw [rs, ms] at hdd
  have h1 := congrFun (congrFun e1 j) i
  simp only [madd, mscale] at h1
  rw [h1, hdd]

/-- One Euler step from a nonzero dummy `d` along `r / (2*d)` stays nonzero exactly
when `2*d^2 + sp*r` is nonzero. -/
theorem dummy_step_ne_zero_iff [CharZero K] (d sp r : K) (hd : d ≠ 0) :
    d + sp * (r / (2 * d)) ≠ 0 ↔ 2 * (d * d) + sp * r ≠ 0 := by
  have h2 : (2 : K) * d ≠ 0 := mul_ne_zero two_ne_zero hd
  have e : d + sp * (r / (2 * d)) = (2 * (d * d) + sp * r) / (2 * d) := by
    field_simp
    ring
  rw [e]
  constructor
  · intro h h0
    exact h (by rw [h0, zero_div])
  · intro h
    exact div_ne_zero h h2

/-- Error accumulators after `initSolution`, each as the loop that writes it. -/
theorem initSolution_error_members (c : Config K) (B : InitCGMRESWithSaturation K)
    (s : Solver K) (t0 : K) (x0 g : Vec K) (cr : K) (mi : Int) :
    (initSolution c B s t0 x0 g cr mi).control_input_and_constraints_error_seq_
        = forUp (fun k (w : Vec K) => setSegment w (k * c.dim_control_input_and_constraints)
            c.dim_control_input_and_constraints
            (B.solve0stepNOCP t0 x0 g cr mi).control_input_and_constraints_error)
          c.horizon_division_num 0 s.control_input_and_constraints_error_seq_
    ∧ (initSolution c B s t0 x0 g cr mi).dummy_error_mat_
        = forUp (fun k (M : Mat K) => setCol M k
            (B.solve0stepNOCP t0 x0 g cr mi).dummy_input_error)
          c.horizon_division_num 0 s.dummy_error_mat_
    ∧ (initSolution c B s t0 x0 g cr mi).saturation_error_mat_
        = forUp (fun k (M : Mat K) => setCol M k
            (B.solve0stepNOCP t0 x0 g cr mi).control_input_saturation_error)
          c.horizon_division_num 0 s.saturation_error_mat_ := by
  refine ⟨?_, ?_, ?_⟩
  · unfold initSolution
    dsimp only
    refine (forUp_proj Solver.control_input_and_constraints_error_seq_
      (fun k (w : Vec K) => setSegment w (k * c.dim_control_input_and_constraints)
        c.dim_control_input_and_constraints
        (B.solve0stepNOCP t0 x0 g cr mi).control_input_and_constraints_error) _ ?_ _ _ _).trans ?_
    · intro i s
      rfl
    congr 1
    refine (forUp_proj Solver.control_input_and_constraints_error_seq_ (fun _ a => a) _ ?_ _ _
      _).trans ?_
    · intro i s
      rfl
    rw [forUp_id]
  · unfold initSolution
    dsimp only
    refine (forUp_proj Solver.dummy_error_mat_
      (fun k (M : Mat K) => setCol M k (B.solve0stepNOCP t0 x0 g cr mi).dummy_input_error)
      _ ?_ _ _ _).trans ?_
    · intro i s
      rfl
    congr 1
    refine (forUp_proj Solver.dummy_error_mat_ (fun _ a => a) _ ?_ _ _ _).trans ?_
    · intro i s
      rfl
    rw [forUp_id]
  · unfold initSolution
    dsimp only
    refine (forUp_proj Solver.saturation_error_mat_
      (fun k (M : Mat K) => setCol M k
        (B.solve0stepNOCP t0 x0 g cr mi).control_input_saturation_error) _ ?_ _ _ _).trans ?_
    · intro i s
      rfl
    congr 1
    refine (forUp_proj Solver.saturation_error_mat_ (fun _ a => a) _ ?_ _ _ _).trans ?_
    · intro i s
      rfl
    rw [forUp_id]

/-- Error accumulators after `initSolutionVectorGuess`, each as the loop that writes it. -/
theorem initSolutionVectorGuess_error_members (c : Config K) (B : InitCGMRESWithSaturation K)
    (s : Solver K) (t0 : K) (x0 g lv : Vec K) (cr : K) (mi : Int) :
    (initSolutionVectorGuess c B s t0 x0 g lv cr mi).control_input_and_constraints_error_seq_
        = forUp (fun k (w : Vec K) => setSegment w (k * c.dim_control_input_and_constraints)
            c.dim_control_input_and_constraints
            (B.solve0stepNOCPVector t0 x0 g lv cr mi).control_input_and_constraints_error)
          c.horizon_division_num 0 s.control_input_and_constraints_error_seq_
    ∧ (initSolutionVectorGuess c B s t0 x0 g lv cr mi).dummy_error_mat_
        = forUp (fun k (M : Mat K) => setCol M k
            (B.solve0stepNOCPVector t0 x0 g lv cr mi).dummy_input_error)
          c.horizon_division_num 0 s.dummy_error_mat_
    ∧ (initSolutionVectorGuess c B s t0 x0 g lv cr mi).saturation_error_mat_
        = forUp (fun k (M : Mat K) => setCol M k
            (B.solve0stepNOCPVector t0 x0 g lv cr mi).control_input_saturation_error)
          c.horizon_division_num 0 s.saturation_error_mat_ := by
  refine ⟨?_, ?_, ?_⟩
  · unfold initSolutionVectorGuess
    dsimp only
    refine (forUp_proj Solver.control_input_and_constraints_error_seq_
      (fun k (w : Vec K) => setSegment w (k * c.dim_control_input_and_constraints)
        c.dim_control_input_and_constraints
        (B.solve0stepNOCPVector t0 x0 g lv cr mi).control_input_and_constraints_error) _ ?_ _ _ _).trans ?_
    · intro i s
      rfl
    congr 1
    refine (forUp_proj Solver.control_input_and_constraints_error_seq_ (fun _ a => a) _ ?_ _ _
      _).trans ?_
    · intro i s
      rfl
    rw [forUp_id]
  · unfold initSolutionVectorGuess
    dsimp only
    refine (forUp_proj Solver.dummy_error_mat_
      (fun k (M : Mat K) => setCol M k (B.solve0stepNOCPVector t0 x0 g lv cr mi).dummy_input_error)
      _ ?_ _ _ _).trans ?_
    · intro i s
      rfl
    congr 1
    refine (forUp_proj Solver.dummy_error_mat_ (fun _ a => a) _ ?_ _ _ _).trans ?_
    · intro i s
      rfl
    rw [forUp_id]
  · unfold initSolutionVectorGuess
    dsimp only
    refine (forUp_proj Solver.saturation_error_mat_
      (fun k (M : Mat K) => setCol M k
        (B.solve0stepNOCPVector t0 x0 g lv cr mi).control_input_saturation_error) _ ?_ _ _ _).trans ?_
    · intro i s
      rfl
    congr 1
    refine (forUp_proj Solver.saturation_error_mat_ (fun _ a => a) _ ?_ _ _ _).trans ?_
    · intro i s
      rfl
    rw [forUp_id]

/-- Error accumulators after `initSolutionScalarGuess`, each as the loop that writes it. -/
theorem initSolutionScalarGuess_error_members (c : Config K) (B : InitCGMRESWithSaturation K)
    (s : Solver K) (t0 : K) (x0 g : Vec K) (ls cr : K) (mi : Int) :
    (initSolutionScalarGuess c B s t0 x0 g ls cr mi).control_input_and_constraints_error_seq_
        = forUp (fun k (w : Vec K) => setSegment w (k * c.dim_control_input_and_constraints)
            c.dim_control_input_and_constraints
            (B.solve0stepNOCPScalar t0 x0 g ls cr mi).control_input_and_constraints_error)
          c.horizon_division_num 0 s.control_input_and_constraints_error_seq_
    ∧ (initSolutionScalarGuess c B s t0 x0 g ls cr mi).dummy_error_mat_
        = forUp (fun k (M : Mat K) => setCol M k
            (B.solve0stepNOCPScalar t0 x0 g ls cr mi).dummy_input_error)
          c.horizon_division_num 0 s.dummy_error_mat_
    ∧ (initSolutionScalarGuess c B s t0 x0 g ls cr mi).saturation_error_mat_
        = forUp (fun k (M : Mat K) => setCol M k
            (B.solve0stepNOCPScalar t0 x0 g ls cr mi).control_input_saturation_error)
          c.horizon_division_num 0 s.saturation_error_mat_ := by
  refine ⟨?_, ?_, ?_⟩
  · unfold initSolutionScalarGuess
    dsimp only
    refine (forUp_proj Solver.control_input_and_constraints_error_seq_
      (fun k (w : Vec K) => setSegment w (k * c.dim_control_input_and_constraints)
        c.dim_control_input_and_constraints
        (B.solve0stepNOCPScalar t0 x0 g ls cr mi).control_input_and_constraints_error) _ ?_ _ _ _).trans ?_
    · intro i s
      rfl
    congr 1
    refine (forUp_proj Solver.control_input_and_constraints_error_seq_ (fun _ a => a) _ ?_ _ _
      _).trans ?_
    · intro i s
      rfl
    rw [forUp_id]
  · unfold initSolutionScalarGuess
    dsimp only
    refine (forUp_proj Solver.dummy_error_mat_
      (fun k (M : Mat K) => setCol M k (B.solve0stepNOCPScalar t0 x0 g ls cr mi).dummy_input_error)
      _ ?_ _ _ _).trans ?_
    · intro i s
      rfl
    congr 1
    refine (forUp_proj Solver.dummy_error_mat_ (fun _ a => a) _ ?_ _ _ _).trans ?_
    · intro i s
      rfl
    rw [forUp_id]
  · unfold initSolutionScalarGuess
    dsimp only
    refine (forUp_proj Solver.saturation_error_mat_
      (fun k (M : Mat K) => setCol M k
        (B.solve0stepNOCPScalar t0 x0 g ls cr mi).control_input_saturation_error) _ ?_ _ _ _).trans ?_
    · intro i s
      rfl
    congr 1
    refine (forUp_proj Solver.saturation_error_mat_ (fun _ a => a) _ ?_ _ _ _).trans ?_
    · intro i s
      rfl
    rw [forUp_id]

/-- Accumulators that are the loops of `initSolution` hold the replicated bootstrap
residuals. -/
theorem residualsFrom_of_loops (c : Config K) (s' : Solver K) (r : BootstrapResult K)
    (w0 : Vec K) (D0 M0 : Mat K)
    (m1 : s'.control_input_and_constraints_error_seq_
        = forUp (fun k (w : Vec K) => setSegment w (k * c.dim_control_input_and_constraints)
            c.dim_control_input_and_constraints r.control_input_and_constraints_error)
          c.horizon_division_num 0 w0)
    (m2 : s'.dummy_error_mat_
        = forUp (fun k (M : Mat K) => setCol M k r.dummy_input_error)
          c.horizon_division_num 0 D0)
    (m3 : s'.saturation_error_mat_
        = forUp (fun k (M : Mat K) => setCol M k r.control_input_saturation_error)
          c.horizon_division_num 0 M0) :
    ResidualsFrom c s' r := by
  refine ⟨?_, ?_, ?_⟩
  · intro i hi
    rw [m1]
    funext p
    simp only [segment]
    by_cases hp : p < c.dim_control_input_and_constraints
    · rw [if_pos hp, if_pos hp, forUp_setSegment_apply _ _ _ _ i p hi hp, Nat.zero_add]
    · rw [if_neg hp, if_neg hp]
  · intro i hi
    rw [m2]
    funext q
    simp only [col]
    rw [forUp_setCol_apply, if_pos hi]
  · intro i hi
    rw [m3]
    funext q
    simp only [col]
    rw [forUp_setCol_apply, if_pos hi]

theorem initSolution_residualsFrom (c : Config K) (B : InitCGMRESWithSaturation K)
    (s : Solver K) (t0 : K) (x0 g : Vec K) (cr : K) (mi : Int) :
    ResidualsFrom c (initSolution c B s t0 x0 g cr mi) (B.solve0stepNOCP t0 x0 g cr mi) := by
  obtain ⟨m1, m2, m3⟩ := initSolution_error_members c B s t0 x0 g cr mi
  exact residualsFrom_of_loops c _ _ _ _ _ m1 m2 m3

theorem initSolutionVectorGuess_residualsFrom (c : Config K) (B : InitCGMRESWithSaturation K)
    (s : Solver K) (t0 : K) (x0 g lv : Vec K) (cr : K) (mi : Int) :
    ResidualsFrom c (initSolutionVectorGuess c B s t0 x0 g lv cr mi)
      (B.solve0stepNOCPVector t0 x0 g lv cr mi) := by
  obtain ⟨m1, m2, m3⟩ := initSolutionVectorGuess_error_members c B s t0 x0 g lv cr mi
  exact residualsFrom_of_loops c _ _ _ _ _ m1 m2 m3

theorem initSolutionScalarGuess_residualsFrom (c : Config K) (B : InitCGMRESWithSaturation K)
    (s : Solver K) (t0 : K) (x0 g : Vec K) (ls cr : K) (mi : Int) :
    ResidualsFrom c (initSolutionScalarGuess c B s t0 x0 g ls cr mi)
      (B.solve0stepNOCPScalar t0 x0 g ls cr mi) := by
  obtain ⟨m1, m2, m3⟩ := initSolutionScalarGuess_error_members c B s t0 x0 g ls cr mi
  exact residualsFrom_of_loops c _ _ _ _ _ m1 m2 m3

end FurtherLemmas

section AccessLemmas

variable {K : Type}

/-- A property of every access of every iteration holds for every access of an
upward loop. -/
theorem accessesUp_all (P : Access → Prop) (body : Nat → List Access) (n start : Nat)
    (h : ∀ i, start ≤ i → i < start + n → ∀ a ∈ body i, P a) :
    ∀ a ∈ accessesUp body n start, P a := by
  unfold accessesUp
  refine forUp_invariant (fun i acc => acc ++ body i) (fun _ acc => ∀ a ∈ acc, P a) n start []
    ?_ ?_
  · intro a ha
    cases ha
  · intro i acc hi hlt hacc a ha
    rcases List.mem_append.mp ha with h1 | h2
    · exact hacc a h1
    · exact h i hi hlt a h2

/-- A property of every access of every iteration holds for every access of a
downward loop. -/
theorem accessesDown_all (P : Access → Prop) (body : Nat → List Access) (top : Nat)
    (h : ∀ i, 1 ≤ i → i ≤ top → ∀ a ∈ body i, P a) :
    ∀ a ∈ accessesDown body top, P a := by
  unfold accessesDown
  refine forDown_invariant (fun i acc => acc ++ body i) (fun _ acc => ∀ a ∈ acc, P a) top []
    ?_ ?_
  · intro a ha
    cases ha
  · intro i acc hi hle hacc a ha
    rcases List.mem_append.mp ha with h1 | h2
    · exact hacc a h1
    · exact h i hi hle a h2

/-- A property of every access of every iteration holds for every access of the
nested node/component loop. -/
theorem entryAccesses_all (c : Config K) (P : Access → Prop) (body : Nat → Nat → List Access)
    (h : ∀ j i, j < c.dim_saturation → i < c.horizon_division_num → ∀ a ∈ body j i, P a) :
    ∀ a ∈ entryAccesses c body, P a := by
  unfold entryAccesses
  refine accessesUp_all P _ _ _ (fun i _ hi => ?_)
  refine accessesUp_all P _ _ _ (fun j _ hj => ?_)
  exact h j i (by omega) (by omega)

/-- Entry `p` of node `i` lies inside a vector of `n` node segments. -/
theorem node_entry_lt (n d i p : Nat) (hi : i < n) (hp : p < d) : i * d + p < n * d := by
  have h : (i + 1) * d ≤ n * d := Nat.mul_le_mul_right d hi
  rw [Nat.add_mul, Nat.one_mul] at h
  omega

/-- A block of at most `d` entries starting at node `i` lies inside a vector of `n`
node segments. -/
theorem node_segment_le (n d i len : Nat) (hi : i < n) (hl : len ≤ d) :
    i * d + len ≤ n * d := by
  have h : (i + 1) * d ≤ n * d := Nat.mul_le_mul_right d hi
  rw [Nat.add_mul, Nat.one_mul] at h
  omega

theorem addDerivativeSaturationWithControlInput_inBounds (c : Config K)
    (hidx : ∀ j, j < c.dim_saturation →
      c.control_input_saturation_seq.index j < c.dim_control_input_and_constraints) :
    ∀ a ∈ addDerivativeSaturationWithControlInput_accesses c, a.InBounds := by
  unfold addDerivativeSaturationWithControlInput_accesses
  refine accessesUp_all _ _ _ _ (fun i _ hi a ha => ?_)
  have hi' : i < c.dim_saturation := by omega
  simp only [List.mem_cons, List.mem_singleton, List.not_mem_nil, or_false] at ha
  rcases ha with rfl | rfl | rfl
  · exact hidx i hi'
  · exact hidx i hi'
  · exact hi'

theorem controlNode_inBounds (c : Config K)
    (hidx : ∀ j, j < c.dim_saturation →
      c.control_input_saturation_seq.index j < c.dim_control_input_and_constraints)
    (state : List Access) (hstate : ∀ a ∈ state, a.InBounds) (i : Nat)
    (hi : i < c.horizon_division_num) :
    ∀ a ∈ controlNode_accesses c state i, a.InBounds := by
  intro a ha
  unfold controlNode_accesses at ha
  have hseg : (Access.vecSegment
      (c.horizon_division_num * c.dim_control_input_and_constraints)
      (i * c.dim_control_input_and_constraints) c.dim_control_input_and_constraints).InBounds :=
    node_segment_le _ _ i _ hi (le_refl _)
  have hcol : (Access.matCol c.horizon_division_num i).InBounds := hi
  simp only [List.mem_append, List.mem_cons, List.mem_singleton, List.not_mem_nil,
    or_false] at ha
  rcases ha with ((h | h | h | h) | h | h | h) | h
  · exact hstate a h
  · rw [h]
    exact hseg
  · rw [h]
    exact hcol
  · rw [h]
    exact hseg
  · rw [h]
    exact hseg
  · rw [h]
    exact hcol
  · rw [h]
    exact hseg
  · exact addDerivativeSaturationWithControlInput_inBounds c hidx a h

theorem computeOptimalityErrorforControlInputAndConstraints_inBounds (c : Config K)
    (hN : 1 ≤ c.horizon_division_num)
    (hidx : ∀ j, j < c.dim_saturation →
      c.control_input_saturation_seq.index j < c.dim_control_input_and_constraints) :
    ∀ a ∈ computeOptimalityErrorforControlInputAndConstraints_accesses c, a.InBounds := by
  intro a ha
  unfold computeOptimalityErrorforControlInputAndConstraints_accesses at ha
  rcases List.mem_append.mp ha with h | h
  · exact controlNode_inBounds c hidx [] (fun _ hb => by cases hb) 0 (by omega) a h
  · refine accessesUp_all _ _ _ _ (fun i hi hlt b hb => ?_) a h
    refine controlNode_inBounds c hidx _ (fun e he => ?_) i (by omega) b hb
    rw [List.mem_singleton.mp he]
    show i - 1 < c.horizon_division_num
    omega

theorem computeOptimalityErrorforStateAndLambda_inBounds (c : Config K)
    (hN : 1 ≤ c.horizon_division_num) :
    ∀ a ∈ computeOptimalityErrorforStateAndLambda_accesses c, a.InBounds := by
  intro a ha
  unfold computeOptimalityErrorforStateAndLambda_accesses at ha
  have hd : c.dim_control_input ≤ c.dim_control_input_and_constraints :=
    Nat.le_add_right _ _
  have hcol : ∀ k, k < c.horizon_division_num →
      (Access.matCol c.horizon_division_num k).InBounds := fun _ hk => hk
  have hseg : ∀ k len, k < c.horizon_division_num → len ≤ c.dim_control_input_and_constraints →
      (Access.vecSegment (c.horizon_division_num * c.dim_control_input_and_constraints)
        (k * c.dim_control_input_and_constraints) len).InBounds :=
    fun k len hk hl => node_segment_le _ _ k len hk hl
  have hseg0 : (Access.vecSegment (c.horizon_division_num * c.dim_control_input_and_constraints)
      0 c.dim_control_input).InBounds := by
    have := hseg 0 c.dim_control_input (by omega) hd
    rwa [Nat.zero_mul] at this
  rcases List.mem_append.mp ha with h | h
  · rcases List.mem_append.mp h with h | h
    · rcases List.mem_append.mp h with h | h
      · simp only [List.mem_cons, List.mem_singleton, List.not_mem_nil, or_false] at h
        rcases h with rfl | rfl | rfl
        · exact hseg0
        · exact hcol 0 (by omega)
        · exact hcol 0 (by omega)
      · refine accessesUp_all _ _ _ _ (fun i hi hlt b hb => ?_) a h
        simp only [List.mem_cons, List.mem_singleton, List.not_mem_nil, or_false] at hb
        rcases hb with rfl | rfl | rfl | rfl | rfl
        · exact hcol _ (by omega)
        · exact hseg i _ (by omega) hd
        · exact hcol _ (by omega)
        · exact hcol _ (by omega)
        · exact hcol _ (by omega)
    · simp only [List.mem_cons, List.mem_singleton, List.not_mem_nil, or_false] at h
      rcases h with rfl | rfl | rfl
      · exact hcol _ (by omega)
      · exact hcol _ (by omega)
      · exact hcol _ (by omega)
  · refine accessesDown_all _ _ _ (fun i hi hle b hb => ?_) a h
    simp only [List.mem_cons, List.mem_singleton, List.not_mem_nil, or_false] at hb
    rcases hb with rfl | rfl | rfl | rfl | rfl | rfl
    · exact hcol _ (by omega)
    · exact hseg i _ (by omega) (le_refl _)
    · exact hcol _ (by omega)
    · exact hcol _ (by omega)
    · exact hcol _ (by omega)
    · exact hcol _ (by omega)

theorem computeStateAndLambda_inBounds (c : Config K) (hN : 1 ≤ c.horizon_division_num) :
    ∀ a ∈ computeStateAndLambda_accesses c, a.InBounds := by
  intro a ha
  unfold computeStateAndLambda_accesses at ha
  have hd : c.dim_control_input ≤ c.dim_control_input_and_constraints :=
    Nat.le_add_right _ _
  have hcol : ∀ k, k < c.horizon_division_num →
      (Access.matCol c.horizon_division_num k).InBounds := fun _ hk => hk
  have hseg : ∀ k len, k < c.horizon_division_num → len ≤ c.dim_control_input_and_constraints →
      (Access.vecSegment (c.horizon_division_num * c.dim_control_input_and_constraints)
        (k * c.dim_control_input_and_constraints) len).InBounds :=
    fun k len hk hl => node_segment_le _ _ k len hk hl
  have hseg0 : (Access.vecSegment (c.horizon_division_num * c.dim_control_input_and_constraints)
      0 c.dim_control_input).InBounds := by
    have := hseg 0 c.dim_control_input (by omega) hd
    rwa [Nat.zero_mul] at this
  rcases List.mem_append.mp ha with h | h
  · rcases List.mem_append.mp h with h | h
    · rcases List.mem_append.mp h with h | h
      · simp only [List.mem_cons, List.mem_singleton, List.not_mem_nil, or_false] at h
        rcases h with rfl | rfl | rfl
        · exact hseg0
        · exact hcol 0 (by omega)
        · exact hcol 0 (by omega)
      · refine accessesUp_all _ _ _ _ (fun i hi hlt b hb => ?_) a h
        simp only [List.mem_cons, List.mem_singleton, List.not_mem_nil, or_false] at hb
        rcases hb with rfl | rfl | rfl | rfl | rfl
        · exact hcol _ (by omega)
        · exact hseg i _ (by omega) hd
        · exact hcol _ (by omega)
        · exact hcol _ (by omega)
        · exact hcol _ (by omega)
    · simp only [List.mem_cons, List.mem_singleton, List.not_mem_nil, or_false] at h
      rcases h with rfl | rfl | rfl
      · exact hcol _ (by omega)
      · exact hcol _ (by omega)
      · exact hcol _ (by omega)
  · refine accessesDown_all _ _ _ (fun i hi hle b hb => ?_) a h
    simp only [List.mem_cons, List.mem_singleton, List.not_mem_nil, or_false] at hb
    rcases hb with rfl | rfl | rfl | rfl | rfl | rfl
    · exact hcol _ (by omega)
    · exact hseg i _ (by omega) (le_refl _)
    · exact hcol _ (by omega)
    · exact hcol _ (by omega)
    · exact hcol _ (by omega)
    · exact hcol _ (by omega)

/-- Coefficient `(j, i)` of a saturation matrix is allocated. -/
theorem saturation_entry_inBounds (c : Config K) (j i : Nat) (hj : j < c.dim_saturation)
    (hi : i < c.horizon_division_num) :
    (Access.matCoeff c.dim_saturation c.horizon_division_num j i).InBounds := ⟨hj, hi⟩

/-- The control entry of component `j` at node `i` is allocated. -/
theorem saturated_control_inBounds (c : Config K)
    (hidx : ∀ j, j < c.dim_saturation →
      c.control_input_saturation_seq.index j < c.dim_control_input_and_constraints)
    (j i : Nat) (hj : j < c.dim_saturation) (hi : i < c.horizon_division_num) :
    (Access.vecCoeff (c.horizon_division_num * c.dim_control_input_and_constraints)
      (i * c.dim_control_input_and_constraints
        + c.control_input_saturation_seq.index j)).InBounds :=
  node_entry_lt _ _ i _ hi (hidx j hj)

theorem computeOptimalityErrorforSaturation_inBounds (c : Config K)
    (hidx : ∀ j, j < c.dim_saturation →
      c.control_input_saturation_seq.index j < c.dim_control_input_and_constraints) :
    ∀ a ∈ computeOptimalityErrorforSaturation_accesses c, a.InBounds := by
  intro a ha
  unfold computeOptimalityErrorforSaturation_accesses at ha
  rcases List.mem_append.mp ha with h | h
  · refine entryAccesses_all c _ _ (fun j i hj hi b hb => ?_) a h
    simp only [List.mem_cons, List.mem_singleton, List.not_mem_nil, or_false] at hb
    rcases hb with rfl | rfl | rfl <;> exact saturation_entry_inBounds c j i hj hi
  · refine entryAccesses_all c _ _ (fun j i hj hi b hb => ?_) a h
    simp only [List.mem_cons, List.mem_singleton, List.not_mem_nil, or_false] at hb
    rcases hb with rfl | rfl | rfl | rfl | rfl
    · exact saturation_entry_inBounds c j i hj hi
    · exact saturated_control_inBounds c hidx j i hj hi
    · exact saturated_control_inBounds c hidx j i hj hi
    · exact saturation_entry_inBounds c j i hj hi
    · exact saturation_entry_inBounds c j i hj hi

theorem multiplySaturationDerivativeWithControlInput_inBounds (c : Config K)
    (hidx : ∀ j, j < c.dim_saturation →
      c.control_input_saturation_seq.index j < c.dim_control_input_and_constraints) :
    ∀ a ∈ multiplySaturationDerivativeWithControlInput_accesses c, a.InBounds := by
  intro a ha
  unfold multiplySaturationDerivativeWithControlInput_accesses at ha
  rcases List.mem_append.mp ha with h | h
  · refine entryAccesses_all c _ _ (fun j i hj hi b hb => ?_) a h
    rw [List.mem_singleton.mp hb]
    exact saturation_entry_inBounds c j i hj hi
  · refine entryAccesses_all c _ _ (fun j i hj hi b hb => ?_) a h
    simp only [List.mem_cons, List.mem_singleton, List.not_mem_nil, or_false] at hb
    rcases hb with rfl | rfl | rfl
    · exact saturation_entry_inBounds c j i hj hi
    · exact saturated_control_inBounds c hidx j i hj hi
    · exact saturated_control_inBounds c hidx j i hj hi

theorem multiplySaturationSelfDerivativeInverse_inBounds (c : Config K) :
    ∀ a ∈ multiplySaturationSelfDerivativeInverse_accesses c, a.InBounds := by
  intro a ha
  unfold multiplySaturationSelfDerivativeInverse_accesses at ha
  rcases List.mem_append.mp ha with h | h
  · refine entryAccesses_all c _ _ (fun j i hj hi b hb => ?_) a h
    simp only [List.mem_cons, List.mem_singleton, List.not_mem_nil, or_false] at hb
    rcases hb with rfl | rfl | rfl <;> exact saturation_entry_inBounds c j i hj hi
  · refine entryAccesses_all c _ _ (fun j i hj hi b hb => ?_) a h
    simp only [List.mem_cons, List.mem_singleton, List.not_mem_nil, or_false] at hb
    rcases hb with rfl | rfl | rfl | rfl | rfl | rfl | rfl <;>
      exact saturation_entry_inBounds c j i hj hi

/-- Without a node the sweep leaves its buffers: the hypothesis of at least one node
is needed. -/
theorem computeStateAndLambda_zero_nodes_out_of_bounds :
    ¬ ∀ a ∈ computeStateAndLambda_accesses (demoConfig (fun q : ℚ => q) 0), a.InBounds := by
  decide

/-- With an index outside the node segment the saturation residual leaves the
control vector: the hypothesis on `index(j)` is needed. -/
theorem computeOptimalityErrorforSaturation_bad_index_out_of_bounds :
    ¬ ∀ a ∈ computeOptimalityErrorforSaturation_accesses
        { demoConfig (fun q : ℚ => q) 1 with
          control_input_saturation_seq :=
            { (demoSaturation : ControlInputSaturationSequence ℚ) with index := fun _ => 1 } },
      a.InBounds := by
  decide

end AccessLemmas

/-! ## Claims on the saturation algebra -/

/-- C1: for every node `i` and saturated component `j` with nonzero dummy value,
`multiplySaturationSelfDerivativeInverse` returns the unique solution `(dd, dmu)`
of `2*mu*dd + 2*d*dmu = a`, `2*d*dd = b`; the matrix of that system is the
Jacobian of the residual pair of `computeOptimalityErrorforSaturation` with
respect to (dummy, multiplier): the residual increments are the linear part
plus the second-order terms. -/
theorem multiplySaturationSelfDerivativeInverse_unique_solution
    {K : Type} [Field K] [CharZero K] (c : Config K) (U : Vec K)
    (D M A B o1 o2 : Mat K) (j i : Nat)
    (hi : i < c.horizon_division_num) (hj : j < c.dim_saturation) (hd : D j i ≠ 0) :
    (2 * M j i * (multiplySaturationSelfDerivativeInverse c U D M A B o1 o2).optimality_for_dummy j i
        + 2 * D j i
          * (multiplySaturationSelfDerivativeInverse c U D M A B o1 o2).optimality_for_saturation j i
        = A j i
      ∧ 2 * D j i
          * (multiplySaturationSelfDerivativeInverse c U D M A B o1 o2).optimality_for_dummy j i
        = B j i)
    ∧ (∀ dd dmu : K, 2 * M j i * dd + 2 * D j i * dmu = A j i → 2 * D j i * dd = B j i →
        dd = (multiplySaturationSelfDerivativeInverse c U D M A B o1 o2).optimality_for_dummy j i
        ∧ dmu
          = (multiplySaturationSelfDerivativeInverse c U D M A B o1 o2).optimality_for_saturation j i)
    ∧ (∀ D' M' p1 p2 : Mat K,
        (computeOptimalityErrorforSaturation c U D' M' p1 p2).optimality_for_dummy j i
            - (computeOptimalityErrorforSaturation c U D M p1 p2).optimality_for_dummy j i
          = 2 * M j i * (D' j i - D j i) + 2 * D j i * (M' j i - M j i)
            + 2 * (D' j i - D j i) * (M' j i - M j i)
        ∧ (computeOptimalityErrorforSaturation c U D' M' p1 p2).optimality_for_saturation j i
            - (computeOptimalityErrorforSaturation c U D M p1 p2).optimality_for_saturation j i
          = 2 * D j i * (D' j i - D j i) + (D' j i - D j i) * (D' j i - D j i)) := by
  have h2 : (2 : K) ≠ 0 := two_ne_zero
  rw [multiplySaturationSelfDerivativeInverse_dummy c U D M A B o1 o2 j i hi hj,
    multiplySaturationSelfDerivativeInverse_saturation c U D M A B o1 o2 j i hi hj]
  have e1 : 2 * D j i * (A j i / (2 * D j i)) = A j i := by field_simp
  have e2 : 2 * D j i * (B j i * M j i / (2 * D j i * D j i))
      = 2 * M j i * (B j i / (2 * D j i)) := by
    field_simp
    ring
  refine ⟨⟨?_, ?_⟩, ?_, ?_⟩
  · rw [mul_sub, e1, e2]
    ring
  · field_simp
  · intro dd dmu h1 hb
    have hdd : dd = B j i / (2 * D j i) := by
      field_simp
      rw [← hb]
      ring
    refine ⟨hdd, ?_⟩
    have : 2 * D j i * dmu = A j i - 2 * M j i * dd := by
      rw [← h1]
      ring
    have hdmu : dmu = (A j i - 2 * M j i * dd) / (2 * D j i) := by
      field_simp
      rw [← this]
      ring
    rw [hdmu, hdd]
    have e3 : B j i * M j i / (2 * D j i * D j i)
        = 2 * M j i * (B j i / (2 * D j i)) / (2 * D j i) := by
      field_simp
      ring
    rw [e3]
    ring
  · intro D' M' p1 p2
    rw [computeOptimalityErrorforSaturation_dummy c U D' M' p1 p2 j i hi hj,
      computeOptimalityErrorforSaturation_dummy c U D M p1 p2 j i hi hj,
      computeOptimalityErrorforSaturation_saturation c U D' M' p1 p2 j i hi hj,
      computeOptimalityErrorforSaturation_saturation c U D M p1 p2 j i hi hj]
    constructor <;> ring

/-- Witness for C1 on the instance with two nodes: node `1`, component `0`,
dummy value `1`. -/
theorem multiplySaturationSelfDerivativeInverse_unique_solution_witness :
    (1 : ℝ) ≠ 0 ∧
    2 * (1 : ℝ)
        * (multiplySaturationSelfDerivativeInverse (demoConfig Real.exp 2)
            (fun _ => 0) (fun _ _ => 1) (fun _ _ => 1) (fun _ _ => 3) (fun _ _ => 4)
            (fun _ _ => 0) (fun _ _ => 0)).optimality_for_dummy 0 1
      = 4 :=
  ⟨one_ne_zero,
    (multiplySaturationSelfDerivativeInverse_unique_solution (demoConfig Real.exp 2)
      (fun _ => 0) (fun _ _ => 1) (fun _ _ => 1) (fun _ _ => 3) (fun _ _ => 4)
      (fun _ _ => 0) (fun _ _ => 0) 0 1 (by decide) (by decide) one_ne_zero).1.2⟩

/-- C3: `computeOptimalityErrorforSaturation` writes, for every node `i` and every
saturated component `j`, the dummy residual `2*multiplier*dummy - weight` and the
constraint residual `(u - mid)^2 - halfRange^2 + dummy^2`, with `u` the entry
`index(j)` of node `i`'s segment (flat position `i*dim + index(j)`), `mid = (min+max)/2`, `halfRange = (max-min)/2`. -/
theorem computeOptimalityErrorforSaturation_entries
    {K : Type} [Field K] [CharZero K] (c : Config K) (U : Vec K)
    (D M o1 o2 : Mat K) (j i : Nat)
    (hi : i < c.horizon_division_num) (hj : j < c.dim_saturation) :
    (computeOptimalityErrorforSaturation c U D M o1 o2).optimality_for_dummy j i
        = 2 * M j i * D j i - c.control_input_saturation_seq.weight j
    ∧ (computeOptimalityErrorforSaturation c U D M o1 o2).optimality_for_saturation j i
        = (U (i * c.dim_control_input_and_constraints + c.control_input_saturation_seq.index j)
            - (c.control_input_saturation_seq.min j + c.control_input_saturation_seq.max j) / 2) ^ 2
          - ((c.control_input_saturation_seq.max j - c.control_input_saturation_seq.min j) / 2) ^ 2
          + D j i ^ 2 := by
  rw [computeOptimalityErrorforSaturation_dummy c U D M o1 o2 j i hi hj,
    computeOptimalityErrorforSaturation_saturation c U D M o1 o2 j i hi hj]
  refine ⟨rfl, ?_⟩
  ring

/-- Witness for C3 on the instance with two nodes: node `1`, component `0`. -/
theorem computeOptimalityErrorforSaturation_entries_witness :
    (computeOptimalityErrorforSaturation (demoConfig Real.exp 2)
        (fun _ => 1 / 2) (fun _ _ => 1) (fun _ _ => 3) (fun _ _ => 0)
        (fun _ _ => 0)).optimality_for_dummy 0 1 = 2 * 3 * 1 - 1 :=
  (computeOptimalityErrorforSaturation_entries (demoConfig Real.exp 2)
    (fun _ => 1 / 2) (fun _ _ => 1) (fun _ _ => 3) (fun _ _ => 0) (fun _ _ => 0) 0 1
    (by decide) (by decide)).1

/-- C4: for a saturation entry with `min_j < max_j` and a control value `u` strictly
inside `(min_j, max_j)` there is exactly one positive dummy value `d` with
`(u - mid_j)^2 + d^2 = halfRange_j^2`, and with that dummy value the constraint
residual written by `computeOptimalityErrorforSaturation` is zero whatever the
multipliers are. -/
theorem computeOptimalityErrorforSaturation_roundtrip
    (c : Config ℝ) (U : Vec ℝ) (j i : Nat)
    (hi : i < c.horizon_division_num) (hj : j < c.dim_saturation)
    (hlo : c.control_input_saturation_seq.min j
      < U (i * c.dim_control_input_and_constraints + c.control_input_saturation_seq.index j))
    (hhi : U (i * c.dim_control_input_and_constraints + c.control_input_saturation_seq.index j)
      < c.control_input_saturation_seq.max j) :
    (∃! d : ℝ, 0 < d ∧
        (U (i * c.dim_control_input_and_constraints + c.control_input_saturation_seq.index j)
            - (c.control_input_saturation_seq.min j + c.control_input_saturation_seq.max j) / 2) ^ 2
          + d ^ 2
          = ((c.control_input_saturation_seq.max j - c.control_input_saturation_seq.min j) / 2) ^ 2)
    ∧ (∀ d : ℝ,
        (U (i * c.dim_control_input_and_constraints + c.control_input_saturation_seq.index j)
            - (c.control_input_saturation_seq.min j + c.control_input_saturation_seq.max j) / 2) ^ 2
          + d ^ 2
          = ((c.control_input_saturation_seq.max j - c.control_input_saturation_seq.min j) / 2) ^ 2 →
        ∀ D M o1 o2 : Mat ℝ, D j i = d →
          (computeOptimalityErrorforSaturation c U D M o1 o2).optimality_for_saturation j i = 0) := by
  set u := U (i * c.dim_control_input_and_constraints + c.control_input_saturation_seq.index j)
    with hu
  set mn := c.control_input_saturation_seq.min j with hmn
  set mx := c.control_input_saturation_seq.max j with hmx
  have hpos : 0 < ((mx - mn) / 2) ^ 2 - (u - (mn + mx) / 2) ^ 2 := by
    have : ((mx - mn) / 2) ^ 2 - (u - (mn + mx) / 2) ^ 2 = (u - mn) * (mx - u) := by ring
    rw [this]
    exact mul_pos (sub_pos.mpr hlo) (sub_pos.mpr hhi)
  constructor
  · refine ⟨Real.sqrt (((mx - mn) / 2) ^ 2 - (u - (mn + mx) / 2) ^ 2), ⟨?_, ?_⟩, ?_⟩
    · exact Real.sqrt_pos.mpr hpos
    · rw [Real.sq_sqrt hpos.le]
      ring
    · rintro d ⟨hd, hd2⟩
      have : d ^ 2 = ((mx - mn) / 2) ^ 2 - (u - (mn + mx) / 2) ^ 2 := by
        rw [← hd2]
        ring
      rw [← this, Real.sqrt_sq hd.le]
  · intro d hd D M o1 o2 hD
    rw [computeOptimalityErrorforSaturation_saturation c U D M o1 o2 j i hi hj, hD]
    have : (u - (mn + mx) / 2) * (u - (mn + mx) / 2) - (mx - mn) * (mx - mn) / 4 + d * d
        = ((u - (mn + mx) / 2) ^ 2 + d ^ 2) - ((mx - mn) / 2) ^ 2 := by ring
    rw [this, hd]
    ring

/-- Witness for C4 on the instance with two nodes: node `1`, component `0`,
bounds `-1 < 1`, control value `1/2`. -/
theorem computeOptimalityErrorforSaturation_roundtrip_witness :
    ((-1 : ℝ) < 1 / 2 ∧ (1 / 2 : ℝ) < 1) ∧
    ∃! d : ℝ, 0 < d ∧ ((1 / 2 : ℝ) - (-1 + 1) / 2) ^ 2 + d ^ 2 = ((1 - -1) / 2) ^ 2 :=
  ⟨⟨by norm_num, by norm_num⟩,
    (computeOptimalityErrorforSaturation_roundtrip (demoConfig Real.exp 2) (fun _ => 1 / 2) 0 1
      (by decide) (by decide)
      (by show (-1 : ℝ) < 1 / 2; norm_num) (by show (1 / 2 : ℝ) < 1; norm_num)).1⟩

/-- C5: the constraint residual encodes the box constraint: for a saturation entry
with `min_j <= max_j` and a control value `u`, some real dummy value makes the
residual `(u - mid_j)^2 - halfRange_j^2 + d^2` computed by
`computeOptimalityErrorforSaturation` zero if and only if `min_j <= u <= max_j`. -/
theorem computeOptimalityErrorforSaturation_zero_iff_box
    (c : Config ℝ) (U : Vec ℝ) (M o1 o2 : Mat ℝ) (j i : Nat)
    (hi : i < c.horizon_division_num) (hj : j < c.dim_saturation)
    (hle : c.control_input_saturation_seq.min j ≤ c.control_input_saturation_seq.max j) :
    (∃ d : ℝ,
        (computeOptimalityErrorforSaturation c U (fun _ _ => d) M o1 o2).optimality_for_saturation
          j i = 0)
    ↔ (c.control_input_saturation_seq.min j
          ≤ U (i * c.dim_control_input_and_constraints + c.control_input_saturation_seq.index j)
        ∧ U (i * c.dim_control_input_and_constraints + c.control_input_saturation_seq.index j)
          ≤ c.control_input_saturation_seq.max j) := by
  set u := U (i * c.dim_control_input_and_constraints + c.control_input_saturation_seq.index j)
    with hu
  set mn := c.control_input_saturation_seq.min j with hmn
  set mx := c.control_input_saturation_seq.max j with hmx
  have key : ∀ d : ℝ,
      (computeOptimalityErrorforSaturation c U (fun _ _ => d) M o1 o2).optimality_for_saturation
          j i = d ^ 2 - (u - mn) * (mx - u) := by
    intro d
    rw [computeOptimalityErrorforSaturation_saturation c U _ M o1 o2 j i hi hj]
    ring
  constructor
  · rintro ⟨d, hd⟩
    rw [key] at hd
    have hprod : 0 ≤ (u - mn) * (mx - u) := by
      have : (u - mn) * (mx - u) = d ^ 2 := by linarith
      rw [this]
      exact sq_nonneg d
    by_contra hcon
    rw [not_and_or] at hcon
    rcases hcon with h | h
    · push_neg at h
      have h1 : u - mn < 0 := by linarith
      have h2 : 0 < mx - u := by linarith
      have := mul_neg_of_neg_of_pos h1 h2
      linarith
    · push_neg at h
      have h1 : 0 < u - mn := by linarith
      have h2 : mx - u < 0 := by linarith
      have := mul_neg_of_pos_of_neg h1 h2
      linarith
  · rintro ⟨h1, h2⟩
    have hprod : 0 ≤ (u - mn) * (mx - u) := mul_nonneg (by linarith) (by linarith)
    refine ⟨Real.sqrt ((u - mn) * (mx - u)), ?_⟩
    rw [key, Real.sq_sqrt hprod]
    ring

/-- Witness for C5 on the instance with two nodes: node `1`, component `0`,
bounds `-1 <= 1`. -/
theorem computeOptimalityErrorforSaturation_zero_iff_box_witness :
    (-1 : ℝ) ≤ 1 ∧
    ((∃ d : ℝ,
        (computeOptimalityErrorforSaturation (demoConfig Real.exp 2) (fun _ => 1 / 2)
          (fun _ _ => d) (fun _ _ => 0) (fun _ _ => 0)
          (fun _ _ => 0)).optimality_for_saturation 0 1 = 0)
      ↔ ((-1 : ℝ) ≤ 1 / 2 ∧ (1 / 2 : ℝ) ≤ 1)) :=
  ⟨by norm_num,
    computeOptimalityErrorforSaturation_zero_iff_box (demoConfig Real.exp 2) (fun _ => 1 / 2)
      (fun _ _ => 0) (fun _ _ => 0) (fun _ _ => 0) 0 1 (by decide) (by decide)
      (by show (-1 : ℝ) ≤ 1; norm_num)⟩

/-! ## Claims on the sweep and the per-tick update -/

/-- C2: for `N >= 1` nodes, the state/costate defects that
`computeOptimalityErrorforStateAndLambda` computes on the trajectory returned by
`computeStateAndLambda` for the same time, state and control sequence are the
perturbations `(P, Q)` fed to the sweep, at every node; with `P = Q = 0` the
defects are zero at every node. -/
theorem computeOptimalityErrorforStateAndLambda_of_computeStateAndLambda
    {K : Type} [Field K] (c : Config K) (t0 t : K) (x U : Vec K)
    (X0 L0 S0 T0 : Mat K) (hN : 1 ≤ c.horizon_division_num) :
    (∀ P Q : Mat K, ∀ i, i < c.horizon_division_num → ∀ r,
      (computeOptimalityErrorforStateAndLambda c t0 t x U
          (computeStateAndLambda c t0 t x U P Q X0 L0).state_mat
          (computeStateAndLambda c t0 t x U P Q X0 L0).lambda_mat S0 T0).optimality_for_state r i
        = P r i
      ∧ (computeOptimalityErrorforStateAndLambda c t0 t x U
          (computeStateAndLambda c t0 t x U P Q X0 L0).state_mat
          (computeStateAndLambda c t0 t x U P Q X0 L0).lambda_mat S0 T0).optimality_for_lambda r i
        = Q r i)
    ∧ (∀ i, i < c.horizon_division_num → ∀ r,
      (computeOptimalityErrorforStateAndLambda c t0 t x U
          (computeStateAndLambda c t0 t x U (fun _ _ => 0) (fun _ _ => 0) X0 L0).state_mat
          (computeStateAndLambda c t0 t x U (fun _ _ => 0) (fun _ _ => 0) X0 L0).lambda_mat
          S0 T0).optimality_for_state r i = 0
      ∧ (computeOptimalityErrorforStateAndLambda c t0 t x U
          (computeStateAndLambda c t0 t x U (fun _ _ => 0) (fun _ _ => 0) X0 L0).state_mat
          (computeStateAndLambda c t0 t x U (fun _ _ => 0) (fun _ _ => 0) X0 L0).lambda_mat
          S0 T0).optimality_for_lambda r i = 0) := by
  have _ := hN
  exact ⟨fun P Q i hi r => error_of_sweep c t0 t x U P Q X0 L0 S0 T0 i hi r,
    fun i hi r => error_of_sweep c t0 t x U (fun _ _ => 0) (fun _ _ => 0) X0 L0 S0 T0 i hi r⟩

/-- Witness for C2 on the instance with two nodes. -/
theorem computeOptimalityErrorforStateAndLambda_of_computeStateAndLambda_witness :
    1 ≤ (demoConfig Real.exp 2).horizon_division_num
    ∧ (computeOptimalityErrorforStateAndLambda (demoConfig Real.exp 2) 0 1 (fun _ => 1)
          (fun _ => 1 / 2)
          (computeStateAndLambda (demoConfig Real.exp 2) 0 1 (fun _ => 1) (fun _ => 1 / 2)
            (fun _ _ => 3) (fun _ _ => 4) (fun _ _ => 0) (fun _ _ => 0)).state_mat
          (computeStateAndLambda (demoConfig Real.exp 2) 0 1 (fun _ => 1) (fun _ => 1 / 2)
            (fun _ _ => 3) (fun _ _ => 4) (fun _ _ => 0) (fun _ _ => 0)).lambda_mat
          (fun _ _ => 0) (fun _ _ => 0)).optimality_for_state 0 1 = 3 :=
  ⟨by decide,
    ((computeOptimalityErrorforStateAndLambda_of_computeStateAndLambda (demoConfig Real.exp 2)
      0 1 (fun _ => 1) (fun _ => 1 / 2) (fun _ _ => 0) (fun _ _ => 0) (fun _ _ => 0)
      (fun _ _ => 0) (by decide)).1 (fun _ _ => 3) (fun _ _ => 4) 1 (by decide) 0).1⟩

/-- C7: `controlUpdate` replaces the control/constraint vector `U` by
`U + samplingPeriod * Delta`, with `Delta` the direction stored by the Krylov
solve, returns the leading `dim_control_input` entries of the updated vector, and
`getControlInput` called on the updated members returns the same command. -/
theorem controlUpdate_control_input {K : Type} [Field K] (c : Config K) (eng : KrylovEngine K)
    (s : Solver K) (t sp : K) (x : Vec K) :
    (controlUpdate c eng s t sp x).1.control_input_and_constraints_update_seq_
        = (forwardDifferenceGMRES c eng (predictIncrementedState c s t x) t
            x).control_input_and_constraints_update_seq_
    ∧ (controlUpdate c eng s t sp x).1.control_input_and_constraints_seq_
        = vadd s.control_input_and_constraints_seq_
            (vscale sp (controlUpdate c eng s t sp x).1.control_input_and_constraints_update_seq_)
    ∧ (controlUpdate c eng s t sp x).2
        = segment (controlUpdate c eng s t sp x).1.control_input_and_constraints_seq_ 0
            c.dim_control_input
    ∧ getControlInput c (controlUpdate c eng s t sp x).1 = (controlUpdate c eng s t sp x).2 := by
  have hg := forwardDifferenceGMRES_sameTrajectory c eng (predictIncrementedState c s t x) t x
  refine ⟨rfl, ?_, rfl, rfl⟩
  have e : (controlUpdate c eng s t sp x).1.control_input_and_constraints_seq_
      = vadd (forwardDifferenceGMRES c eng (predictIncrementedState c s t x) t
          x).control_input_and_constraints_seq_
        (vscale sp (forwardDifferenceGMRES c eng (predictIncrementedState c s t x) t
          x).control_input_and_constraints_update_seq_) := rfl
  rw [e, hg.control_input_and_constraints_seq_]
  rfl

/-- C8: in `controlUpdate` the state and costate trajectories become, at every
node, `state_mat_ + samplingPeriod * (S_inc - state_mat_) / h` and
`lambda_mat_ + samplingPeriod * (L_inc - lambda_mat_) / h`, with
`(S_inc, L_inc) = computeStateAndLambda(t + h, x + h * f(t, x, u_0), U + h * Delta,
(1 - h * zeta) * state_error_mat_, (1 - h * zeta) * lambda_error_mat_)`; `U` is the
control sequence before the update, `Delta` the direction stored by the Krylov
solve, and the two residual matrices are the members as the Krylov solve leaves
them. -/
theorem controlUpdate_state_lambda {K : Type} [Field K] (c : Config K) (eng : KrylovEngine K)
    (s : Solver K) (t sp : K) (x : Vec K) (B1 B2 : Mat K) (i : Nat)
    (hi : i < c.horizon_division_num) (r : Nat) :
    ((controlUpdate c eng s t sp x).1.control_input_and_constraints_update_seq_
        = (forwardDifferenceGMRES c eng (predictIncrementedState c s t x) t
            x).control_input_and_constraints_update_seq_
      ∧ (controlUpdate c eng s t sp x).1.state_error_mat_
        = (forwardDifferenceGMRES c eng (predictIncrementedState c s t x) t x).state_error_mat_
      ∧ (controlUpdate c eng s t sp x).1.lambda_error_mat_
        = (forwardDifferenceGMRES c eng (predictIncrementedState c s t x) t x).lambda_error_mat_)
    ∧ (controlUpdate c eng s t sp x).1.state_mat_ r i
        = s.state_mat_ r i
          + sp * ((computeStateAndLambda c s.initial_time_ (t + c.difference_increment)
              (vadd x (vscale c.difference_increment
                (c.model.stateFunc t x
                  (segment s.control_input_and_constraints_seq_ 0 c.dim_control_input))))
              (vadd s.control_input_and_constraints_seq_
                (vscale c.difference_increment
                  (controlUpdate c eng s t sp x).1.control_input_and_constraints_update_seq_))
              (mscale (1 - c.difference_increment * c.zeta)
                (controlUpdate c eng s t sp x).1.state_error_mat_)
              (mscale (1 - c.difference_increment * c.zeta)
                (controlUpdate c eng s t sp x).1.lambda_error_mat_)
              B1 B2).state_mat r i - s.state_mat_ r i) / c.difference_increment
    ∧ (controlUpdate c eng s t sp x).1.lambda_mat_ r i
        = s.lambda_mat_ r i
          + sp * ((computeStateAndLambda c s.initial_time_ (t + c.difference_increment)
              (vadd x (vscale c.difference_increment
                (c.model.stateFunc t x
                  (segment s.control_input_and_constraints_seq_ 0 c.dim_control_input))))
              (vadd s.control_input_and_constraints_seq_
                (vscale c.difference_increment
                  (controlUpdate c eng s t sp x).1.control_input_and_constraints_update_seq_))
              (mscale (1 - c.difference_increment * c.zeta)
                (controlUpdate c eng s t sp x).1.state_error_mat_)
              (mscale (1 - c.difference_increment * c.zeta)
                (controlUpdate c eng s t sp x).1.lambda_error_mat_)
              B1 B2).lambda_mat r i - s.lambda_mat_ r i) / c.difference_increment := by
  have hg := forwardDifferenceGMRES_sameTrajectory c eng (predictIncrementedState c s t x) t x
  obtain ⟨g1, g2, g3, g4, g5, g6, _, _⟩ := hg
  have p1 : (predictIncrementedState c s t x).initial_time_ = s.initial_time_ := rfl
  have p2 : (predictIncrementedState c s t x).incremented_time_
      = t + c.difference_increment := rfl
  have p3 : (predictIncrementedState c s t x).incremented_state_vec_
      = vadd x (vscale c.difference_increment
          (c.model.stateFunc t x
            (segment s.control_input_and_constraints_seq_ 0 c.dim_control_input))) := rfl
  have p4 : (predictIncrementedState c s t x).control_input_and_constraints_seq_
      = s.control_input_and_constraints_seq_ := rfl
  have p5 : (predictIncrementedState c s t x).state_mat_ = s.state_mat_ := rfl
  have p6 : (predictIncrementedState c s t x).lambda_mat_ = s.lambda_mat_ := rfl
  rw [p1] at g1
  rw [p2] at g2
  rw [p3] at g3
  rw [p4] at g4
  rw [p5] at g5
  rw [p6] at g6
  refine ⟨⟨rfl, rfl, rfl⟩, ?_⟩
  have e1 : (controlUpdate c eng s t sp x).1.state_mat_
      = madd (forwardDifferenceGMRES c eng (predictIncrementedState c s t x) t x).state_mat_
          (mscale sp (mdiv (msub (controlUpdate c eng s t sp x).1.incremented_state_mat_
            (forwardDifferenceGMRES c eng (predictIncrementedState c s t x) t x).state_mat_)
            c.difference_increment)) := rfl
  have e2 : (controlUpdate c eng s t sp x).1.lambda_mat_
      = madd (forwardDifferenceGMRES c eng (predictIncrementedState c s t x) t x).lambda_mat_
          (mscale sp (mdiv (msub (controlUpdate c eng s t sp x).1.incremented_lambda_mat_
            (forwardDifferenceGMRES c eng (predictIncrementedState c s t x) t x).lambda_mat_)
            c.difference_increment)) := rfl
  have e3 : (controlUpdate c eng s t sp x).1.incremented_state_mat_
      = (computeStateAndLambda c
          (forwardDifferenceGMRES c eng (predictIncrementedState c s t x) t x).initial_time_
          (forwardDifferenceGMRES c eng (predictIncrementedState c s t x) t x).incremented_time_
          (forwardDifferenceGMRES c eng (predictIncrementedState c s t x) t
            x).incremented_state_vec_
          (vadd (forwardDifferenceGMRES c eng (predictIncrementedState c s t x) t
              x).control_input_and_constraints_seq_
            (vscale c.difference_increment
              (controlUpdate c eng s t sp x).1.control_input_and_constraints_update_seq_))
          (mscale (1 - c.difference_increment * c.zeta)
            (controlUpdate c eng s t sp x).1.state_error_mat_)
          (mscale (1 - c.difference_increment * c.zeta)
            (controlUpdate c eng s t sp x).1.lambda_error_mat_)
          (forwardDifferenceGMRES c eng (predictIncrementedState c s t x) t
            x).incremented_state_mat_
          (forwardDifferenceGMRES c eng (predictIncrementedState c s t x) t
            x).incremented_lambda_mat_).state_mat := rfl
  have e4 : (controlUpdate c eng s t sp x).1.incremented_lambda_mat_
      = (computeStateAndLambda c
          (forwardDifferenceGMRES c eng (predictIncrementedState c s t x) t x).initial_time_
          (forwardDifferenceGMRES c eng (predictIncrementedState c s t x) t x).incremented_time_
          (forwardDifferenceGMRES c eng (predictIncrementedState c s t x) t
            x).incremented_state_vec_
          (vadd (forwardDifferenceGMRES c eng (predictIncrementedState c s t x) t
              x).control_input_and_constraints_seq_
            (vscale c.difference_increment
              (controlUpdate c eng s t sp x).1.control_input_and_constraints_update_seq_))
          (mscale (1 - c.difference_increment * c.zeta)
            (controlUpdate c eng s t sp x).1.state_error_mat_)
          (mscale (1 - c.difference_increment * c.zeta)
            (controlUpdate c eng s t sp x).1.lambda_error_mat_)
          (forwardDifferenceGMRES c eng (predictIncrementedState c s t x) t
            x).incremented_state_mat_
          (forwardDifferenceGMRES c eng (predictIncrementedState c s t x) t
            x).incremented_lambda_mat_).lambda_mat := rfl
  rw [g1, g2, g3, g4] at e3 e4
  rw [g5] at e1
  rw [g6] at e2
  obtain ⟨b1, b2⟩ := computeStateAndLambda_buffer c s.initial_time_
    (t + c.difference_increment)
    (vadd x (vscale c.difference_increment
      (c.model.stateFunc t x
        (segment s.control_input_and_constraints_seq_ 0 c.dim_control_input))))
    (vadd s.control_input_and_constraints_seq_
      (vscale c.difference_increment
        (controlUpdate c eng s t sp x).1.control_input_and_constraints_update_seq_))
    (mscale (1 - c.difference_increment * c.zeta)
      (controlUpdate c eng s t sp x).1.state_error_mat_)
    (mscale (1 - c.difference_increment * c.zeta)
      (controlUpdate c eng s t sp x).1.lambda_error_mat_)
    (forwardDifferenceGMRES c eng (predictIncrementedState c s t x) t x).incremented_state_mat_
    (forwardDifferenceGMRES c eng (predictIncrementedState c s t x) t x).incremented_lambda_mat_
    B1 B2 i hi
  rw [← e3] at b1
  rw [← e4] at b2
  have c1 := congrFun b1 r
  have c2 := congrFun b2 r
  simp only [col] at c1 c2
  rw [e1, e2, ← c1, ← c2]
  simp only [madd, mscale, mdiv, msub]
  constructor <;> ring

/-- Witness for C8 on the instance with two nodes: node `1`. -/
theorem controlUpdate_state_lambda_witness :
    1 < (demoConfig Real.exp 2).horizon_division_num
    ∧ (controlUpdate (demoConfig Real.exp 2) demoEngine (demoSolver 0 0 0) 0 (1 / 4)
          (fun _ => 0)).1.state_error_mat_
        = (forwardDifferenceGMRES (demoConfig Real.exp 2) demoEngine
            (predictIncrementedState (demoConfig Real.exp 2) (demoSolver 0 0 0) 0 (fun _ => 0))
            0 (fun _ => 0)).state_error_mat_ :=
  ⟨by decide,
    (controlUpdate_state_lambda (demoConfig Real.exp 2) demoEngine (demoSolver 0 0 0) 0 (1 / 4)
      (fun _ => 0) (fun _ _ => 0) (fun _ _ => 0) 1 (by decide) 0).1.2.1⟩

/-- C9: when `samplingPeriod` equals the nonzero difference increment `h`, the
`state_mat_`/`lambda_mat_` left by `controlUpdate` have, at time `t + h`, state
`x + h * f(t, x, u_0)` and control sequence `U + h * Delta`, state/costate defects
(`computeOptimalityErrorforStateAndLambda`) equal at every node to `(1 - h * zeta)`
times the stored `state_error_mat_`/`lambda_error_mat_`. -/
theorem controlUpdate_defect_decay {K : Type} [Field K] (c : Config K) (eng : KrylovEngine K)
    (s : Solver K) (t : K) (x : Vec K) (S0 T0 : Mat K) (i : Nat)
    (hh : c.difference_increment ≠ 0) (hi : i < c.horizon_division_num) (r : Nat) :
    (computeOptimalityErrorforStateAndLambda c s.initial_time_ (t + c.difference_increment)
        (vadd x (vscale c.difference_increment
          (c.model.stateFunc t x
            (segment s.control_input_and_constraints_seq_ 0 c.dim_control_input))))
        (vadd s.control_input_and_constraints_seq_
          (vscale c.difference_increment
            (controlUpdate c eng s t c.difference_increment
              x).1.control_input_and_constraints_update_seq_))
        (controlUpdate c eng s t c.difference_increment x).1.state_mat_
        (controlUpdate c eng s t c.difference_increment x).1.lambda_mat_
        S0 T0).optimality_for_state r i
      = (1 - c.difference_increment * c.zeta)
          * (controlUpdate c eng s t c.difference_increment x).1.state_error_mat_ r i
    ∧ (computeOptimalityErrorforStateAndLambda c s.initial_time_ (t + c.difference_increment)
        (vadd x (vscale c.difference_increment
          (c.model.stateFunc t x
            (segment s.control_input_and_constraints_seq_ 0 c.dim_control_input))))
        (vadd s.control_input_and_constraints_seq_
          (vscale c.difference_increment
            (controlUpdate c eng s t c.difference_increment
              x).1.control_input_and_constraints_update_seq_))
        (controlUpdate c eng s t c.difference_increment x).1.state_mat_
        (controlUpdate c eng s t c.difference_increment x).1.lambda_mat_
        S0 T0).optimality_for_lambda r i
      = (1 - c.difference_increment * c.zeta)
          * (controlUpdate c eng s t c.difference_increment x).1.lambda_error_mat_ r i := by
  have hg := forwardDifferenceGMRES_sameTrajectory c eng (predictIncrementedState c s t x) t x
  obtain ⟨g1, g2, g3, g4, g5, g6, _, _⟩ := hg
  have p1 : (predictIncrementedState c s t x).initial_time_ = s.initial_time_ := rfl
  have p2 : (predictIncrementedState c s t x).incremented_time_
      = t + c.difference_increment := rfl
  have p3 : (predictIncrementedState c s t x).incremented_state_vec_
      = vadd x (vscale c.difference_increment
          (c.model.stateFunc t x
            (segment s.control_input_and_constraints_seq_ 0 c.dim_control_input))) := rfl
  have p4 : (predictIncrementedState c s t x).control_input_and_constraints_seq_
      = s.control_input_and_constraints_seq_ := rfl
  rw [p1] at g1
  rw [p2] at g2
  rw [p3] at g3
  rw [p4] at g4
  have e1 : (controlUpdate c eng s t c.difference_increment x).1.state_mat_
      = madd (forwardDifferenceGMRES c eng (predictIncrementedState c s t x) t x).state_mat_
          (mscale c.difference_increment
            (mdiv (msub
              (controlUpdate c eng s t c.difference_increment x).1.incremented_state_mat_
              (forwardDifferenceGMRES c eng (predictIncrementedState c s t x) t x).state_mat_)
            c.difference_increment)) := rfl
  have e2 : (controlUpdate c eng s t c.difference_increment x).1.lambda_mat_
      = madd (forwardDifferenceGMRES c eng (predictIncrementedState c s t x) t x).lambda_mat_
          (mscale c.difference_increment
            (mdiv (msub
              (controlUpdate c eng s t c.difference_increment x).1.incremented_lambda_mat_
              (forwardDifferenceGMRES c eng (predictIncrementedState c s t x) t x).lambda_mat_)
            c.difference_increment)) := rfl
  have f1 : (controlUpdate c eng s t c.difference_increment x).1.state_mat_
      = (controlUpdate c eng s t c.difference_increment x).1.incremented_state_mat_ := by
    rw [e1]
    funext a b
    simp only [madd, mscale, mdiv, msub]
    field_simp
  have f2 : (controlUpdate c eng s t c.difference_increment x).1.lambda_mat_
      = (controlUpdate c eng s t c.difference_increment x).1.incremented_lambda_mat_ := by
    rw [e2]
    funext a b
    simp only [madd, mscale, mdiv, msub]
    field_simp
  have e3 : (controlUpdate c eng s t c.difference_increment x).1.incremented_state_mat_
      = (computeStateAndLambda c
          (forwardDifferenceGMRES c eng (predictIncrementedState c s t x) t x).initial_time_
          (forwardDifferenceGMRES c eng (predictIncrementedState c s t x) t x).incremented_time_
          (forwardDifferenceGMRES c eng (predictIncrementedState c s t x) t
            x).incremented_state_vec_
          (vadd (forwardDifferenceGMRES c eng (predictIncrementedState c s t x) t
              x).control_input_and_constraints_seq_
            (vscale c.difference_increment
              (controlUpdate c eng s t c.difference_increment
                x).1.control_input_and_constraints_update_seq_))
          (mscale (1 - c.difference_increment * c.zeta)
            (controlUpdate c eng s t c.difference_increment x).1.state_error_mat_)
          (mscale (1 - c.difference_increment * c.zeta)
            (controlUpdate c eng s t c.difference_increment x).1.lambda_error_mat_)
          (forwardDifferenceGMRES c eng (predictIncrementedState c s t x) t
            x).incremented_state_mat_
          (forwardDifferenceGMRES c eng (predictIncrementedState c s t x) t
            x).incremented_lambda_mat_).state_mat := rfl
  have e4 : (controlUpdate c eng s t c.difference_increment x).1.incremented_lambda_mat_
      = (computeStateAndLambda c
          (forwardDifferenceGMRES c eng (predictIncrementedState c s t x) t x).initial_time_
          (forwardDifferenceGMRES c eng (predictIncrementedState c s t x) t x).incremented_time_
          (forwardDifferenceGMRES c eng (predictIncrementedState c s t x) t
            x).incremented_state_vec_
          (vadd (forwardDifferenceGMRES c eng (predictIncrementedState c s t x) t
              x).control_input_and_constraints_seq_
            (vscale c.difference_increment
              (controlUpdate c eng s t c.difference_increment
                x).1.control_input_and_constraints_update_seq_))
          (mscale (1 - c.difference_increment * c.zeta)
            (controlUpdate c eng s t c.difference_increment x).1.state_error_mat_)
          (mscale (1 - c.difference_increment * c.zeta)
            (controlUpdate c eng s t c.difference_increment x).1.lambda_error_mat_)
          (forwardDifferenceGMRES c eng (predictIncrementedState c s t x) t
            x).incremented_state_mat_
          (forwardDifferenceGMRES c eng (predictIncrementedState c s t x) t
            x).incremented_lambda_mat_).lambda_mat := rfl
  rw [g1, g2, g3, g4] at e3 e4
  rw [f1, f2, e3, e4]
  exact error_of_sweep c s.initial_time_ (t + c.difference_increment) _ _ _ _ _ _ S0 T0 i hi r

/-- Witness for C9 on the instance with two nodes (difference increment `1/2`):
node `1`. -/
theorem controlUpdate_defect_decay_witness :
    ((demoConfig Real.exp 2).difference_increment ≠ 0
      ∧ 1 < (demoConfig Real.exp 2).horizon_division_num)
    ∧ (computeOptimalityErrorforStateAndLambda (demoConfig Real.exp 2)
        (demoSolver (0 : ℝ) 0 0).initial_time_ (0 + (demoConfig Real.exp 2).difference_increment)
        (vadd (fun _ => 0) (vscale (demoConfig Real.exp 2).difference_increment
          ((demoConfig Real.exp 2).model.stateFunc 0 (fun _ => 0)
            (segment (demoSolver (0 : ℝ) 0 0).control_input_and_constraints_seq_ 0
              (demoConfig Real.exp 2).dim_control_input))))
        (vadd (demoSolver (0 : ℝ) 0 0).control_input_and_constraints_seq_
          (vscale (demoConfig Real.exp 2).difference_increment
            (controlUpdate (demoConfig Real.exp 2) demoEngine (demoSolver 0 0 0) 0
              (demoConfig Real.exp 2).difference_increment
              (fun _ => 0)).1.control_input_and_constraints_update_seq_))
        (controlUpdate (demoConfig Real.exp 2) demoEngine (demoSolver 0 0 0) 0
          (demoConfig Real.exp 2).difference_increment (fun _ => 0)).1.state_mat_
        (controlUpdate (demoConfig Real.exp 2) demoEngine (demoSolver 0 0 0) 0
          (demoConfig Real.exp 2).difference_increment (fun _ => 0)).1.lambda_mat_
        (fun _ _ => 0) (fun _ _ => 0)).optimality_for_state 0 1
      = (1 - (demoConfig Real.exp 2).difference_increment * (demoConfig Real.exp 2).zeta)
          * (controlUpdate (demoConfig Real.exp 2) demoEngine (demoSolver 0 0 0) 0
              (demoConfig Real.exp 2).difference_increment (fun _ => 0)).1.state_error_mat_ 0 1 :=
  ⟨⟨by show (1 / 2 : ℝ) ≠ 0; norm_num, by decide⟩,
    (controlUpdate_defect_decay (demoConfig Real.exp 2) demoEngine (demoSolver 0 0 0) 0
      (fun _ => 0) (fun _ _ => 0) (fun _ _ => 0) 1 (by show (1 / 2 : ℝ) ≠ 0; norm_num)
      (by decide) 0).1⟩

/-- C6: in `controlUpdate`, when every dummy entry is nonzero, the rates
`dummy_update_mat_` (`d_dot`) and `saturation_update_mat_` (`mu_dot`) satisfy, for
every node `i` and component `j`, with `r_d`, `r_s` the saturation residuals at the
pre-update `(U, dummy, multiplier)` and `Delta` the stored Krylov direction,
`2*d*d_dot + (2*u - min_j - max_j)*Delta_u = -zeta*r_s` and
`2*mu*d_dot + 2*d*mu_dot = -zeta*r_d`; afterwards the dummy is
`d + samplingPeriod*d_dot` and the multiplier `mu + samplingPeriod*mu_dot`. -/
theorem controlUpdate_saturation_rates {K : Type} [Field K] [CharZero K]
    (c : Config K) (eng : KrylovEngine K) (s : Solver K) (t sp : K) (x : Vec K)
    (B1 B2 : Mat K) (j i : Nat)
    (hd : ∀ j' i', i' < c.horizon_division_num → j' < c.dim_saturation →
      s.dummy_input_mat_ j' i' ≠ 0)
    (hi : i < c.horizon_division_num) (hj : j < c.dim_saturation) :
    2 * s.dummy_input_mat_ j i * (controlUpdate c eng s t sp x).1.dummy_update_mat_ j i
        + (2 * s.control_input_and_constraints_seq_
              (i * c.dim_control_input_and_constraints + c.control_input_saturation_seq.index j)
            - c.control_input_saturation_seq.min j - c.control_input_saturation_seq.max j)
          * (controlUpdate c eng s t sp x).1.control_input_and_constraints_update_seq_
              (i * c.dim_control_input_and_constraints + c.control_input_saturation_seq.index j)
      = -c.zeta
          * (computeOptimalityErrorforSaturation c s.control_input_and_constraints_seq_
              s.dummy_input_mat_ s.saturation_lagrange_multiplier_mat_ B1
              B2).optimality_for_saturation j i
    ∧ 2 * s.saturation_lagrange_multiplier_mat_ j i
          * (controlUpdate c eng s t sp x).1.dummy_update_mat_ j i
        + 2 * s.dummy_input_mat_ j i
          * (controlUpdate c eng s t sp x).1.saturation_update_mat_ j i
      = -c.zeta
          * (computeOptimalityErrorforSaturation c s.control_input_and_constraints_seq_
              s.dummy_input_mat_ s.saturation_lagrange_multiplier_mat_ B1
              B2).optimality_for_dummy j i
    ∧ (controlUpdate c eng s t sp x).1.dummy_input_mat_ j i
      = s.dummy_input_mat_ j i + sp * (controlUpdate c eng s t sp x).1.dummy_update_mat_ j i
    ∧ (controlUpdate c eng s t sp x).1.saturation_lagrange_multiplier_mat_ j i
      = s.saturation_lagrange_multiplier_mat_ j i
        + sp * (controlUpdate c eng s t sp x).1.saturation_update_mat_ j i := by
  have hg := forwardDifferenceGMRES_sameTrajectory c eng (predictIncrementedState c s t x) t x
  obtain ⟨_, _, _, g4, _, _, g7, g8⟩ := hg
  have p4 : (predictIncrementedState c s t x).control_input_and_constraints_seq_
      = s.control_input_and_constraints_seq_ := rfl
  have p7 : (predictIncrementedState c s t x).dummy_input_mat_ = s.dummy_input_mat_ := rfl
  have p8 : (predictIncrementedState c s t x).saturation_lagrange_multiplier_mat_
      = s.saturation_lagrange_multiplier_mat_ := rfl
  rw [p4] at g4
  rw [p7] at g7
  rw [p8] at g8
  have e1 : (controlUpdate c eng s t sp x).1.dummy_input_mat_
      = madd (forwardDifferenceGMRES c eng (predictIncrementedState c s t x) t x).dummy_input_mat_
          (mscale sp (controlUpdate c eng s t sp x).1.dummy_update_mat_) := rfl
  have e2 : (controlUpdate c eng s t sp x).1.saturation_lagrange_multiplier_mat_
      = madd (forwardDifferenceGMRES c eng (predictIncrementedState c s t x) t
            x).saturation_lagrange_multiplier_mat_
          (mscale sp (controlUpdate c eng s t sp x).1.saturation_update_mat_) := rfl
  have e3 : (controlUpdate c eng s t sp x).1.dummy_update_mat_
      = (multiplySaturationSelfDerivativeInverse c
          (forwardDifferenceGMRES c eng (predictIncrementedState c s t x) t
            x).control_input_and_constraints_seq_
          (forwardDifferenceGMRES c eng (predictIncrementedState c s t x) t x).dummy_input_mat_
          (forwardDifferenceGMRES c eng (predictIncrementedState c s t x) t
            x).saturation_lagrange_multiplier_mat_
          (msub (mscale (-c.zeta) (controlUpdate c eng s t sp x).1.dummy_error_mat_)
            (controlUpdate c eng s t sp x).1.dummy_error_mat_1_)
          (msub (mscale (-c.zeta) (controlUpdate c eng s t sp x).1.saturation_error_mat_)
            (controlUpdate c eng s t sp x).1.saturation_error_mat_1_)
          (forwardDifferenceGMRES c eng (predictIncrementedState c s t x) t x).dummy_update_mat_
          (forwardDifferenceGMRES c eng (predictIncrementedState c s t x) t
            x).saturation_update_mat_).optimality_for_dummy := rfl
  have e4 : (controlUpdate c eng s t sp x).1.saturation_update_mat_
      = (multiplySaturationSelfDerivativeInverse c
          (forwardDifferenceGMRES c eng (predictIncrementedState c s t x) t
            x).control_input_and_constraints_seq_
          (forwardDifferenceGMRES c eng (predictIncrementedState c s t x) t x).dummy_input_mat_
          (forwardDifferenceGMRES c eng (predictIncrementedState c s t x) t
            x).saturation_lagrange_multiplier_mat_
          (msub (mscale (-c.zeta) (controlUpdate c eng s t sp x).1.dummy_error_mat_)
            (controlUpdate c eng s t sp x).1.dummy_error_mat_1_)
          (msub (mscale (-c.zeta) (controlUpdate c eng s t sp x).1.saturation_error_mat_)
            (controlUpdate c eng s t sp x).1.saturation_error_mat_1_)
          (forwardDifferenceGMRES c eng (predictIncrementedState c s t x) t x).dummy_update_mat_
          (forwardDifferenceGMRES c eng (predictIncrementedState c s t x) t
            x).saturation_update_mat_).optimality_for_saturation := rfl
  have e5 : (controlUpdate c eng s t sp x).1.dummy_error_mat_
      = (computeOptimalityErrorforSaturation c
          (forwardDifferenceGMRES c eng (predictIncrementedState c s t x) t
            x).control_input_and_constraints_seq_
          (forwardDifferenceGMRES c eng (predictIncrementedState c s t x) t x).dummy_input_mat_
          (forwardDifferenceGMRES c eng (predictIncrementedState c s t x) t
            x).saturation_lagrange_multiplier_mat_
          (forwardDifferenceGMRES c eng (predictIncrementedState c s t x) t x).dummy_error_mat_
          (forwardDifferenceGMRES c eng (predictIncrementedState c s t x) t
            x).saturation_error_mat_).optimality_for_dummy := rfl
  have e6 : (controlUpdate c eng s t sp x).1.saturation_error_mat_
      = (computeOptimalityErrorforSaturation c
          (forwardDifferenceGMRES c eng (predictIncrementedState c s t x) t
            x).control_input_and_constraints_seq_
          (forwardDifferenceGMRES c eng (predictIncrementedState c s t x) t x).dummy_input_mat_
          (forwardDifferenceGMRES c eng (predictIncrementedState c s t x) t
            x).saturation_lagrange_multiplier_mat_
          (forwardDifferenceGMRES c eng (predictIncrementedState c s t x) t x).dummy_error_mat_
          (forwardDifferenceGMRES c eng (predictIncrementedState c s t x) t
            x).saturation_error_mat_).optimality_for_saturation := rfl
  have e7 : (controlUpdate c eng s t sp x).1.dummy_error_mat_1_
      = (multiplySaturationDerivativeWithControlInput c
          (forwardDifferenceGMRES c eng (predictIncrementedState c s t x) t
            x).control_input_and_constraints_seq_
          (controlUpdate c eng s t sp x).1.control_input_and_constraints_update_seq_
          (forwardDifferenceGMRES c eng (predictIncrementedState c s t x) t x).dummy_error_mat_1_
          (forwardDifferenceGMRES c eng (predictIncrementedState c s t x) t
            x).saturation_error_mat_1_).optimality_for_dummy := rfl
  have e8 : (controlUpdate c eng s t sp x).1.saturation_error_mat_1_
      = (multiplySaturationDerivativeWithControlInput c
          (forwardDifferenceGMRES c eng (predictIncrementedState c s t x) t
            x).control_input_and_constraints_seq_
          (controlUpdate c eng s t sp x).1.control_input_and_constraints_update_seq_
          (forwardDifferenceGMRES c eng (predictIncrementedState c s t x) t x).dummy_error_mat_1_
          (forwardDifferenceGMRES c eng (predictIncrementedState c s t x) t
            x).saturation_error_mat_1_).optimality_for_saturation := rfl
  rw [g4, g7, g8] at e3 e4 e5 e6
  rw [g4] at e7 e8
  rw [g7] at e1
  rw [g8] at e2
  have rs : (controlUpdate c eng s t sp x).1.saturation_error_mat_ j i
      = (computeOptimalityErrorforSaturation c s.control_input_and_constraints_seq_
          s.dummy_input_mat_ s.saturation_lagrange_multiplier_mat_ B1
          B2).optimality_for_saturation j i := by
    rw [e6, computeOptimalityErrorforSaturation_saturation _ _ _ _ _ _ j i hi hj,
      computeOptimalityErrorforSaturation_saturation _ _ _ _ _ _ j i hi hj]
  have rd : (controlUpdate c eng s t sp x).1.dummy_error_mat_ j i
      = (computeOptimalityErrorforSaturation c s.control_input_and_constraints_seq_
          s.dummy_input_mat_ s.saturation_lagrange_multiplier_mat_ B1
          B2).optimality_for_dummy j i := by
    rw [e5, computeOptimalityErrorforSaturation_dummy _ _ _ _ _ _ j i hi hj,
      computeOptimalityErrorforSaturation_dummy _ _ _ _ _ _ j i hi hj]
  have ms : (controlUpdate c eng s t sp x).1.saturation_error_mat_1_ j i
      = (2 * s.control_input_and_constraints_seq_
            (i * c.dim_control_input_and_constraints + c.control_input_saturation_seq.index j)
          - c.control_input_saturation_seq.min j - c.control_input_saturation_seq.max j)
        * (controlUpdate c eng s t sp x).1.control_input_and_constraints_update_seq_
            (i * c.dim_control_input_and_constraints
              + c.control_input_saturation_seq.index j) := by
    rw [e8, multiplySaturationDerivativeWithControlInput_saturation _ _ _ _ _ j i hi hj]
  have md : (controlUpdate c eng s t sp x).1.dummy_error_mat_1_ j i = 0 := by
    rw [e7, multiplySaturationDerivativeWithControlInput_dummy _ _ _ _ _ j i hi hj]
  have hdd := congrFun (congrFun e3 j) i
  have hdm := congrFun (congrFun e4 j) i
  rw [multiplySaturationSelfDerivativeInverse_dummy _ _ _ _ _ _ _ _ j i hi hj] at hdd
  rw [multiplySaturationSelfDerivativeInverse_saturation _ _ _ _ _ _ _ _ j i hi hj] at hdm
  simp only [msub, mscale] at hdd hdm
  rw [rs, ms] at hdd hdm
  rw [rd, md] at hdm
  obtain ⟨a1, a2⟩ := eliminator_algebra (s.dummy_input_mat_ j i)
    (s.saturation_lagrange_multiplier_mat_ j i)
    (-c.zeta * (computeOptimalityErrorforSaturation c s.control_input_and_constraints_seq_
      s.dummy_input_mat_ s.saturation_lagrange_multiplier_mat_ B1 B2).optimality_for_dummy j i
      - 0)
    (-c.zeta * (computeOptimalityErrorforSaturation c s.control_input_and_constraints_seq_
        s.dummy_input_mat_ s.saturation_lagrange_multiplier_mat_ B1
        B2).optimality_for_saturation j i
      - (2 * s.control_input_and_constraints_seq_
            (i * c.dim_control_input_and_constraints + c.control_input_saturation_seq.index j)
          - c.control_input_saturation_seq.min j - c.control_input_saturation_seq.max j)
        * (controlUpdate c eng s t sp x).1.control_input_and_constraints_update_seq_
            (i * c.dim_control_input_and_constraints
              + c.control_input_saturation_seq.index j))
    (hd j i hi hj)
  rw [← hdd] at a1 a2
  rw [← hdm] at a2
  refine ⟨?_, ?_, ?_, ?_⟩
  · rw [a1]
    ring
  · rw [a2]
    ring
  · rw [e1]
    rfl
  · rw [e2]
    rfl

/-- Witness for C6 on the instance with two nodes (every dummy entry `1`): node
`1`, component `0`. -/
theorem controlUpdate_saturation_rates_witness :
    (∀ j' i', i' < (demoConfig Real.exp 2).horizon_division_num →
        j' < (demoConfig Real.exp 2).dim_saturation →
        (demoSolver (1 / 2 : ℝ) 0 0).dummy_input_mat_ j' i' ≠ 0)
    ∧ (controlUpdate (demoConfig Real.exp 2) demoEngine (demoSolver (1 / 2) 0 0) 0 (1 / 4)
          (fun _ => 0)).1.dummy_input_mat_ 0 1
        = (demoSolver (1 / 2 : ℝ) 0 0).dummy_input_mat_ 0 1
          + 1 / 4 * (controlUpdate (demoConfig Real.exp 2) demoEngine (demoSolver (1 / 2) 0 0) 0
              (1 / 4) (fun _ => 0)).1.dummy_update_mat_ 0 1 :=
  ⟨fun _ _ _ _ => one_ne_zero,
    (controlUpdate_saturation_rates (demoConfig Real.exp 2) demoEngine (demoSolver (1 / 2) 0 0)
      0 (1 / 4) (fun _ => 0) (fun _ _ => 0) (fun _ _ => 0) 0 1
      (fun _ _ _ _ => one_ne_zero) (by decide) (by decide)).2.2.1⟩

/-! ## Claims on the b-hook -/

/-- C10 (as stated) fails on the one-node instance at time `0`, state `0`,
`U = 1/2`, inside `controlUpdate` after the prediction step: with stored direction
`0` the b-hook returns `-9/8`, with stored direction `1` (all other members
equal) it returns `-41/8`, and the claimed expression
`-(zeta - 1/h)*F_t(U) - (1/h)*[F_(t+h)(U) - F_t(U)]` is `15/8`. -/
theorem bFunc_claimed_rhs_counterexample :
    (bFunc (demoConfig Real.exp 1)
        (predictIncrementedState (demoConfig Real.exp 1) (demoSolver (1 / 2) 0 0) 0 (fun _ => 0))
        0 (fun _ => 0) (fun _ => 1 / 2)).2 0
      ≠ (bFunc (demoConfig Real.exp 1)
        (predictIncrementedState (demoConfig Real.exp 1) (demoSolver (1 / 2) 0 1) 0 (fun _ => 0))
        0 (fun _ => 0) (fun _ => 1 / 2)).2 0
    ∧ (bFunc (demoConfig Real.exp 1)
        (predictIncrementedState (demoConfig Real.exp 1) (demoSolver (1 / 2) 0 0) 0 (fun _ => 0))
        0 (fun _ => 0) (fun _ => 1 / 2)).2 0
      ≠ claimedRightHandSide (demoConfig Real.exp 1) 0 (0 + 1 / 2)
          (vadd (fun _ => 0) (vscale (1 / 2)
            ((demoConfig Real.exp 1).model.stateFunc 0 (fun _ => 0)
              (segment (fun _ => 1 / 2) 0 1))))
          (fun _ _ => 0) (fun _ _ => 0) (fun _ _ => 1) (fun _ _ => 1)
          0 (fun _ => 0) (fun _ => 1 / 2) 0 := by
  have v0 : (bFunc (demoConfig Real.exp 1)
        (predictIncrementedState (demoConfig Real.exp 1) (demoSolver (1 / 2) 0 0) 0 (fun _ => 0))
        0 (fun _ => 0) (fun _ => 1 / 2)).2 0 = -9 / 8 := by
    simp [bFunc, predictIncrementedState, demoConfig, demoSolver, demoModel, demoSaturation,
      computeOptimalityErrorforControlInputAndConstraints, controlNode,
      addDerivativeSaturationWithControlInput, computeOptimalityErrorforSaturation,
      multiplySaturationSelfDerivativeInverse, multiplySaturationDerivativeWithControlInput,
      computeStateAndLambda, computeOptimalityErrorforStateAndLambda, fillEntries,
      Config.dim_control_input_and_constraints, Config.dim_control_input, Config.dim_constraints,
      Config.dim_saturation, forUp, forDown, setSegment, segment, setAt, setEntry, setCol, col,
      vadd, vsub, vscale, vdiv, madd, msub, mscale, mdiv]
    norm_num
  have v1 : (bFunc (demoConfig Real.exp 1)
        (predictIncrementedState (demoConfig Real.exp 1) (demoSolver (1 / 2) 0 1) 0 (fun _ => 0))
        0 (fun _ => 0) (fun _ => 1 / 2)).2 0 = -41 / 8 := by
    simp [bFunc, predictIncrementedState, demoConfig, demoSolver, demoModel, demoSaturation,
      computeOptimalityErrorforControlInputAndConstraints, controlNode,
      addDerivativeSaturationWithControlInput, computeOptimalityErrorforSaturation,
      multiplySaturationSelfDerivativeInverse, multiplySaturationDerivativeWithControlInput,
      computeStateAndLambda, computeOptimalityErrorforStateAndLambda, fillEntries,
      Config.dim_control_input_and_constraints, Config.dim_control_input, Config.dim_constraints,
      Config.dim_saturation, forUp, forDown, setSegment, segment, setAt, setEntry, setCol, col,
      vadd, vsub, vscale, vdiv, madd, msub, mscale, mdiv]
    norm_num
  have v2 : claimedRightHandSide (demoConfig Real.exp 1) 0 (0 + 1 / 2)
          (vadd (fun _ => 0) (vscale (1 / 2)
            ((demoConfig Real.exp 1).model.stateFunc 0 (fun _ => 0)
              (segment (fun _ => 1 / 2) 0 1))))
          (fun _ _ => 0) (fun _ _ => 0) (fun _ _ => 1) (fun _ _ => 1)
          0 (fun _ => 0) (fun _ => 1 / 2) 0 = 15 / 8 := by
    simp [claimedRightHandSide, controlResidual, condensedResidual,
      demoConfig, demoModel, demoSaturation,
      computeOptimalityErrorforControlInputAndConstraints, controlNode,
      addDerivativeSaturationWithControlInput, computeOptimalityErrorforSaturation,
      multiplySaturationSelfDerivativeInverse,
      computeStateAndLambda, computeOptimalityErrorforStateAndLambda, fillEntries,
      Config.dim_control_input_and_constraints, Config.dim_control_input, Config.dim_constraints,
      Config.dim_saturation, forUp, forDown, setSegment, segment, setAt, setEntry, setCol, col,
      vadd, vsub, vscale, vdiv, madd, msub, mscale, mdiv]
    norm_num
  rw [v0, v1, v2]
  constructor <;> norm_num

/-- C10 (amended): on every node segment the b-hook output equals
`-(zeta - 1/h)*F_t(U) - F3/h - (F2 - F1)/h`, where `F_t(U)` is the
control/constraint residual of `U` at the current time and state, `F3` the residual
of `U` at the incremented time and state with the condensed
state/costate/multiplier variables, `F1` the residual of `U` at the incremented
time and state on the current trajectory and `F2` the residual of
`U + h*Delta_prev` there with re-derived state/costate and corrected multipliers;
the output is a function of `(t, state, U)`, the current trajectory, the predicted
time and state, and the stored direction `Delta_prev`. -/
theorem bFunc_equation_error {K : Type} [Field K] (c : Config K) (s : Solver K) (t : K)
    (x U : Vec K) (k : Nat)
    (hk : k < c.horizon_division_num * c.dim_control_input_and_constraints) :
    (bFunc c s t x U).2 k
      = warmStartedRightHandSide c s.initial_time_ s.incremented_time_ s.incremented_state_vec_
          s.state_mat_ s.lambda_mat_ s.dummy_input_mat_ s.saturation_lagrange_multiplier_mat_
          t x U s.control_input_and_constraints_update_seq_ k :=
  bFunc_eq_warmStartedRightHandSide c s t x U k hk

/-- Witness for C10 (amended) on the one-node instance: entry `0`. -/
theorem bFunc_equation_error_witness :
    0 < (demoConfig Real.exp 1).horizon_division_num
        * (demoConfig Real.exp 1).dim_control_input_and_constraints
    ∧ (bFunc (demoConfig Real.exp 1) (demoSolver (1 / 2) 0 1) 0 (fun _ => 0)
          (fun _ => 1 / 2)).2 0
      = warmStartedRightHandSide (demoConfig Real.exp 1)
          (demoSolver (1 / 2 : ℝ) 0 1).initial_time_
          (demoSolver (1 / 2 : ℝ) 0 1).incremented_time_
          (demoSolver (1 / 2 : ℝ) 0 1).incremented_state_vec_
          (demoSolver (1 / 2 : ℝ) 0 1).state_mat_ (demoSolver (1 / 2 : ℝ) 0 1).lambda_mat_
          (demoSolver (1 / 2 : ℝ) 0 1).dummy_input_mat_
          (demoSolver (1 / 2 : ℝ) 0 1).saturation_lagrange_multiplier_mat_
          0 (fun _ => 0) (fun _ => 1 / 2)
          (demoSolver (1 / 2 : ℝ) 0 1).control_input_and_constraints_update_seq_ 0 :=
  ⟨by decide,
    bFunc_equation_error (demoConfig Real.exp 1) (demoSolver (1 / 2) 0 1) 0 (fun _ => 0)
      (fun _ => 1 / 2) 0 (by decide)⟩

/-! ## Claims on the eliminator and the cross term -/

/-- C18: for a node and component with nonzero dummy `d`, let `(dd, dmu)` be the
result of `multiplySaturationDerivativeWithControlInput` on a direction `v` followed
by `multiplySaturationSelfDerivativeInverse`.  Then for every step `h` the constraint
residual at `(u + h*v, d - h*dd)` is the one at `(u, d)` plus `h^2*(v^2 + dd^2)`, and
the dummy residual at `(d - h*dd, mu - h*dmu)` is the one at `(d, mu)` plus
`2*h^2*dd*dmu`. -/
theorem multiplySaturationSelfDerivativeInverse_of_cross_term
    {K : Type} [Field K] [CharZero K] (c : Config K) (U V : Vec K)
    (D M a1 a2 b1 b2 o1 o2 : Mat K) (j i : Nat)
    (hi : i < c.horizon_division_num) (hj : j < c.dim_saturation) (hd : D j i ≠ 0) (h : K) :
    (computeOptimalityErrorforSaturation c (vadd U (vscale h V))
          (msub D (mscale h
            (multiplySaturationSelfDerivativeInverse c U D M
              (multiplySaturationDerivativeWithControlInput c U V a1 a2).optimality_for_dummy
              (multiplySaturationDerivativeWithControlInput c U V a1 a2).optimality_for_saturation
              b1 b2).optimality_for_dummy))
          (msub M (mscale h
            (multiplySaturationSelfDerivativeInverse c U D M
              (multiplySaturationDerivativeWithControlInput c U V a1 a2).optimality_for_dummy
              (multiplySaturationDerivativeWithControlInput c U V a1 a2).optimality_for_saturation
              b1 b2).optimality_for_saturation))
          o1 o2).optimality_for_saturation j i
      = (computeOptimalityErrorforSaturation c U D M o1 o2).optimality_for_saturation j i
        + h ^ 2
          * (V (i * c.dim_control_input_and_constraints + c.control_input_saturation_seq.index j)
                ^ 2
              + (multiplySaturationSelfDerivativeInverse c U D M
                  (multiplySaturationDerivativeWithControlInput c U V a1 a2).optimality_for_dummy
                  (multiplySaturationDerivativeWithControlInput c U V a1
                    a2).optimality_for_saturation
                  b1 b2).optimality_for_dummy j i ^ 2)
    ∧ (computeOptimalityErrorforSaturation c (vadd U (vscale h V))
          (msub D (mscale h
            (multiplySaturationSelfDerivativeInverse c U D M
              (multiplySaturationDerivativeWithControlInput c U V a1 a2).optimality_for_dummy
              (multiplySaturationDerivativeWithControlInput c U V a1 a2).optimality_for_saturation
              b1 b2).optimality_for_dummy))
          (msub M (mscale h
            (multiplySaturationSelfDerivativeInverse c U D M
              (multiplySaturationDerivativeWithControlInput c U V a1 a2).optimality_for_dummy
              (multiplySaturationDerivativeWithControlInput c U V a1 a2).optimality_for_saturation
              b1 b2).optimality_for_saturation))
          o1 o2).optimality_for_dummy j i
      = (computeOptimalityErrorforSaturation c U D M o1 o2).optimality_for_dummy j i
        + 2 * h ^ 2
          * (multiplySaturationSelfDerivativeInverse c U D M
              (multiplySaturationDerivativeWithControlInput c U V a1 a2).optimality_for_dummy
              (multiplySaturationDerivativeWithControlInput c U V a1 a2).optimality_for_saturation
              b1 b2).optimality_for_dummy j i
          * (multiplySaturationSelfDerivativeInverse c U D M
              (multiplySaturationDerivativeWithControlInput c U V a1 a2).optimality_for_dummy
              (multiplySaturationDerivativeWithControlInput c U V a1 a2).optimality_for_saturation
              b1 b2).optimality_for_saturation j i := by
  have hdd := multiplySaturationSelfDerivativeInverse_dummy c U D M
    (multiplySaturationDerivativeWithControlInput c U V a1 a2).optimality_for_dummy
    (multiplySaturationDerivativeWithControlInput c U V a1 a2).optimality_for_saturation
    b1 b2 j i hi hj
  have hdm := multiplySaturationSelfDerivativeInverse_saturation c U D M
    (multiplySaturationDerivativeWithControlInput c U V a1 a2).optimality_for_dummy
    (multiplySaturationDerivativeWithControlInput c U V a1 a2).optimality_for_saturation
    b1 b2 j i hi hj
  rw [multiplySaturationDerivativeWithControlInput_saturation c U V a1 a2 j i hi hj] at hdd hdm
  rw [multiplySaturationDerivativeWithControlInput_dummy c U V a1 a2 j i hi hj] at hdm
  rw [computeOptimalityErrorforSaturation_saturation _ _ _ _ _ _ j i hi hj,
    computeOptimalityErrorforSaturation_saturation _ _ _ _ _ _ j i hi hj,
    computeOptimalityErrorforSaturation_dummy _ _ _ _ _ _ j i hi hj,
    computeOptimalityErrorforSaturation_dummy _ _ _ _ _ _ j i hi hj]
  simp only [vadd, vscale, msub, mscale]
  rw [hdd, hdm]
  have h2 : (2 : K) ≠ 0 := two_ne_zero
  constructor
  · field_simp
    ring
  · field_simp
    ring

/-- Witness for C18 on the instance with two nodes: node `1`, component `0`,
dummy value `1`, step `1/3`. -/
theorem multiplySaturationSelfDerivativeInverse_of_cross_term_witness :
    (1 : ℝ) ≠ 0
    ∧ (computeOptimalityErrorforSaturation (demoConfig Real.exp 2)
          (vadd (fun _ => 1 / 2) (vscale (1 / 3) (fun _ => 1)))
          (msub (fun _ _ => 1) (mscale (1 / 3)
            (multiplySaturationSelfDerivativeInverse (demoConfig Real.exp 2) (fun _ => 1 / 2)
              (fun _ _ => 1) (fun _ _ => 2)
              (multiplySaturationDerivativeWithControlInput (demoConfig Real.exp 2)
                (fun _ => 1 / 2) (fun _ => 1) (fun _ _ => 0)
                (fun _ _ => 0)).optimality_for_dummy
              (multiplySaturationDerivativeWithControlInput (demoConfig Real.exp 2)
                (fun _ => 1 / 2) (fun _ => 1) (fun _ _ => 0)
                (fun _ _ => 0)).optimality_for_saturation
              (fun _ _ => 0) (fun _ _ => 0)).optimality_for_dummy))
          (msub (fun _ _ => 2) (mscale (1 / 3)
            (multiplySaturationSelfDerivativeInverse (demoConfig Real.exp 2) (fun _ => 1 / 2)
              (fun _ _ => 1) (fun _ _ => 2)
              (multiplySaturationDerivativeWithControlInput (demoConfig Real.exp 2)
                (fun _ => 1 / 2) (fun _ => 1) (fun _ _ => 0)
                (fun _ _ => 0)).optimality_for_dummy
              (multiplySaturationDerivativeWithControlInput (demoConfig Real.exp 2)
                (fun _ => 1 / 2) (fun _ => 1) (fun _ _ => 0)
                (fun _ _ => 0)).optimality_for_saturation
              (fun _ _ => 0) (fun _ _ => 0)).optimality_for_saturation))
          (fun _ _ => 0) (fun _ _ => 0)).optimality_for_saturation 0 1
      = (computeOptimalityErrorforSaturation (demoConfig Real.exp 2) (fun _ => 1 / 2)
          (fun _ _ => 1) (fun _ _ => 2) (fun _ _ => 0) (fun _ _ => 0)).optimality_for_saturation
            0 1
        + (1 / 3 : ℝ) ^ 2
          * ((1 : ℝ) ^ 2
              + (multiplySaturationSelfDerivativeInverse (demoConfig Real.exp 2)
                  (fun _ => 1 / 2) (fun _ _ => 1) (fun _ _ => 2)
                  (multiplySaturationDerivativeWithControlInput (demoConfig Real.exp 2)
                    (fun _ => 1 / 2) (fun _ => 1) (fun _ _ => 0)
                    (fun _ _ => 0)).optimality_for_dummy
                  (multiplySaturationDerivativeWithControlInput (demoConfig Real.exp 2)
                    (fun _ => 1 / 2) (fun _ => 1) (fun _ _ => 0)
                    (fun _ _ => 0)).optimality_for_saturation
                  (fun _ _ => 0) (fun _ _ => 0)).optimality_for_dummy 0 1 ^ 2) :=
  ⟨one_ne_zero,
    (multiplySaturationSelfDerivativeInverse_of_cross_term (demoConfig Real.exp 2)
      (fun _ => 1 / 2) (fun _ => 1) (fun _ _ => 1) (fun _ _ => 2) (fun _ _ => 0) (fun _ _ => 0)
      (fun _ _ => 0) (fun _ _ => 0) (fun _ _ => 0) (fun _ _ => 0) 0 1 (by decide) (by decide)
      one_ne_zero (1 / 3)).1⟩

/-- C19: for every control sequence `U`, direction `v`, step `h`, dummy and
multiplier matrices, the constraint residual of `computeOptimalityErrorforSaturation`
at `U + h*v` minus the one at `U` is `h*optimality_for_saturation(j,i) + h^2*v^2`
with `optimality_for_saturation(j,i) = (2*u - min_j - max_j)*v` the output of
`multiplySaturationDerivativeWithControlInput`; the dummy residual does not change
with `U`, and the `optimality_for_dummy` output is zero. -/
theorem multiplySaturationDerivativeWithControlInput_first_order
    {K : Type} [Field K] [CharZero K] (c : Config K) (U V : Vec K) (h : K)
    (D M a1 a2 o1 o2 : Mat K) (j i : Nat)
    (hi : i < c.horizon_division_num) (hj : j < c.dim_saturation) :
    (computeOptimalityErrorforSaturation c (vadd U (vscale h V)) D M o1
          o2).optimality_for_saturation j i
        - (computeOptimalityErrorforSaturation c U D M o1 o2).optimality_for_saturation j i
      = h * (multiplySaturationDerivativeWithControlInput c U V a1 a2).optimality_for_saturation
              j i
        + h ^ 2
          * V (i * c.dim_control_input_and_constraints + c.control_input_saturation_seq.index j)
            ^ 2
    ∧ (multiplySaturationDerivativeWithControlInput c U V a1 a2).optimality_for_saturation j i
      = (2 * U (i * c.dim_control_input_and_constraints + c.control_input_saturation_seq.index j)
            - c.control_input_saturation_seq.min j - c.control_input_saturation_seq.max j)
          * V (i * c.dim_control_input_and_constraints + c.control_input_saturation_seq.index j)
    ∧ (computeOptimalityErrorforSaturation c (vadd U (vscale h V)) D M o1 o2).optimality_for_dummy
          j i
      = (computeOptimalityErrorforSaturation c U D M o1 o2).optimality_for_dummy j i
    ∧ (multiplySaturationDerivativeWithControlInput c U V a1 a2).optimality_for_dummy j i
      = 0 := by
  refine ⟨?_, ?_, ?_, ?_⟩
  · rw [computeOptimalityErrorforSaturation_saturation _ _ _ _ _ _ j i hi hj,
      computeOptimalityErrorforSaturation_saturation _ _ _ _ _ _ j i hi hj,
      multiplySaturationDerivativeWithControlInput_saturation _ _ _ _ _ j i hi hj]
    simp only [vadd, vscale]
    ring
  · exact multiplySaturationDerivativeWithControlInput_saturation _ _ _ _ _ j i hi hj
  · rw [computeOptimalityErrorforSaturation_dummy _ _ _ _ _ _ j i hi hj,
      computeOptimalityErrorforSaturation_dummy _ _ _ _ _ _ j i hi hj]
  · exact multiplySaturationDerivativeWithControlInput_dummy _ _ _ _ _ j i hi hj

/-- Witness for C19 on the instance with two nodes: node `1`, component `0`. -/
theorem multiplySaturationDerivativeWithControlInput_first_order_witness :
    (multiplySaturationDerivativeWithControlInput (demoConfig Real.exp 2) (fun _ => 1 / 2)
        (fun _ => 3) (fun _ _ => 5) (fun _ _ => 5)).optimality_for_dummy 0 1 = 0 :=
  (multiplySaturationDerivativeWithControlInput_first_order (demoConfig Real.exp 2)
    (fun _ => 1 / 2) (fun _ => 3) (1 / 4) (fun _ _ => 1) (fun _ _ => 1) (fun _ _ => 5)
    (fun _ _ => 5) (fun _ _ => 0) (fun _ _ => 0) 0 1 (by decide) (by decide)).2.2.2

/-- C20: `addDerivativeSaturationWithControlInput` adds to every component `p` of
the control/constraint residual the sum, over the saturation entries `j` with
`index(j) = p`, of `(2*u_(index(j)) - min_j - max_j) * multiplier_j` (entries sharing
an index accumulate), and leaves a component that is no entry's index unchanged;
each contribution is the derivative with respect to `u_(index(j))` of `multiplier_j`
times the constraint residual of `computeOptimalityErrorforSaturation`. -/
theorem addDerivativeSaturationWithControlInput_effect (c : Config ℝ) (u m v : Vec ℝ) :
    (∀ p, addDerivativeSaturationWithControlInput c u m v p
        = v p + Finset.sum
            ((Finset.range c.dim_saturation).filter
              (fun j => c.control_input_saturation_seq.index j = p))
            (fun j => (2 * u (c.control_input_saturation_seq.index j)
              - c.control_input_saturation_seq.min j
              - c.control_input_saturation_seq.max j) * m j))
    ∧ (∀ p, (∀ j, j < c.dim_saturation → c.control_input_saturation_seq.index j ≠ p) →
        addDerivativeSaturationWithControlInput c u m v p = v p)
    ∧ (∀ (U : Vec ℝ) (D M o1 o2 : Mat ℝ) (j i : Nat) (y : ℝ),
        i < c.horizon_division_num → j < c.dim_saturation →
        HasDerivAt
          (fun z => M j i
            * (computeOptimalityErrorforSaturation c
                (setAt U (i * c.dim_control_input_and_constraints
                  + c.control_input_saturation_seq.index j) z)
                D M o1 o2).optimality_for_saturation j i)
          ((2 * y - c.control_input_saturation_seq.min j
            - c.control_input_saturation_seq.max j) * M j i)
          y) := by
  refine ⟨fun p => addDerivativeSaturationWithControlInput_apply c u m v p, ?_, ?_⟩
  · intro p hp
    rw [addDerivativeSaturationWithControlInput_apply]
    have : (Finset.range c.dim_saturation).filter
        (fun j => c.control_input_saturation_seq.index j = p) = ∅ := by
      apply Finset.filter_eq_empty_iff.mpr
      intro j hj
      exact hp j (Finset.mem_range.mp hj)
    rw [this]
    simp
  · intro U D M o1 o2 j i y hi hj
    have hf : (fun z : ℝ => M j i
          * (computeOptimalityErrorforSaturation c
              (setAt U (i * c.dim_control_input_and_constraints
                + c.control_input_saturation_seq.index j) z)
              D M o1 o2).optimality_for_saturation j i)
        = fun z : ℝ => M j i
          * ((z - (c.control_input_saturation_seq.min j
                + c.control_input_saturation_seq.max j) / 2)
              * (z - (c.control_input_saturation_seq.min j
                + c.control_input_saturation_seq.max j) / 2)
            - (c.control_input_saturation_seq.max j - c.control_input_saturation_seq.min j)
              * (c.control_input_saturation_seq.max j - c.control_input_saturation_seq.min j) / 4
            + D j i * D j i) := by
      funext z
      rw [computeOptimalityErrorforSaturation_saturation _ _ _ _ _ _ j i hi hj]
      simp [setAt]
    rw [hf]
    have h1 : HasDerivAt
        (fun z : ℝ => z - (c.control_input_saturation_seq.min j
          + c.control_input_saturation_seq.max j) / 2) 1 y :=
      (hasDerivAt_id y).sub_const _
    have h2 := ((h1.mul h1).sub_const
      ((c.control_input_saturation_seq.max j - c.control_input_saturation_seq.min j)
        * (c.control_input_saturation_seq.max j - c.control_input_saturation_seq.min j) / 4)).add_const
      (D j i * D j i)
    have h3 := h2.const_mul (M j i)
    convert h3 using 1
    ring

/-- Witness for C20 on the instance with two nodes: component `3` is not the index
of the only saturation entry. -/
theorem addDerivativeSaturationWithControlInput_effect_witness :
    (∀ j, j < (demoConfig Real.exp 2).dim_saturation →
        (demoConfig Real.exp 2).control_input_saturation_seq.index j ≠ 3)
    ∧ addDerivativeSaturationWithControlInput (demoConfig Real.exp 2) (fun _ => 1 / 2)
        (fun _ => 2) (fun _ => 7) 3 = 7 :=
  ⟨fun _ _ => (by decide : (0 : Nat) ≠ 3),
    (addDerivativeSaturationWithControlInput_effect (demoConfig Real.exp 2) (fun _ => 1 / 2)
      (fun _ => 2) (fun _ => 7)).2.1 3 (fun _ _ => (by decide : (0 : Nat) ≠ 3))⟩

/-! ## Claims on the residual formulation -/

/-- C12: with `N >= 1` nodes, `computeOptimalityErrorforControlInputAndConstraints`
writes into node `0`'s segment `huFunc(t, x, U_0, lambda_0)` plus the saturation
contribution of multiplier column `0`, and into the segment of every node `i` with
`1 <= i <= N-1` `huFunc(t + i*dtau, state_(i-1), U_i, lambda_i)` plus the saturation
contribution of multiplier column `i`; the contribution at component `p` is the sum
of `(2*u_(index(j)) - min_j - max_j) * multiplier_j` over the entries `j` with
`index(j) = p`, and `dtau = horizon_length / N`. -/
theorem computeOptimalityErrorforControlInputAndConstraints_entries
    {K : Type} [Field K] (c : Config K) (t0 t : K) (x U : Vec K) (X L M : Mat K) (buf : Vec K)
    (hN : 1 ≤ c.horizon_division_num) :
    (∀ p, p < c.dim_control_input_and_constraints →
        computeOptimalityErrorforControlInputAndConstraints c t0 t x U X L M buf p
          = c.model.huFunc t x (segment U 0 c.dim_control_input_and_constraints) (col L 0) p
            + Finset.sum
                ((Finset.range c.dim_saturation).filter
                  (fun j => c.control_input_saturation_seq.index j = p))
                (fun j =>
                  (2 * segment U 0 c.dim_control_input_and_constraints
                        (c.control_input_saturation_seq.index j)
                    - c.control_input_saturation_seq.min j
                    - c.control_input_saturation_seq.max j) * M j 0))
    ∧ (∀ i, 1 ≤ i → i ≤ c.horizon_division_num - 1 →
        ∀ p, p < c.dim_control_input_and_constraints →
        computeOptimalityErrorforControlInputAndConstraints c t0 t x U X L M buf
            (i * c.dim_control_input_and_constraints + p)
          = c.model.huFunc
                (t + (i : K) * (horizonLength c t0 t / (c.horizon_division_num : K)))
                (col X (i - 1))
                (segment U (i * c.dim_control_input_and_constraints)
                  c.dim_control_input_and_constraints)
                (col L i) p
            + Finset.sum
                ((Finset.range c.dim_saturation).filter
                  (fun j => c.control_input_saturation_seq.index j = p))
                (fun j =>
                  (2 * segment U (i * c.dim_control_input_and_constraints)
                        c.dim_control_input_and_constraints
                        (c.control_input_saturation_seq.index j)
                    - c.control_input_saturation_seq.min j
                    - c.control_input_saturation_seq.max j) * M j i)) := by
  have _ := hN
  obtain ⟨n0, n1⟩ := computeOptimalityErrorforControlInputAndConstraints_nodes c t0 t x U X L M buf
  constructor
  · intro p hp
    rw [n0 p hp, addDerivativeSaturationWithControlInput_apply]
    rfl
  · intro i hi hle p hp
    rw [n1 i hi (by omega) p hp, addDerivativeSaturationWithControlInput_apply, tauUp_eq]
    rfl

/-- Witness for C12 on the instance with two nodes: node `1`, component `0`. -/
theorem computeOptimalityErrorforControlInputAndConstraints_entries_witness :
    1 ≤ (demoConfig Real.exp 2).horizon_division_num
    ∧ computeOptimalityErrorforControlInputAndConstraints (demoConfig Real.exp 2) 0 1
        (fun _ => 0) (fun _ => 1 / 2) (fun _ _ => 0) (fun _ _ => 3) (fun _ _ => 1) (fun _ => 0)
        (1 * (demoConfig Real.exp 2).dim_control_input_and_constraints + 0)
      = (demoConfig Real.exp 2).model.huFunc
            (1 + ((1 : Nat) : ℝ) * (horizonLength (demoConfig Real.exp 2) 0 1
              / ((demoConfig Real.exp 2).horizon_division_num : ℝ)))
            (col (fun _ _ => 0) (1 - 1))
            (segment (fun _ => 1 / 2) (1 * (demoConfig Real.exp 2).dim_control_input_and_constraints)
              (demoConfig Real.exp 2).dim_control_input_and_constraints)
            (col (fun _ _ => 3) 1) 0
          + Finset.sum
              ((Finset.range (demoConfig Real.exp 2).dim_saturation).filter
                (fun j => (demoConfig Real.exp 2).control_input_saturation_seq.index j = 0))
              (fun j =>
                (2 * segment (fun _ => (1 / 2 : ℝ))
                      (1 * (demoConfig Real.exp 2).dim_control_input_and_constraints)
                      (demoConfig Real.exp 2).dim_control_input_and_constraints
                      ((demoConfig Real.exp 2).control_input_saturation_seq.index j)
                  - (demoConfig Real.exp 2).control_input_saturation_seq.min j
                  - (demoConfig Real.exp 2).control_input_saturation_seq.max j)
                * (fun _ _ => (1 : ℝ)) j 1) :=
  ⟨by decide,
    (computeOptimalityErrorforControlInputAndConstraints_entries (demoConfig Real.exp 2) 0 1
      (fun _ => 0) (fun _ => 1 / 2) (fun _ _ => 0) (fun _ _ => 3) (fun _ _ => 1) (fun _ => 0)
      (by decide)).2 1 (by decide) (by decide) 0 (by decide)⟩

/-- C13 (code defect): on the two-node instance with the time-varying plant
(`hxFunc` returns its time argument), initial time `0`, query time `1` and a zero
trajectory, the costate defect of node `0` written by
`computeOptimalityErrorforStateAndLambda` is `-dtau*(1 + 2*dtau)`: `hxFunc` is
evaluated at `t + 2*dtau`, not at the time `t + dtau` at which `stateFunc` of node
`1` is evaluated, and the written value differs from
`lambda_0 - lambda_1 - dtau*h_x(t + dtau, state_0, u_1, lambda_1)`. -/
theorem computeOptimalityErrorforStateAndLambda_costate_time_offset :
    (computeOptimalityErrorforStateAndLambda (timeVaryingConfig Real.exp 2) 0 1 (fun _ => 0)
        (fun _ => 0) (fun _ _ => 0) (fun _ _ => 0) (fun _ _ => 0)
        (fun _ _ => 0)).optimality_for_lambda 0 0
      = -(deltaTau (timeVaryingConfig Real.exp 2) 0 1
          * (1 + 2 * deltaTau (timeVaryingConfig Real.exp 2) 0 1))
    ∧ (computeOptimalityErrorforStateAndLambda (timeVaryingConfig Real.exp 2) 0 1 (fun _ => 0)
        (fun _ => 0) (fun _ _ => 0) (fun _ _ => 0) (fun _ _ => 0)
        (fun _ _ => 0)).optimality_for_lambda 0 0
      ≠ (0 : ℝ) - 0
        - deltaTau (timeVaryingConfig Real.exp 2) 0 1
          * (timeVaryingConfig Real.exp 2).model.hxFunc
              (1 + 1 * deltaTau (timeVaryingConfig Real.exp 2) 0 1)
              (fun _ => 0) (fun _ => 0) (fun _ => 0) 0
    ∧ (computeOptimalityErrorforStateAndLambda (timeVaryingConfig Real.exp 2) 0 1 (fun _ => 0)
        (fun _ => 0) (fun _ _ => 0) (fun _ _ => 0) (fun _ _ => 0)
        (fun _ _ => 0)).optimality_for_state 0 1
      = (0 : ℝ) - 0
        - deltaTau (timeVaryingConfig Real.exp 2) 0 1
          * (timeVaryingConfig Real.exp 2).model.stateFunc
              (1 + 1 * deltaTau (timeVaryingConfig Real.exp 2) 0 1)
              (fun _ => 0) (fun _ => 0) 0 := by
  have hpos : 0 < deltaTau (timeVaryingConfig Real.exp 2) 0 1 := by
    have he : Real.exp (-1) < 1 := by
      have := Real.exp_lt_exp.mpr (by norm_num : (-1 : ℝ) < 0)
      rwa [Real.exp_zero] at this
    have hd : deltaTau (timeVaryingConfig Real.exp 2) 0 1
        = 1 / 2 * (1 - Real.exp (-1)) / 2 := by
      simp [deltaTau, horizonLength, timeVaryingConfig]
    rw [hd]
    have h1 : 0 < 1 - Real.exp (-1) := by linarith
    exact div_pos (mul_pos (by norm_num) h1) (by norm_num)
  have hx : ∀ (τ : ℝ) (a b d : Vec ℝ),
      (timeVaryingConfig Real.exp 2).model.hxFunc τ a b d 0 = τ := fun _ _ _ _ => rfl
  have hf : ∀ (τ : ℝ) (a b : Vec ℝ),
      (timeVaryingConfig Real.exp 2).model.stateFunc τ a b 0 = b 0 := fun _ _ _ => rfl
  obtain ⟨hs, hl⟩ := computeOptimalityErrorforStateAndLambda_times (timeVaryingConfig Real.exp 2)
    0 1 (fun _ => 0) (fun _ => 0) (fun _ _ => 0) (fun _ _ => 0) (fun _ _ => 0) (fun _ _ => 0)
    1 (le_refl 1) (by decide) 0
  simp only [Nat.sub_self] at hl
  rw [hx] at hl
  rw [hf] at hs
  generalize deltaTau (timeVaryingConfig Real.exp 2) 0 1 = δ at hpos hs hl ⊢
  have hval : (computeOptimalityErrorforStateAndLambda (timeVaryingConfig Real.exp 2) 0 1
        (fun _ => 0) (fun _ => 0) (fun _ _ => 0) (fun _ _ => 0) (fun _ _ => 0)
        (fun _ _ => 0)).optimality_for_lambda 0 0 = -(δ * (1 + 2 * δ)) := by
    rw [hl]
    push_cast
    ring
  refine ⟨hval, ?_, ?_⟩
  · rw [hval, hx]
    intro h
    have h2 : δ * δ = 0 := by linarith
    have := mul_self_eq_zero.mp h2
    linarith
  · rw [hs, hf]
    simp [segment]

/-- C14: for `horizon_max_length > 0` and `alpha > 0` (and `exp` the real
exponential) the horizon length `horizon_max_length*(1 - exp(-alpha*(t - t0)))` of
the residual and sweep routines is strictly increasing in `t`, strictly below
`horizon_max_length` for every `t`, nonnegative for `t >= t0`, and tends to
`horizon_max_length` as `t` grows; the per-node step is that length divided by
`horizon_division_num`. -/
theorem horizonLength_schedule (c : Config ℝ) (t0 : ℝ) (hexp : c.exp = Real.exp)
    (hT : 0 < c.horizon_max_length) (ha : 0 < c.alpha) :
    StrictMono (horizonLength c t0)
    ∧ (∀ t, horizonLength c t0 t < c.horizon_max_length)
    ∧ (∀ t, t0 ≤ t → 0 ≤ horizonLength c t0 t)
    ∧ Filter.Tendsto (horizonLength c t0) Filter.atTop (nhds c.horizon_max_length)
    ∧ (∀ t, deltaTau c t0 t = horizonLength c t0 t / (c.horizon_division_num : ℝ)) := by
  have hdef : ∀ t, horizonLength c t0 t
      = c.horizon_max_length * (1 - Real.exp (-(c.alpha * (t - t0)))) := by
    intro t
    simp only [horizonLength, hexp]
    rw [neg_mul]
  refine ⟨?_, ?_, ?_, ?_, fun t => rfl⟩
  · intro a b hab
    show horizonLength c t0 a < horizonLength c t0 b
    rw [hdef, hdef]
    have h1 : -(c.alpha * (b - t0)) < -(c.alpha * (a - t0)) := by
      have := mul_lt_mul_of_pos_left (sub_lt_sub_right hab t0) ha
      linarith
    have h2 := Real.exp_lt_exp.mpr h1
    exact mul_lt_mul_of_pos_left (by linarith) hT
  · intro t
    rw [hdef]
    have h1 := Real.exp_pos (-(c.alpha * (t - t0)))
    have h2 : c.horizon_max_length * (1 - Real.exp (-(c.alpha * (t - t0))))
        < c.horizon_max_length * 1 := mul_lt_mul_of_pos_left (by linarith) hT
    linarith
  · intro t ht
    rw [hdef]
    have h1 : -(c.alpha * (t - t0)) ≤ 0 := by
      have := mul_nonneg ha.le (sub_nonneg.mpr ht)
      linarith
    have h2 : Real.exp (-(c.alpha * (t - t0))) ≤ 1 := by
      have := Real.exp_le_exp.mpr h1
      rwa [Real.exp_zero] at this
    exact mul_nonneg hT.le (by linarith)
  · have h1 : Filter.Tendsto (fun t : ℝ => c.alpha * (t - t0)) Filter.atTop Filter.atTop := by
      apply Filter.Tendsto.const_mul_atTop ha
      have := Filter.tendsto_atTop_add_const_right Filter.atTop (-t0)
        (Filter.tendsto_id : Filter.Tendsto (fun t : ℝ => t) Filter.atTop Filter.atTop)
      simpa [sub_eq_add_neg] using this
    have h2 : Filter.Tendsto (fun t : ℝ => Real.exp (-(c.alpha * (t - t0)))) Filter.atTop
        (nhds 0) := Real.tendsto_exp_neg_atTop_nhds_zero.comp h1
    have h3 : Filter.Tendsto
        (fun t : ℝ => c.horizon_max_length * (1 - Real.exp (-(c.alpha * (t - t0)))))
        Filter.atTop (nhds (c.horizon_max_length * (1 - 0))) :=
      (tendsto_const_nhds.sub h2).const_mul c.horizon_max_length
    have hfun : horizonLength c t0
        = fun t : ℝ => c.horizon_max_length * (1 - Real.exp (-(c.alpha * (t - t0)))) :=
      funext hdef
    rw [hfun]
    simpa using h3

/-- Witness for C14 on the instance (`horizon_max_length = 1/2`, `alpha = 1`). -/
theorem horizonLength_schedule_witness :
    ((demoConfig Real.exp 2).exp = Real.exp
      ∧ 0 < (demoConfig Real.exp 2).horizon_max_length ∧ 0 < (demoConfig Real.exp 2).alpha)
    ∧ StrictMono (horizonLength (demoConfig Real.exp 2) 0) :=
  ⟨⟨rfl, by show (0 : ℝ) < 1 / 2; norm_num, by show (0 : ℝ) < 1; norm_num⟩,
    (horizonLength_schedule (demoConfig Real.exp 2) 0 rfl (by show (0 : ℝ) < 1 / 2; norm_num)
      (by show (0 : ℝ) < 1; norm_num)).1⟩

/-! ## Claims on the initialisation -/

/-- C15: after each overload of `initSolution(t0, x0, ...)` with bootstrap solution
`sol`, for every node `i < N` node `i`'s control-and-constraint segment is the first
`dim_control_input_and_constraints` entries of `sol`, dummy column `i` the next
`dim_saturation` entries, multiplier column `i` the following `dim_saturation`
entries, state column `i` is `x0` and costate column `i` is `phixFunc(t0, x0)`;
`state_error_mat_` and `lambda_error_mat_` are zero and `initial_time_` is `t0`. -/
theorem initSolution_seeds_trajectory {K : Type} [Field K] (c : Config K)
    (B : InitCGMRESWithSaturation K) (s : Solver K) (t0 : K) (x0 g lv : Vec K) (ls cr : K)
    (mi : Int) :
    SeededFrom c (initSolution c B s t0 x0 g cr mi) t0 x0
        (B.solve0stepNOCP t0 x0 g cr mi).initial_solution_vec
    ∧ SeededFrom c (initSolutionVectorGuess c B s t0 x0 g lv cr mi) t0 x0
        (B.solve0stepNOCPVector t0 x0 g lv cr mi).initial_solution_vec
    ∧ SeededFrom c (initSolutionScalarGuess c B s t0 x0 g ls cr mi) t0 x0
        (B.solve0stepNOCPScalar t0 x0 g ls cr mi).initial_solution_vec := by
  refine ⟨?_, ?_, ?_⟩
  · obtain ⟨m1, m2, m3, m4, m5, m6, m7, m8⟩ := initSolution_members c B s t0 x0 g cr mi
    refine ⟨?_, ?_, ?_, ?_, ?_, m7, m8, m6⟩
    · intro i hi
      rw [m1]
      exact (seeded_nodes c _ x0 (c.model.phixFunc t0 x0) _ s.dummy_input_mat_
        s.saturation_lagrange_multiplier_mat_ s.state_mat_ s.lambda_mat_ i hi).1
    · intro i hi
      rw [m2]
      exact (seeded_nodes c _ x0 (c.model.phixFunc t0 x0) s.control_input_and_constraints_seq_
        _ s.saturation_lagrange_multiplier_mat_ s.state_mat_ s.lambda_mat_ i hi).2.1
    · intro i hi
      rw [m3]
      exact (seeded_nodes c _ x0 (c.model.phixFunc t0 x0) s.control_input_and_constraints_seq_
        s.dummy_input_mat_ _ s.state_mat_ s.lambda_mat_ i hi).2.2.1
    · intro i hi
      rw [m4]
      exact (seeded_nodes c (B.solve0stepNOCP t0 x0 g cr mi).initial_solution_vec x0
        (c.model.phixFunc t0 x0) s.control_input_and_constraints_seq_
        s.dummy_input_mat_ s.saturation_lagrange_multiplier_mat_ _ s.lambda_mat_ i hi).2.2.2.1
    · intro i hi
      rw [m5]
      exact (seeded_nodes c (B.solve0stepNOCP t0 x0 g cr mi).initial_solution_vec x0
        (c.model.phixFunc t0 x0) s.control_input_and_constraints_seq_
        s.dummy_input_mat_ s.saturation_lagrange_multiplier_mat_ s.state_mat_ _ i hi).2.2.2.2
  · obtain ⟨m1, m2, m3, m4, m5, m6, m7, m8⟩ := initSolutionVectorGuess_members c B s t0 x0 g lv cr mi
    refine ⟨?_, ?_, ?_, ?_, ?_, m7, m8, m6⟩
    · intro i hi
      rw [m1]
      exact (seeded_nodes c _ x0 (c.model.phixFunc t0 x0) _ s.dummy_input_mat_
        s.saturation_lagrange_multiplier_mat_ s.state_mat_ s.lambda_mat_ i hi).1
    · intro i hi
      rw [m2]
      exact (seeded_nodes c _ x0 (c.model.phixFunc t0 x0) s.control_input_and_constraints_seq_
        _ s.saturation_lagrange_multiplier_mat_ s.state_mat_ s.lambda_mat_ i hi).2.1
    · intro i hi
      rw [m3]
      exact (seeded_nodes c _ x0 (c.model.phixFunc t0 x0) s.control_input_and_constraints_seq_
        s.dummy_input_mat_ _ s.state_mat_ s.lambda_mat_ i hi).2.2.1
    · intro i hi
      rw [m4]
      exact (seeded_nodes c (B.solve0stepNOCPVector t0 x0 g lv cr mi).initial_solution_vec x0
        (c.model.phixFunc t0 x0) s.control_input_and_constraints_seq_
        s.dummy_input_mat_ s.saturation_lagrange_multiplier_mat_ _ s.lambda_mat_ i hi).2.2.2.1
    · intro i hi
      rw [m5]
      exact (seeded_nodes c (B.solve0stepNOCPVector t0 x0 g lv cr mi).initial_solution_vec x0
        (c.model.phixFunc t0 x0) s.control_input_and_constraints_seq_
        s.dummy_input_mat_ s.saturation_lagrange_multiplier_mat_ s.state_mat_ _ i hi).2.2.2.2
  · obtain ⟨m1, m2, m3, m4, m5, m6, m7, m8⟩ := initSolutionScalarGuess_members c B s t0 x0 g ls cr mi
    refine ⟨?_, ?_, ?_, ?_, ?_, m7, m8, m6⟩
    · intro i hi
      rw [m1]
      exact (seeded_nodes c _ x0 (c.model.phixFunc t0 x0) _ s.dummy_input_mat_
        s.saturation_lagrange_multiplier_mat_ s.state_mat_ s.lambda_mat_ i hi).1
    · intro i hi
      rw [m2]
      exact (seeded_nodes c _ x0 (c.model.phixFunc t0 x0) s.control_input_and_constraints_seq_
        _ s.saturation_lagrange_multiplier_mat_ s.state_mat_ s.lambda_mat_ i hi).2.1
    · intro i hi
      rw [m3]
      exact (seeded_nodes c _ x0 (c.model.phixFunc t0 x0) s.control_input_and_constraints_seq_
        s.dummy_input_mat_ _ s.state_mat_ s.lambda_mat_ i hi).2.2.1
    · intro i hi
      rw [m4]
      exact (seeded_nodes c (B.solve0stepNOCPScalar t0 x0 g ls cr mi).initial_solution_vec x0
        (c.model.phixFunc t0 x0) s.control_input_and_constraints_seq_
        s.dummy_input_mat_ s.saturation_lagrange_multiplier_mat_ _ s.lambda_mat_ i hi).2.2.2.1
    · intro i hi
      rw [m5]
      exact (seeded_nodes c (B.solve0stepNOCPScalar t0 x0 g ls cr mi).initial_solution_vec x0
        (c.model.phixFunc t0 x0) s.control_input_and_constraints_seq_
        s.dummy_input_mat_ s.saturation_lagrange_multiplier_mat_ s.state_mat_ _ i hi).2.2.2.2

/-- C16: whenever the three overloads of `solve0stepNOCP` return the same solution
vector and the same three residual vectors, the overload of `initSolution` without
multiplier guess, the one with a vector guess and the one with a scalar guess leave
every member of the controller in the same state. -/
theorem initSolution_overloads_agree {K : Type} [Field K] (c : Config K)
    (B : InitCGMRESWithSaturation K) (s : Solver K) (t0 : K) (x0 g lv : Vec K) (ls cr : K)
    (mi : Int)
    (hv : B.solve0stepNOCPVector t0 x0 g lv cr mi = B.solve0stepNOCP t0 x0 g cr mi)
    (hs : B.solve0stepNOCPScalar t0 x0 g ls cr mi = B.solve0stepNOCP t0 x0 g cr mi) :
    initSolutionVectorGuess c B s t0 x0 g lv cr mi = initSolution c B s t0 x0 g cr mi
    ∧ initSolutionScalarGuess c B s t0 x0 g ls cr mi = initSolution c B s t0 x0 g cr mi := by
  constructor
  · unfold initSolutionVectorGuess initSolution
    rw [hv]
  · unfold initSolutionScalarGuess initSolution
    rw [hs]

/-- Witness for C16 on the instance, whose bootstrap solver returns the same result
from every overload. -/
theorem initSolution_overloads_agree_witness :
    ((demoInitializer : InitCGMRESWithSaturation ℝ).solve0stepNOCPVector 0 (fun _ => 0)
          (fun _ => 0) (fun _ => 1) (1 / 1000000) 50
        = (demoInitializer : InitCGMRESWithSaturation ℝ).solve0stepNOCP 0 (fun _ => 0)
          (fun _ => 0) (1 / 1000000) 50
      ∧ (demoInitializer : InitCGMRESWithSaturation ℝ).solve0stepNOCPScalar 0 (fun _ => 0)
          (fun _ => 0) 1 (1 / 1000000) 50
        = (demoInitializer : InitCGMRESWithSaturation ℝ).solve0stepNOCP 0 (fun _ => 0)
          (fun _ => 0) (1 / 1000000) 50)
    ∧ initSolutionVectorGuess (demoConfig Real.exp 2) demoInitializer (demoSolver 0 0 0) 0
        (fun _ => 0) (fun _ => 0) (fun _ => 1) (1 / 1000000) 50
      = initSolution (demoConfig Real.exp 2) demoInitializer (demoSolver 0 0 0) 0
        (fun _ => 0) (fun _ => 0) (1 / 1000000) 50 :=
  ⟨⟨rfl, rfl⟩,
    (initSolution_overloads_agree (demoConfig Real.exp 2) demoInitializer (demoSolver 0 0 0) 0
      (fun _ => 0) (fun _ => 0) (fun _ => 1) 1 (1 / 1000000) 50 rfl rfl).1⟩

/-! ## Claims on the error norm -/

/-- C17: `getError(t, x)` is the Euclidean norm of the stacked control/constraint
residual, state residual, costate residual, dummy residual and constraint residual
computed at `(t, x)` on the current trajectory: its square is the sum of the squared
entries of all five, it is nonnegative, and it is zero if and only if every entry of
every residual is zero. -/
theorem getError_euclidean_norm (c : Config ℝ) (s : Solver ℝ) (locals : GetErrorLocals ℝ)
    (t : ℝ) (x : Vec ℝ) :
    (getError Real.sqrt c s locals t x).2 ^ 2
      = Finset.sum (Finset.range (c.horizon_division_num * c.dim_control_input_and_constraints))
          (fun k =>
            computeOptimalityErrorforControlInputAndConstraints c s.initial_time_ t x
              s.control_input_and_constraints_seq_ s.state_mat_ s.lambda_mat_
              s.saturation_lagrange_multiplier_mat_
              locals.control_input_and_constraints_error_seq k ^ 2)
        + Finset.sum (Finset.range c.horizon_division_num)
          (fun i =>
            Finset.sum (Finset.range c.dim_state)
              (fun r =>
                (computeOptimalityErrorforStateAndLambda c s.initial_time_ t x
                  s.control_input_and_constraints_seq_ s.state_mat_ s.lambda_mat_
                  locals.state_error_mat locals.lambda_error_mat).optimality_for_state r i ^ 2)
            + Finset.sum (Finset.range c.dim_state)
              (fun r =>
                (computeOptimalityErrorforStateAndLambda c s.initial_time_ t x
                  s.control_input_and_constraints_seq_ s.state_mat_ s.lambda_mat_
                  locals.state_error_mat locals.lambda_error_mat).optimality_for_lambda r i ^ 2)
            + Finset.sum (Finset.range c.dim_saturation)
              (fun j =>
                (computeOptimalityErrorforSaturation c s.control_input_and_constraints_seq_
                  s.dummy_input_mat_ s.saturation_lagrange_multiplier_mat_
                  locals.dummy_error_mat locals.saturation_error_mat).optimality_for_dummy j i
                  ^ 2)
            + Finset.sum (Finset.range c.dim_saturation)
              (fun j =>
                (computeOptimalityErrorforSaturation c s.control_input_and_constraints_seq_
                  s.dummy_input_mat_ s.saturation_lagrange_multiplier_mat_
                  locals.dummy_error_mat locals.saturation_error_mat).optimality_for_saturation
                  j i ^ 2))
    ∧ 0 ≤ (getError Real.sqrt c s locals t x).2
    ∧ ((getError Real.sqrt c s locals t x).2 = 0
      ↔ (∀ k, k < c.horizon_division_num * c.dim_control_input_and_constraints →
            computeOptimalityErrorforControlInputAndConstraints c s.initial_time_ t x
              s.control_input_and_constraints_seq_ s.state_mat_ s.lambda_mat_
              s.saturation_lagrange_multiplier_mat_
              locals.control_input_and_constraints_error_seq k = 0)
        ∧ (∀ i, i < c.horizon_division_num →
            (∀ r, r < c.dim_state →
              (computeOptimalityErrorforStateAndLambda c s.initial_time_ t x
                  s.control_input_and_constraints_seq_ s.state_mat_ s.lambda_mat_
                  locals.state_error_mat locals.lambda_error_mat).optimality_for_state r i = 0
              ∧ (computeOptimalityErrorforStateAndLambda c s.initial_time_ t x
                  s.control_input_and_constraints_seq_ s.state_mat_ s.lambda_mat_
                  locals.state_error_mat locals.lambda_error_mat).optimality_for_lambda r i = 0)
            ∧ (∀ j, j < c.dim_saturation →
              (computeOptimalityErrorforSaturation c s.control_input_and_constraints_seq_
                  s.dummy_input_mat_ s.saturation_lagrange_multiplier_mat_
                  locals.dummy_error_mat locals.saturation_error_mat).optimality_for_dummy j i
                = 0
              ∧ (computeOptimalityErrorforSaturation c s.control_input_and_constraints_seq_
                  s.dummy_input_mat_ s.saturation_lagrange_multiplier_mat_
                  locals.dummy_error_mat locals.saturation_error_mat).optimality_for_saturation
                  j i = 0))) := by
  generalize hF : computeOptimalityErrorforControlInputAndConstraints c s.initial_time_ t x
    s.control_input_and_constraints_seq_ s.state_mat_ s.lambda_mat_
    s.saturation_lagrange_multiplier_mat_ locals.control_input_and_constraints_error_seq = F
  generalize hE : computeOptimalityErrorforStateAndLambda c s.initial_time_ t x
    s.control_input_and_constraints_seq_ s.state_mat_ s.lambda_mat_
    locals.state_error_mat locals.lambda_error_mat = E
  generalize hO : computeOptimalityErrorforSaturation c s.control_input_and_constraints_seq_
    s.dummy_input_mat_ s.saturation_lagrange_multiplier_mat_
    locals.dummy_error_mat locals.saturation_error_mat = O
  have hval : (getError Real.sqrt c s locals t x).2
      = Real.sqrt
        (Finset.sum (Finset.range (c.horizon_division_num * c.dim_control_input_and_constraints))
            (fun k => F k ^ 2)
          + Finset.sum (Finset.range c.horizon_division_num)
            (fun i =>
              Finset.sum (Finset.range c.dim_state) (fun r => E.optimality_for_state r i ^ 2)
              + Finset.sum (Finset.range c.dim_state) (fun r => E.optimality_for_lambda r i ^ 2)
              + Finset.sum (Finset.range c.dim_saturation)
                  (fun j => O.optimality_for_dummy j i ^ 2)
              + Finset.sum (Finset.range c.dim_saturation)
                  (fun j => O.optimality_for_saturation j i ^ 2))) := by
    simp only [getError, hF, hE, hO, forUp_accumulate, squaredNorm, col,
      Config.dim_control_input_and_constraints_seq, pow_two]
  have hnn : 0 ≤ Finset.sum
        (Finset.range (c.horizon_division_num * c.dim_control_input_and_constraints))
            (fun k => F k ^ 2)
          + Finset.sum (Finset.range c.horizon_division_num)
            (fun i =>
              Finset.sum (Finset.range c.dim_state) (fun r => E.optimality_for_state r i ^ 2)
              + Finset.sum (Finset.range c.dim_state) (fun r => E.optimality_for_lambda r i ^ 2)
              + Finset.sum (Finset.range c.dim_saturation)
                  (fun j => O.optimality_for_dummy j i ^ 2)
              + Finset.sum (Finset.range c.dim_saturation)
                  (fun j => O.optimality_for_saturation j i ^ 2)) := by
    positivity
  rw [hval]
  refine ⟨Real.sq_sqrt hnn, Real.sqrt_nonneg _, ?_⟩
  rw [Real.sqrt_eq_zero hnn]
  have hsq : ∀ (n : Nat) (f : Nat → ℝ),
      Finset.sum (Finset.range n) (fun k => f k ^ 2) = 0 ↔ ∀ k, k < n → f k = 0 := by
    intro n f
    rw [Finset.sum_eq_zero_iff_of_nonneg (fun k _ => sq_nonneg (f k))]
    constructor
    · intro h k hk
      exact pow_eq_zero_iff (two_ne_zero) |>.mp (h k (Finset.mem_range.mpr hk))
    · intro h k hk
      rw [h k (Finset.mem_range.mp hk)]
      ring
  have hp : ∀ (n : Nat) (f : Nat → ℝ), 0 ≤ Finset.sum (Finset.range n) (fun k => f k ^ 2) :=
    fun n f => Finset.sum_nonneg (fun k _ => sq_nonneg (f k))
  constructor
  · intro h
    have h1 := hp (c.horizon_division_num * c.dim_control_input_and_constraints) F
    have h2 : 0 ≤ Finset.sum (Finset.range c.horizon_division_num)
        (fun i =>
          Finset.sum (Finset.range c.dim_state) (fun r => E.optimality_for_state r i ^ 2)
          + Finset.sum (Finset.range c.dim_state) (fun r => E.optimality_for_lambda r i ^ 2)
          + Finset.sum (Finset.range c.dim_saturation)
              (fun j => O.optimality_for_dummy j i ^ 2)
          + Finset.sum (Finset.range c.dim_saturation)
              (fun j => O.optimality_for_saturation j i ^ 2)) := by
      positivity
    have hF0 : Finset.sum
        (Finset.range (c.horizon_division_num * c.dim_control_input_and_constraints))
        (fun k => F k ^ 2) = 0 := by linarith
    have hR0 : Finset.sum (Finset.range c.horizon_division_num)
        (fun i =>
          Finset.sum (Finset.range c.dim_state) (fun r => E.optimality_for_state r i ^ 2)
          + Finset.sum (Finset.range c.dim_state) (fun r => E.optimality_for_lambda r i ^ 2)
          + Finset.sum (Finset.range c.dim_saturation)
              (fun j => O.optimality_for_dummy j i ^ 2)
          + Finset.sum (Finset.range c.dim_saturation)
              (fun j => O.optimality_for_saturation j i ^ 2)) = 0 := by linarith
    refine ⟨(hsq _ F).mp hF0, ?_⟩
    intro i hi
    have hnode := (Finset.sum_eq_zero_iff_of_nonneg (fun i _ => by positivity)).mp hR0 i
      (Finset.mem_range.mpr hi)
    have a1 := hp c.dim_state (fun r => E.optimality_for_state r i)
    have a2 := hp c.dim_state (fun r => E.optimality_for_lambda r i)
    have a3 := hp c.dim_saturation (fun j => O.optimality_for_dummy j i)
    have a4 := hp c.dim_saturation (fun j => O.optimality_for_saturation j i)
    simp only at a1 a2 a3 a4 hnode
    have z1 : Finset.sum (Finset.range c.dim_state)
        (fun r => E.optimality_for_state r i ^ 2) = 0 := by linarith
    have z2 : Finset.sum (Finset.range c.dim_state)
        (fun r => E.optimality_for_lambda r i ^ 2) = 0 := by linarith
    have z3 : Finset.sum (Finset.range c.dim_saturation)
        (fun j => O.optimality_for_dummy j i ^ 2) = 0 := by linarith
    have z4 : Finset.sum (Finset.range c.dim_saturation)
        (fun j => O.optimality_for_saturation j i ^ 2) = 0 := by linarith
    exact ⟨fun r hr => ⟨(hsq _ (fun r => E.optimality_for_state r i)).mp z1 r hr,
        (hsq _ (fun r => E.optimality_for_lambda r i)).mp z2 r hr⟩,
      fun j hj => ⟨(hsq _ (fun j => O.optimality_for_dummy j i)).mp z3 j hj,
        (hsq _ (fun j => O.optimality_for_saturation j i)).mp z4 j hj⟩⟩
  · rintro ⟨hF0, hR⟩
    rw [(hsq _ F).mpr hF0, zero_add]
    apply Finset.sum_eq_zero
    intro i hi
    have hi' := Finset.mem_range.mp hi
    rw [(hsq _ (fun r => E.optimality_for_state r i)).mpr (fun r hr => ((hR i hi').1 r hr).1),
      (hsq _ (fun r => E.optimality_for_lambda r i)).mpr (fun r hr => ((hR i hi').1 r hr).2),
      (hsq _ (fun j => O.optimality_for_dummy j i)).mpr (fun j hj => ((hR i hi').2 j hj).1),
      (hsq _ (fun j => O.optimality_for_saturation j i)).mpr
        (fun j hj => ((hR i hi').2 j hj).2)]
    ring

/-- Witness for C17 on the instance with two nodes. -/
theorem getError_euclidean_norm_witness :
    0 ≤ (getError Real.sqrt (demoConfig Real.exp 2) (demoSolver (1 / 2) 0 0)
        { control_input_and_constraints_error_seq := fun _ => 0
          state_error_mat := fun _ _ => 0
          lambda_error_mat := fun _ _ => 0
          dummy_error_mat := fun _ _ => 0
          saturation_error_mat := fun _ _ => 0 } 0 (fun _ => 0)).2 :=
  (getError_euclidean_norm (demoConfig Real.exp 2) (demoSolver (1 / 2) 0 0)
    { control_input_and_constraints_error_seq := fun _ => 0
      state_error_mat := fun _ _ => 0
      lambda_error_mat := fun _ _ => 0
      dummy_error_mat := fun _ _ => 0
      saturation_error_mat := fun _ _ => 0 } 0 (fun _ => 0)).2.1

/-! ## Claims on the Ax-hook -/

/-- C11: after `bFunc` has been evaluated for a solution `U` (and after any number
of earlier Ax-hook calls for the same `U`), `axFunc` called with the same `U` and a
direction `d` returns on every node segment `[F(U + h*d) - F(U)]/h`, where `F(V)` is
the control/constraint residual of `V` at the incremented time and state with the
state/costate trajectory re-derived by `computeStateAndLambda` from the stored
incremented-time defects and the multipliers corrected by `h` times the eliminator
applied to the cross term of the direction, and `F(U)` is that quantity for the zero
direction. -/
theorem axFunc_forward_difference {K : Type} [Field K] (c : Config K) (s : Solver K) (t : K)
    (x U : Vec K) (ds : List (Vec K)) (d : Vec K) (k : Nat)
    (hk : k < c.horizon_division_num * c.dim_control_input_and_constraints) :
    (axFunc c (ds.foldl (fun a d' => (axFunc c a t x U d').1) (bFunc c s t x U).1)
        t x U d).2 k
      = (directionResidual c s.initial_time_ s.incremented_time_ s.incremented_state_vec_
            s.state_mat_ s.lambda_mat_ s.dummy_input_mat_ s.saturation_lagrange_multiplier_mat_
            U d k
          - directionResidual c s.initial_time_ s.incremented_time_ s.incremented_state_vec_
            s.state_mat_ s.lambda_mat_ s.dummy_input_mat_ s.saturation_lagrange_multiplier_mat_
            U (fun _ => 0) k)
        / c.difference_increment := by
  obtain ⟨h1, h2⟩ := axFunc_foldl_same c t x U ds (bFunc c s t x U).1
  exact axFunc_eq_forward_difference c s _ t x U d
    ((bFunc_sameTrajectory c s t x U).trans h1) h2 k hk

/-- Witness for C11 on the one-node instance: entry `0`, one earlier Ax-hook call. -/
theorem axFunc_forward_difference_witness :
    0 < (demoConfig Real.exp 1).horizon_division_num
        * (demoConfig Real.exp 1).dim_control_input_and_constraints
    ∧ (axFunc (demoConfig Real.exp 1)
          ([fun _ => (1 : ℝ)].foldl
            (fun a d' => (axFunc (demoConfig Real.exp 1) a 0 (fun _ => 0) (fun _ => 1 / 2) d').1)
            (bFunc (demoConfig Real.exp 1) (demoSolver (1 / 2) 0 0) 0 (fun _ => 0)
              (fun _ => 1 / 2)).1)
          0 (fun _ => 0) (fun _ => 1 / 2) (fun _ => 2)).2 0
      = (directionResidual (demoConfig Real.exp 1) (demoSolver (1 / 2 : ℝ) 0 0).initial_time_
            (demoSolver (1 / 2 : ℝ) 0 0).incremented_time_
            (demoSolver (1 / 2 : ℝ) 0 0).incremented_state_vec_
            (demoSolver (1 / 2 : ℝ) 0 0).state_mat_ (demoSolver (1 / 2 : ℝ) 0 0).lambda_mat_
            (demoSolver (1 / 2 : ℝ) 0 0).dummy_input_mat_
            (demoSolver (1 / 2 : ℝ) 0 0).saturation_lagrange_multiplier_mat_
            (fun _ => 1 / 2) (fun _ => 2) 0
          - directionResidual (demoConfig Real.exp 1) (demoSolver (1 / 2 : ℝ) 0 0).initial_time_
            (demoSolver (1 / 2 : ℝ) 0 0).incremented_time_
            (demoSolver (1 / 2 : ℝ) 0 0).incremented_state_vec_
            (demoSolver (1 / 2 : ℝ) 0 0).state_mat_ (demoSolver (1 / 2 : ℝ) 0 0).lambda_mat_
            (demoSolver (1 / 2 : ℝ) 0 0).dummy_input_mat_
            (demoSolver (1 / 2 : ℝ) 0 0).saturation_lagrange_multiplier_mat_
            (fun _ => 1 / 2) (fun _ => 0) 0)
        / (demoConfig Real.exp 1).difference_increment :=
  ⟨by decide,
    axFunc_forward_difference (demoConfig Real.exp 1) (demoSolver (1 / 2) 0 0) 0 (fun _ => 0)
      (fun _ => 1 / 2) [fun _ => 1] (fun _ => 2) 0 (by decide)⟩

/-! ## Claims on misuse and failure reporting -/

/-- C21 (as stated) fails on the one-node instance: on two controllers as the
constructor leaves them, never initialised and differing only in what the unset
buffers hold (`1` or `2` in the control entries), `controlUpdate(0, 1, 0)` returns
the commands `1` and `2`, and `getError(0, 0)` returns the norms `sqrt 11` and
`sqrt 53`: both calls return a value computed from the unset trajectory. -/
theorem uninitialised_controller_counterexample :
    (controlUpdate (freshController Real.exp 1 0).1 demoEngine (freshController Real.exp 1 0).2
        0 1 (fun _ => 0)).2 0 = 1
    ∧ (controlUpdate (freshController Real.exp 2 0).1 demoEngine (freshController Real.exp 2 0).2
        0 1 (fun _ => 0)).2 0 = 2
    ∧ (getError Real.sqrt (freshController Real.exp 1 0).1 (freshController Real.exp 1 0).2
        { control_input_and_constraints_error_seq := fun _ => 0
          state_error_mat := fun _ _ => 0
          lambda_error_mat := fun _ _ => 0
          dummy_error_mat := fun _ _ => 0
          saturation_error_mat := fun _ _ => 0 } 0 (fun _ => 0)).2 = Real.sqrt 11
    ∧ (getError Real.sqrt (freshController Real.exp 2 0).1 (freshController Real.exp 2 0).2
        { control_input_and_constraints_error_seq := fun _ => 0
          state_error_mat := fun _ _ => 0
          lambda_error_mat := fun _ _ => 0
          dummy_error_mat := fun _ _ => 0
          saturation_error_mat := fun _ _ => 0 } 0 (fun _ => 0)).2 = Real.sqrt 53 := by
  refine ⟨?_, ?_, ?_, ?_⟩
  · show segment (vadd (fun _ => (1 : ℝ)) (vscale 1 (fun _ => 0))) 0 1 0 = 1
    simp [segment, vadd, vscale]
  · show segment (vadd (fun _ => (2 : ℝ)) (vscale 1 (fun _ => 0))) 0 1 0 = 2
    simp [segment, vadd, vscale]
  · simp [getError, freshController, MultipleShootingWithSaturation, squaredNorm,
      demoSolver, demoModel, demoSaturation, deltaTau, horizonLength,
      computeOptimalityErrorforControlInputAndConstraints, controlNode,
      addDerivativeSaturationWithControlInput, computeOptimalityErrorforSaturation,
      computeOptimalityErrorforStateAndLambda, fillEntries,
      Config.dim_control_input_and_constraints_seq,
      Config.dim_control_input_and_constraints, Config.dim_control_input, Config.dim_constraints,
      Config.dim_saturation, Config.dim_state, forUp, forDown, setSegment, segment, setAt,
      setEntry, setCol, col, vadd, vsub, vscale]
    norm_num
  · simp [getError, freshController, MultipleShootingWithSaturation, squaredNorm,
      demoSolver, demoModel, demoSaturation, deltaTau, horizonLength,
      computeOptimalityErrorforControlInputAndConstraints, controlNode,
      addDerivativeSaturationWithControlInput, computeOptimalityErrorforSaturation,
      computeOptimalityErrorforStateAndLambda, fillEntries,
      Config.dim_control_input_and_constraints_seq,
      Config.dim_control_input_and_constraints, Config.dim_control_input, Config.dim_constraints,
      Config.dim_saturation, Config.dim_state, forUp, forDown, setSegment, segment, setAt,
      setEntry, setCol, col, vadd, vsub, vscale]
    norm_num

/-- C21 (amended): `controlUpdate` and `getError` make no test whether
`initSolution` has been called, and neither has a result that reports an error.
Called on a controller as the constructor leaves it, whatever the unset buffers
`fresh` hold, `controlUpdate` returns the leading `dim_control_input` entries of
`U + samplingPeriod * Delta`, with `U` the unset control/constraint vector and
`Delta` the direction the Krylov solve stores (warm-started from the zero vector the
constructor wrote), and `getError` returns `sqrt` of the sum of the squared
residual entries computed on the unset trajectory. -/
theorem uninitialised_controller_results {K : Type} [Field K] (exp sqrt : K → K)
    (model : NMPCModel K) (sat : ControlInputSaturationSequence K) (hml alpha : K) (n : Nat)
    (h zeta : K) (dk : Nat) (fresh : Solver K) (eng : KrylovEngine K)
    (locals : GetErrorLocals K) (t sp : K) (x : Vec K) :
    (MultipleShootingWithSaturation exp model sat hml alpha n h zeta dk
        fresh).2.control_input_and_constraints_update_seq_ = (fun _ => 0)
    ∧ (controlUpdate (MultipleShootingWithSaturation exp model sat hml alpha n h zeta dk fresh).1
          eng (MultipleShootingWithSaturation exp model sat hml alpha n h zeta dk fresh).2
          t sp x).2
        = segment
            (vadd fresh.control_input_and_constraints_seq_
              (vscale sp
                (forwardDifferenceGMRES
                  (MultipleShootingWithSaturation exp model sat hml alpha n h zeta dk fresh).1 eng
                  (predictIncrementedState
                    (MultipleShootingWithSaturation exp model sat hml alpha n h zeta dk fresh).1
                    (MultipleShootingWithSaturation exp model sat hml alpha n h zeta dk fresh).2
                    t x)
                  t x).control_input_and_constraints_update_seq_))
            0 model.dimControlInput
    ∧ (getError sqrt (MultipleShootingWithSaturation exp model sat hml alpha n h zeta dk fresh).1
          (MultipleShootingWithSaturation exp model sat hml alpha n h zeta dk fresh).2
          locals t x).2
        = sqrt (forUp
            (fun i acc =>
              acc + (squaredNorm
                  (col (computeOptimalityErrorforStateAndLambda
                    (MultipleShootingWithSaturation exp model sat hml alpha n h zeta dk fresh).1
                    fresh.initial_time_ t x fresh.control_input_and_constraints_seq_
                    fresh.state_mat_ fresh.lambda_mat_ locals.state_error_mat
                    locals.lambda_error_mat).optimality_for_state i) model.dimState
                + squaredNorm
                  (col (computeOptimalityErrorforStateAndLambda
                    (MultipleShootingWithSaturation exp model sat hml alpha n h zeta dk fresh).1
                    fresh.initial_time_ t x fresh.control_input_and_constraints_seq_
                    fresh.state_mat_ fresh.lambda_mat_ locals.state_error_mat
                    locals.lambda_error_mat).optimality_for_lambda i) model.dimState
                + squaredNorm
                  (col (computeOptimalityErrorforSaturation
                    (MultipleShootingWithSaturation exp model sat hml alpha n h zeta dk fresh).1
                    fresh.control_input_and_constraints_seq_ fresh.dummy_input_mat_
                    fresh.saturation_lagrange_multiplier_mat_ locals.dummy_error_mat
                    locals.saturation_error_mat).optimality_for_dummy i) sat.dimSaturation
                + squaredNorm
                  (col (computeOptimalityErrorforSaturation
                    (MultipleShootingWithSaturation exp model sat hml alpha n h zeta dk fresh).1
                    fresh.control_input_and_constraints_seq_ fresh.dummy_input_mat_
                    fresh.saturation_lagrange_multiplier_mat_ locals.dummy_error_mat
                    locals.saturation_error_mat).optimality_for_saturation i) sat.dimSaturation))
            n 0
            (squaredNorm
              (computeOptimalityErrorforControlInputAndConstraints
                (MultipleShootingWithSaturation exp model sat hml alpha n h zeta dk fresh).1
                fresh.initial_time_ t x fresh.control_input_and_constraints_seq_
                fresh.state_mat_ fresh.lambda_mat_ fresh.saturation_lagrange_multiplier_mat_
                locals.control_input_and_constraints_error_seq)
              (n * (model.dimControlInput + model.dimConstraints)))) := by
  refine ⟨rfl, ?_, rfl⟩
  have hg := forwardDifferenceGMRES_sameTrajectory
    (MultipleShootingWithSaturation exp model sat hml alpha n h zeta dk fresh).1 eng
    (predictIncrementedState
      (MultipleShootingWithSaturation exp model sat hml alpha n h zeta dk fresh).1
      (MultipleShootingWithSaturation exp model sat hml alpha n h zeta dk fresh).2 t x) t x
  have e : (controlUpdate
        (MultipleShootingWithSaturation exp model sat hml alpha n h zeta dk fresh).1 eng
        (MultipleShootingWithSaturation exp model sat hml alpha n h zeta dk fresh).2 t sp x).2
      = segment
          (vadd (forwardDifferenceGMRES
              (MultipleShootingWithSaturation exp model sat hml alpha n h zeta dk fresh).1 eng
              (predictIncrementedState
                (MultipleShootingWithSaturation exp model sat hml alpha n h zeta dk fresh).1
                (MultipleShootingWithSaturation exp model sat hml alpha n h zeta dk fresh).2
                t x)
              t x).control_input_and_constraints_seq_
            (vscale sp (forwardDifferenceGMRES
              (MultipleShootingWithSaturation exp model sat hml alpha n h zeta dk fresh).1 eng
              (predictIncrementedState
                (MultipleShootingWithSaturation exp model sat hml alpha n h zeta dk fresh).1
                (MultipleShootingWithSaturation exp model sat hml alpha n h zeta dk fresh).2
                t x)
              t x).control_input_and_constraints_update_seq_))
          0 model.dimControlInput := rfl
  rw [e, hg.control_input_and_constraints_seq_]
  rfl

/-- C22 (as stated) fails on the instance with two nodes: the bootstrap solver
stops with squared error `3`, far above the squared convergence radius `10^-12`,
and `initSolution` still seeds the whole trajectory from the vector `(7, 8, 9)` it
returned: afterwards the dummy entry of node `1` is `8` (it was `1`), the multiplier
entry is `9`, and the error accumulators hold the reported residual `1`.  The
result of `initSolution` has no component that reports the failure. -/
theorem initSolution_unconverged_counterexample :
    (1 / 1000000 : ℝ) * (1 / 1000000)
        < ((stalledInitializer : InitCGMRESWithSaturation ℝ).solve0stepNOCP 0 (fun _ => 0)
            (fun _ => 0) (1 / 1000000) 50).squaredError (demoConfig Real.exp 2)
    ∧ SeededFrom (demoConfig Real.exp 2)
        (initSolution (demoConfig Real.exp 2) stalledInitializer (demoSolver 0 0 0) 0
          (fun _ => 0) (fun _ => 0) (1 / 1000000) 50)
        0 (fun _ => 0)
        ((stalledInitializer : InitCGMRESWithSaturation ℝ).solve0stepNOCP 0 (fun _ => 0)
          (fun _ => 0) (1 / 1000000) 50).initial_solution_vec
    ∧ (demoSolver (0 : ℝ) 0 0).dummy_input_mat_ 0 1 = 1
    ∧ (initSolution (demoConfig Real.exp 2) stalledInitializer (demoSolver (0 : ℝ) 0 0) 0
          (fun _ => 0) (fun _ => 0) (1 / 1000000) 50).dummy_input_mat_ 0 1 = 8
    ∧ (initSolution (demoConfig Real.exp 2) stalledInitializer (demoSolver (0 : ℝ) 0 0) 0
          (fun _ => 0) (fun _ => 0) (1 / 1000000) 50).saturation_lagrange_multiplier_mat_ 0 1
        = 9
    ∧ (initSolution (demoConfig Real.exp 2) stalledInitializer (demoSolver (0 : ℝ) 0 0) 0
          (fun _ => 0) (fun _ => 0) (1 / 1000000) 50).dummy_error_mat_ 0 1 = 1 := by
  have hs := initSolution_seededFrom (demoConfig Real.exp 2) stalledInitializer
    (demoSolver (0 : ℝ) 0 0) 0 (fun _ => 0) (fun _ => 0) (1 / 1000000) 50
  have hr := initSolution_residualsFrom (demoConfig Real.exp 2) stalledInitializer
    (demoSolver (0 : ℝ) 0 0) 0 (fun _ => 0) (fun _ => 0) (1 / 1000000) 50
  refine ⟨?_, hs, rfl, ?_, ?_, ?_⟩
  · simp [BootstrapResult.squaredError, squaredNorm, stalledInitializer, demoConfig,
      demoSaturation, demoModel, Config.dim_control_input_and_constraints,
      Config.dim_control_input, Config.dim_constraints, Config.dim_saturation]
    norm_num
  · have h := congrFun (hs.dummy 1 (by decide)) 0
    simp only [col] at h
    rw [h]
    simp [segment, stalledInitializer, demoConfig, demoSaturation, demoModel,
      Config.dim_control_input_and_constraints, Config.dim_control_input,
      Config.dim_constraints, Config.dim_saturation]
  · have h := congrFun (hs.multiplier 1 (by decide)) 0
    simp only [col] at h
    rw [h]
    simp [segment, stalledInitializer, demoConfig, demoSaturation, demoModel,
      Config.dim_control_input_and_constraints, Config.dim_control_input,
      Config.dim_constraints, Config.dim_saturation]
  · have h := congrFun (hr.dummy 1 (by decide)) 0
    simp only [col] at h
    rw [h]
    rfl

/-- C22 (amended): `initSolution` returns no status and makes no convergence test.
For every result of the bootstrap solver, whether or not it reached
`convergence_radius` within `max_iteration`, each overload seeds the trajectory from
the returned vector at every node and replicates the residual vectors reported by
the bootstrap solver into `control_input_and_constraints_error_seq_`,
`dummy_error_mat_` and `saturation_error_mat_`; a failed bootstrap shows only in
those residuals. -/
theorem initSolution_seeds_any_bootstrap_result {K : Type} [Field K] (c : Config K)
    (B : InitCGMRESWithSaturation K) (s : Solver K) (t0 : K) (x0 g lv : Vec K) (ls cr : K)
    (mi : Int) :
    (SeededFrom c (initSolution c B s t0 x0 g cr mi) t0 x0
        (B.solve0stepNOCP t0 x0 g cr mi).initial_solution_vec
      ∧ ResidualsFrom c (initSolution c B s t0 x0 g cr mi) (B.solve0stepNOCP t0 x0 g cr mi))
    ∧ (SeededFrom c (initSolutionVectorGuess c B s t0 x0 g lv cr mi) t0 x0
        (B.solve0stepNOCPVector t0 x0 g lv cr mi).initial_solution_vec
      ∧ ResidualsFrom c (initSolutionVectorGuess c B s t0 x0 g lv cr mi)
        (B.solve0stepNOCPVector t0 x0 g lv cr mi))
    ∧ (SeededFrom c (initSolutionScalarGuess c B s t0 x0 g ls cr mi) t0 x0
        (B.solve0stepNOCPScalar t0 x0 g ls cr mi).initial_solution_vec
      ∧ ResidualsFrom c (initSolutionScalarGuess c B s t0 x0 g ls cr mi)
        (B.solve0stepNOCPScalar t0 x0 g ls cr mi)) :=
  ⟨⟨initSolution_seededFrom c B s t0 x0 g cr mi, initSolution_residualsFrom c B s t0 x0 g cr mi⟩,
    ⟨initSolutionVectorGuess_seededFrom c B s t0 x0 g lv cr mi,
      initSolutionVectorGuess_residualsFrom c B s t0 x0 g lv cr mi⟩,
    ⟨initSolutionScalarGuess_seededFrom c B s t0 x0 g ls cr mi,
      initSolutionScalarGuess_residualsFrom c B s t0 x0 g ls cr mi⟩⟩

/-! ## Claims on the dummy variables under the update law -/

/-- C23 (as stated) fails on the one-node instance: every dummy entry is `1`, the
control entry is `1` (saturation residual `1`), the Krylov direction is zero, and
after `controlUpdate` with sampling period `2` the dummy entry of node `0` is
`1 + 2 * (-1) / (2 * 1) = 0`. -/
theorem controlUpdate_dummy_reaches_zero_counterexample :
    (∀ j i, (demoSolver (1 : ℝ) 0 0).dummy_input_mat_ j i ≠ 0)
    ∧ (controlUpdate (demoConfig Real.exp 1) demoEngine (demoSolver 1 0 0) 0 2
        (fun _ => 0)).1.dummy_input_mat_ 0 0 = 0 := by
  refine ⟨fun _ _ => one_ne_zero, ?_⟩
  rw [controlUpdate_dummy_entry (demoConfig Real.exp 1) demoEngine (demoSolver 1 0 0) 0 2
    (fun _ => 0) (fun _ _ => 0) (fun _ _ => 0) 0 0 (by decide) (by decide),
    computeOptimalityErrorforSaturation_saturation _ _ _ _ _ _ 0 0 (by decide) (by decide)]
  have hu : (controlUpdate (demoConfig Real.exp 1) demoEngine (demoSolver (1 : ℝ) 0 0) 0 2
      (fun _ => 0)).1.control_input_and_constraints_update_seq_ = fun _ => 0 := rfl
  rw [hu]
  simp [demoSolver, demoConfig, demoSaturation]
  norm_num

/-- C23 (amended): for every controller state in which every allocated entry of
`dummy_input_mat_` is nonzero, every sampling period `sp` and every Krylov
direction `Delta`, entry `(j, i)` of `dummy_input_mat_` after `controlUpdate` is
`d + sp * r / (2*d)` with `d` the entry before and
`r = -zeta * (saturation residual) - (2*u - min_j - max_j) * Delta_u`, and it is
nonzero exactly when `2*d^2 + sp*r` is nonzero. -/
theorem controlUpdate_dummy_nonzero_iff {K : Type} [Field K] [CharZero K]
    (c : Config K) (eng : KrylovEngine K) (s : Solver K) (t sp : K) (x : Vec K)
    (B1 B2 : Mat K) (j i : Nat)
    (hd : ∀ j' i', i' < c.horizon_division_num → j' < c.dim_saturation →
      s.dummy_input_mat_ j' i' ≠ 0)
    (hi : i < c.horizon_division_num) (hj : j < c.dim_saturation) :
    (controlUpdate c eng s t sp x).1.dummy_input_mat_ j i
        = s.dummy_input_mat_ j i
          + sp * ((-c.zeta
                * (computeOptimalityErrorforSaturation c s.control_input_and_constraints_seq_
                    s.dummy_input_mat_ s.saturation_lagrange_multiplier_mat_ B1
                    B2).optimality_for_saturation j i
              - (2 * s.control_input_and_constraints_seq_
                    (i * c.dim_control_input_and_constraints
                      + c.control_input_saturation_seq.index j)
                  - c.control_input_saturation_seq.min j - c.control_input_saturation_seq.max j)
                * (controlUpdate c eng s t sp x).1.control_input_and_constraints_update_seq_
                    (i * c.dim_control_input_and_constraints
                      + c.control_input_saturation_seq.index j))
            / (2 * s.dummy_input_mat_ j i))
    ∧ ((controlUpdate c eng s t sp x).1.dummy_input_mat_ j i ≠ 0
      ↔ 2 * (s.dummy_input_mat_ j i * s.dummy_input_mat_ j i)
          + sp * (-c.zeta
              * (computeOptimalityErrorforSaturation c s.control_input_and_constraints_seq_
                  s.dummy_input_mat_ s.saturation_lagrange_multiplier_mat_ B1
                  B2).optimality_for_saturation j i
            - (2 * s.control_input_and_constraints_seq_
                  (i * c.dim_control_input_and_constraints
                    + c.control_input_saturation_seq.index j)
                - c.control_input_saturation_seq.min j - c.control_input_saturation_seq.max j)
              * (controlUpdate c eng s t sp x).1.control_input_and_constraints_update_seq_
                  (i * c.dim_control_input_and_constraints
                    + c.control_input_saturation_seq.index j)) ≠ 0) := by
  refine ⟨controlUpdate_dummy_entry c eng s t sp x B1 B2 j i hi hj, ?_⟩
  rw [controlUpdate_dummy_entry c eng s t sp x B1 B2 j i hi hj]
  exact dummy_step_ne_zero_iff _ _ _ (hd j i hi hj)

/-- Witness for C23 (amended) on the instance with two nodes (every dummy entry
`1`): node `1`, component `0`, sampling period `1/4`. -/
theorem controlUpdate_dummy_nonzero_iff_witness :
    ((∀ j' i', i' < (demoConfig Real.exp 2).horizon_division_num →
        j' < (demoConfig Real.exp 2).dim_saturation →
        (demoSolver (1 / 2 : ℝ) 0 0).dummy_input_mat_ j' i' ≠ 0)
      ∧ 1 < (demoConfig Real.exp 2).horizon_division_num
      ∧ 0 < (demoConfig Real.exp 2).dim_saturation)
    ∧ (controlUpdate (demoConfig Real.exp 2) demoEngine (demoSolver (1 / 2) 0 0) 0 (1 / 4)
          (fun _ => 0)).1.dummy_input_mat_ 0 1
      = (demoSolver (1 / 2 : ℝ) 0 0).dummy_input_mat_ 0 1
        + 1 / 4 * ((-(demoConfig Real.exp 2).zeta
              * (computeOptimalityErrorforSaturation (demoConfig Real.exp 2)
                  (demoSolver (1 / 2 : ℝ) 0 0).control_input_and_constraints_seq_
                  (demoSolver (1 / 2 : ℝ) 0 0).dummy_input_mat_
                  (demoSolver (1 / 2 : ℝ) 0 0).saturation_lagrange_multiplier_mat_
                  (fun _ _ => 0) (fun _ _ => 0)).optimality_for_saturation 0 1
            - (2 * (demoSolver (1 / 2 : ℝ) 0 0).control_input_and_constraints_seq_
                  (1 * (demoConfig Real.exp 2).dim_control_input_and_constraints
                    + (demoConfig Real.exp 2).control_input_saturation_seq.index 0)
                - (demoConfig Real.exp 2).control_input_saturation_seq.min 0
                - (demoConfig Real.exp 2).control_input_saturation_seq.max 0)
              * (controlUpdate (demoConfig Real.exp 2) demoEngine (demoSolver (1 / 2) 0 0) 0
                  (1 / 4) (fun _ => 0)).1.control_input_and_constraints_update_seq_
                  (1 * (demoConfig Real.exp 2).dim_control_input_and_constraints
                    + (demoConfig Real.exp 2).control_input_saturation_seq.index 0))
          / (2 * (demoSolver (1 / 2 : ℝ) 0 0).dummy_input_mat_ 0 1)) :=
  ⟨⟨fun _ _ _ _ => one_ne_zero, by decide, by decide⟩,
    (controlUpdate_dummy_nonzero_iff (demoConfig Real.exp 2) demoEngine (demoSolver (1 / 2) 0 0)
      0 (1 / 4) (fun _ => 0) (fun _ _ => 0) (fun _ _ => 0) 0 1
      (fun _ _ _ _ => one_ne_zero) (by decide) (by decide)).1⟩

/-! ## Claims on the sweep as inverse of the residual and on the hooks -/

/-- C24: for `N >= 1` nodes, every time `t`, state `x`, control sequence `U` and
trajectory `(X, L)`, the sweep `computeStateAndLambda(t, x, U, P, Q)` fed with the
defects `(P, Q)` that `computeOptimalityErrorforStateAndLambda(t, x, U, X, L)`
returns gives back `(X, L)` at every node (every row, columns `0 .. N-1`), whatever
the output buffers of both routines held before. -/
theorem computeStateAndLambda_of_computeOptimalityErrorforStateAndLambda
    {K : Type} [Field K] (c : Config K) (t0 t : K) (x U : Vec K)
    (X L S0 T0 X0 L0 : Mat K) (hN : 1 ≤ c.horizon_division_num)
    (i : Nat) (hi : i < c.horizon_division_num) (r : Nat) :
    (computeStateAndLambda c t0 t x U
        (computeOptimalityErrorforStateAndLambda c t0 t x U X L S0 T0).optimality_for_state
        (computeOptimalityErrorforStateAndLambda c t0 t x U X L S0 T0).optimality_for_lambda
        X0 L0).state_mat r i = X r i
    ∧ (computeStateAndLambda c t0 t x U
        (computeOptimalityErrorforStateAndLambda c t0 t x U X L S0 T0).optimality_for_state
        (computeOptimalityErrorforStateAndLambda c t0 t x U X L S0 T0).optimality_for_lambda
        X0 L0).lambda_mat r i = L r i := by
  have _ := hN
  obtain ⟨h1, h2⟩ := sweep_of_error c t0 t x U X L S0 T0 X0 L0 i hi
  exact ⟨congrFun h1 r, congrFun h2 r⟩

/-- Witness for C24 on the instance with two nodes: node `1`. -/
theorem computeStateAndLambda_of_computeOptimalityErrorforStateAndLambda_witness :
    1 ≤ (demoConfig Real.exp 2).horizon_division_num
    ∧ 1 < (demoConfig Real.exp 2).horizon_division_num
    ∧ (computeStateAndLambda (demoConfig Real.exp 2) 0 1 (fun _ => 1) (fun _ => 1 / 2)
        (computeOptimalityErrorforStateAndLambda (demoConfig Real.exp 2) 0 1 (fun _ => 1)
          (fun _ => 1 / 2) (fun _ _ => 3) (fun _ _ => 4) (fun _ _ => 0)
          (fun _ _ => 0)).optimality_for_state
        (computeOptimalityErrorforStateAndLambda (demoConfig Real.exp 2) 0 1 (fun _ => 1)
          (fun _ => 1 / 2) (fun _ _ => 3) (fun _ _ => 4) (fun _ _ => 0)
          (fun _ _ => 0)).optimality_for_lambda
        (fun _ _ => 0) (fun _ _ => 0)).lambda_mat 0 1 = 4 :=
  ⟨by decide, by decide,
    (computeStateAndLambda_of_computeOptimalityErrorforStateAndLambda (demoConfig Real.exp 2)
      0 1 (fun _ => 1) (fun _ => 1 / 2) (fun _ _ => 3) (fun _ _ => 4) (fun _ _ => 0)
      (fun _ _ => 0) (fun _ _ => 0) (fun _ _ => 0) (by decide) 1 (by decide) 0).2⟩

/-- C25: in a controller state whose allocated dummy entries are all nonzero (the
documented precondition of the eliminator), after `bFunc(t, x, U)` has run (and
after any number of Ax-hook calls for the same `U`), `axFunc(t, x, U, d)` with the
all-zero direction `d` returns zero in every entry of every node segment, for a
nonzero difference increment; the incremented trajectory it re-derives is the
current trajectory `(state_mat_, lambda_mat_)` at every node, the divisors
`2*dummy` and `2*dummy*dummy` of the eliminator are nonzero in the state `axFunc`
reads, and the multiplier correction `saturation_error_mat_1_` is zero in every
allocated entry. -/
theorem axFunc_zero_direction {K : Type} [Field K] [CharZero K] (c : Config K) (s : Solver K)
    (t : K) (x U : Vec K) (ds : List (Vec K)) (hh : c.difference_increment ≠ 0)
    (hd : ∀ j i, i < c.horizon_division_num → j < c.dim_saturation →
      s.dummy_input_mat_ j i ≠ 0) :
    (∀ k, k < c.horizon_division_num * c.dim_control_input_and_constraints →
      (axFunc c (ds.foldl (fun a d' => (axFunc c a t x U d').1) (bFunc c s t x U).1)
        t x U (fun _ => 0)).2 k = 0)
    ∧ (∀ i, i < c.horizon_division_num → ∀ r,
      (axFunc c (ds.foldl (fun a d' => (axFunc c a t x U d').1) (bFunc c s t x U).1)
          t x U (fun _ => 0)).1.incremented_state_mat_ r i = s.state_mat_ r i
      ∧ (axFunc c (ds.foldl (fun a d' => (axFunc c a t x U d').1) (bFunc c s t x U).1)
          t x U (fun _ => 0)).1.incremented_lambda_mat_ r i = s.lambda_mat_ r i)
    ∧ (∀ i, i < c.horizon_division_num → ∀ j, j < c.dim_saturation →
      (2 * (ds.foldl (fun a d' => (axFunc c a t x U d').1)
          (bFunc c s t x U).1).dummy_input_mat_ j i ≠ 0
        ∧ 2 * (ds.foldl (fun a d' => (axFunc c a t x U d').1)
              (bFunc c s t x U).1).dummy_input_mat_ j i
            * (ds.foldl (fun a d' => (axFunc c a t x U d').1)
              (bFunc c s t x U).1).dummy_input_mat_ j i ≠ 0)
      ∧ (axFunc c (ds.foldl (fun a d' => (axFunc c a t x U d').1) (bFunc c s t x U).1)
          t x U (fun _ => 0)).1.saturation_error_mat_1_ j i = 0) := by
  have _ := hh
  obtain ⟨h1, h2⟩ := axFunc_foldl_same c t x U ds (bFunc c s t x U).1
  have hT := (bFunc_sameTrajectory c s t x U).trans h1
  refine ⟨fun k hk => ?_, fun i hi r => ?_, fun i hi j hj => ⟨?_, ?_⟩⟩
  · rw [axFunc_eq_forward_difference c s _ t x U (fun _ => 0) hT h2 k hk, sub_self, zero_div]
  · obtain ⟨a1, a2⟩ := axFunc_zero_trajectory c s _ t x U hT h2 i hi
    exact ⟨congrFun a1 r, congrFun a2 r⟩
  · rw [hT.dummy_input_mat_]
    have h2d : (2 : K) * s.dummy_input_mat_ j i ≠ 0 :=
      mul_ne_zero two_ne_zero (hd j i hi hj)
    exact ⟨h2d, mul_ne_zero h2d (hd j i hi hj)⟩
  · exact axFunc_zero_correction c _ t x U j i hi hj

/-- Witness for C25 on the one-node instance (every dummy entry `1`): entry `0`, one
earlier Ax-hook call. -/
theorem axFunc_zero_direction_witness :
    ((demoConfig Real.exp 1).difference_increment ≠ 0
      ∧ ∀ j i, i < (demoConfig Real.exp 1).horizon_division_num →
        j < (demoConfig Real.exp 1).dim_saturation →
        (demoSolver (1 / 2 : ℝ) 0 0).dummy_input_mat_ j i ≠ 0)
    ∧ (axFunc (demoConfig Real.exp 1)
          ([fun _ => (1 : ℝ)].foldl
            (fun a d' => (axFunc (demoConfig Real.exp 1) a 0 (fun _ => 0) (fun _ => 1 / 2) d').1)
            (bFunc (demoConfig Real.exp 1) (demoSolver (1 / 2) 0 0) 0 (fun _ => 0)
              (fun _ => 1 / 2)).1)
          0 (fun _ => 0) (fun _ => 1 / 2) (fun _ => 0)).2 0 = 0 :=
  ⟨⟨by show (1 / 2 : ℝ) ≠ 0; norm_num, fun _ _ _ _ => one_ne_zero⟩,
    (axFunc_zero_direction (demoConfig Real.exp 1) (demoSolver (1 / 2) 0 0) 0 (fun _ => 0)
      (fun _ => 1 / 2) [fun _ => 1] (by show (1 / 2 : ℝ) ≠ 0; norm_num)
      (fun _ _ _ _ => one_ne_zero)).1 0 (by decide)⟩

/-- C26: on every node segment the output of `bFunc(t, x, U)` is
`[-(zeta - 1/h)*F - F3/h]` minus the value `axFunc(t, x, U, Delta_prev)` returns
after that `bFunc` call for the stored direction
`Delta_prev = control_input_and_constraints_update_seq_`; `F` is the
control/constraint residual at the current time and state, `F3` the one at the
incremented time and state with the trajectory re-derived from `(1 - h*zeta)` times
the current state/costate defects and the multipliers advanced by `h` times the
eliminator rate for `-zeta` times the saturation residuals.  When `Delta_prev` is
zero the output is `-(zeta - 1/h)*F - F3/h`. -/
theorem bFunc_warm_started_residual {K : Type} [Field K] (c : Config K) (s : Solver K) (t : K)
    (x U : Vec K) (k : Nat)
    (hk : k < c.horizon_division_num * c.dim_control_input_and_constraints) :
    (bFunc c s t x U).2 k
        = (-(c.zeta - 1 / c.difference_increment)
              * controlResidual c s.initial_time_ t x U s.state_mat_ s.lambda_mat_
                  s.saturation_lagrange_multiplier_mat_ k
            - condensedResidual c s.initial_time_ s.incremented_time_ s.incremented_state_vec_
                  s.state_mat_ s.lambda_mat_ s.dummy_input_mat_
                  s.saturation_lagrange_multiplier_mat_ t x U k
                / c.difference_increment)
          - (axFunc c (bFunc c s t x U).1 t x U s.control_input_and_constraints_update_seq_).2 k
    ∧ (s.control_input_and_constraints_update_seq_ = (fun _ => 0) →
        (bFunc c s t x U).2 k
          = -(c.zeta - 1 / c.difference_increment)
              * controlResidual c s.initial_time_ t x U s.state_mat_ s.lambda_mat_
                  s.saturation_lagrange_multiplier_mat_ k
            - condensedResidual c s.initial_time_ s.incremented_time_ s.incremented_state_vec_
                  s.state_mat_ s.lambda_mat_ s.dummy_input_mat_
                  s.saturation_lagrange_multiplier_mat_ t x U k
                / c.difference_increment) := by
  have hb := bFunc_eq_warmStartedRightHandSide c s t x U k hk
  have ha := fun d => axFunc_eq_forward_difference c s (bFunc c s t x U).1 t x U d
    (bFunc_sameTrajectory c s t x U) ⟨rfl, rfl, rfl⟩ k hk
  have hz := directionResidual_zero c s.initial_time_ s.incremented_time_
    s.incremented_state_vec_ s.state_mat_ s.lambda_mat_ s.dummy_input_mat_
    s.saturation_lagrange_multiplier_mat_ U k hk
  have hw : warmStartedRightHandSide c s.initial_time_ s.incremented_time_
        s.incremented_state_vec_ s.state_mat_ s.lambda_mat_ s.dummy_input_mat_
        s.saturation_lagrange_multiplier_mat_ t x U s.control_input_and_constraints_update_seq_ k
      = (-(c.zeta - 1 / c.difference_increment)
              * controlResidual c s.initial_time_ t x U s.state_mat_ s.lambda_mat_
                  s.saturation_lagrange_multiplier_mat_ k
            - condensedResidual c s.initial_time_ s.incremented_time_ s.incremented_state_vec_
                  s.state_mat_ s.lambda_mat_ s.dummy_input_mat_
                  s.saturation_lagrange_multiplier_mat_ t x U k
                / c.difference_increment)
          - (directionResidual c s.initial_time_ s.incremented_time_ s.incremented_state_vec_
                s.state_mat_ s.lambda_mat_ s.dummy_input_mat_
                s.saturation_lagrange_multiplier_mat_ U
                s.control_input_and_constraints_update_seq_ k
              - controlResidual c s.initial_time_ s.incremented_time_ s.incremented_state_vec_ U
                  s.state_mat_ s.lambda_mat_ s.saturation_lagrange_multiplier_mat_ k)
            / c.difference_increment := rfl
  refine ⟨?_, fun h0 => ?_⟩
  · rw [hb, hw, ha, hz]
  · rw [hb, hw, h0, hz, sub_self, zero_div, sub_zero]

/-- Witness for C26 on the one-node instance with stored direction zero: entry `0`. -/
theorem bFunc_warm_started_residual_witness :
    (0 < (demoConfig Real.exp 1).horizon_division_num
        * (demoConfig Real.exp 1).dim_control_input_and_constraints
      ∧ (demoSolver (1 / 2 : ℝ) 0 0).control_input_and_constraints_update_seq_ = (fun _ => 0))
    ∧ (bFunc (demoConfig Real.exp 1) (demoSolver (1 / 2) 0 0) 0 (fun _ => 0)
          (fun _ => 1 / 2)).2 0
      = -((demoConfig Real.exp 1).zeta - 1 / (demoConfig Real.exp 1).difference_increment)
          * controlResidual (demoConfig Real.exp 1) (demoSolver (1 / 2 : ℝ) 0 0).initial_time_ 0
              (fun _ => 0) (fun _ => 1 / 2) (demoSolver (1 / 2 : ℝ) 0 0).state_mat_
              (demoSolver (1 / 2 : ℝ) 0 0).lambda_mat_
              (demoSolver (1 / 2 : ℝ) 0 0).saturation_lagrange_multiplier_mat_ 0
        - condensedResidual (demoConfig Real.exp 1) (demoSolver (1 / 2 : ℝ) 0 0).initial_time_
              (demoSolver (1 / 2 : ℝ) 0 0).incremented_time_
              (demoSolver (1 / 2 : ℝ) 0 0).incremented_state_vec_
              (demoSolver (1 / 2 : ℝ) 0 0).state_mat_ (demoSolver (1 / 2 : ℝ) 0 0).lambda_mat_
              (demoSolver (1 / 2 : ℝ) 0 0).dummy_input_mat_
              (demoSolver (1 / 2 : ℝ) 0 0).saturation_lagrange_multiplier_mat_
              0 (fun _ => 0) (fun _ => 1 / 2) 0
            / (demoConfig Real.exp 1).difference_increment :=
  ⟨⟨by decide, rfl⟩,
    (bFunc_warm_started_residual (demoConfig Real.exp 1) (demoSolver (1 / 2) 0 0) 0 (fun _ => 0)
      (fun _ => 1 / 2) 0 (by decide)).2 rfl⟩

/-! ## Claims on the seeded trajectory -/

/-- C27: with `exp(0) = 1`, immediately after each overload of
`initSolution(t0, x0, ...)` the state/costate residual that
`computeOptimalityErrorforStateAndLambda` computes at `(t0, x0)` on the seeded
trajectory is zero at every node (the horizon length at `t0` is `0`, every state
defect is `x0 - x0` and every costate defect `phix(t0, x0) - phix(t0, x0)`), so the
zeroed accumulators `state_error_mat_` and `lambda_error_mat_` hold that residual. -/
theorem initSolution_zero_state_lambda_residual {K : Type} [Field K] (c : Config K)
    (B : InitCGMRESWithSaturation K) (s : Solver K) (t0 : K) (x0 g lv : Vec K) (ls cr : K)
    (mi : Int) (hexp : c.exp 0 = 1) :
    ZeroDefects c (initSolution c B s t0 x0 g cr mi) t0 x0
    ∧ ZeroDefects c (initSolutionVectorGuess c B s t0 x0 g lv cr mi) t0 x0
    ∧ ZeroDefects c (initSolutionScalarGuess c B s t0 x0 g ls cr mi) t0 x0 :=
  ⟨seeded_zero_defects c _ t0 x0 _ (initSolution_seededFrom c B s t0 x0 g cr mi) hexp,
    seeded_zero_defects c _ t0 x0 _ (initSolutionVectorGuess_seededFrom c B s t0 x0 g lv cr mi)
      hexp,
    seeded_zero_defects c _ t0 x0 _ (initSolutionScalarGuess_seededFrom c B s t0 x0 g ls cr mi)
      hexp⟩

/-- Witness for C27 on the instance with two nodes, overload without multiplier
guess. -/
theorem initSolution_zero_state_lambda_residual_witness :
    (demoConfig Real.exp 2).exp 0 = 1
    ∧ ZeroDefects (demoConfig Real.exp 2)
        (initSolution (demoConfig Real.exp 2) demoInitializer (demoSolver 0 0 0) 0
          (fun _ => 0) (fun _ => 0) (1 / 1000000) 50) 0 (fun _ => 0) :=
  ⟨Real.exp_zero,
    (initSolution_zero_state_lambda_residual (demoConfig Real.exp 2) demoInitializer
      (demoSolver 0 0 0) 0 (fun _ => 0) (fun _ => 0) (fun _ => 1) 1 (1 / 1000000) 50
      Real.exp_zero).1⟩

/-! ## Claims on symmetry and on effects -/

/-- C28: exchanging the `min` and `max` values of any set of saturation entries
(`swap` selects them) leaves the outputs of `computeOptimalityErrorforSaturation`,
`addDerivativeSaturationWithControlInput` and
`multiplySaturationDerivativeWithControlInput` unchanged for all inputs and all
previous contents of the output buffers; an entry given as `(10, -10)` behaves as
one given as `(-10, 10)`. -/
theorem saturation_routines_symmetric_in_bounds {K : Type} [Field K] (c : Config K)
    (swap : Nat → Bool) (U V u m v : Vec K) (D Mu B1 B2 : Mat K) :
    computeOptimalityErrorforSaturation (c.swapBounds swap) U D Mu B1 B2
        = computeOptimalityErrorforSaturation c U D Mu B1 B2
    ∧ addDerivativeSaturationWithControlInput (c.swapBounds swap) u m v
        = addDerivativeSaturationWithControlInput c u m v
    ∧ multiplySaturationDerivativeWithControlInput (c.swapBounds swap) U V B1 B2
        = multiplySaturationDerivativeWithControlInput c U V B1 B2 := by
  have hs := swapBounds_sum c.control_input_saturation_seq swap
  have hw := swapBounds_width c.control_input_saturation_seq swap
  have hm : ∀ (a : K) (j : Nat),
      2 * a - (c.control_input_saturation_seq.swapBounds swap).min j
          - (c.control_input_saturation_seq.swapBounds swap).max j
        = 2 * a - c.control_input_saturation_seq.min j - c.control_input_saturation_seq.max j := by
    intro a j
    rw [sub_sub, hs, ← sub_sub]
  refine ⟨?_, ?_, ?_⟩
  · show SaturationOut.mk _ _ = SaturationOut.mk _ _
    congr 1
    refine congrArg (fun f => fillEntries c f B2) ?_
    funext j i
    show (_ - ((c.control_input_saturation_seq.swapBounds swap).min j
          + (c.control_input_saturation_seq.swapBounds swap).max j) / 2)
        * (_ - ((c.control_input_saturation_seq.swapBounds swap).min j
          + (c.control_input_saturation_seq.swapBounds swap).max j) / 2)
        - ((c.control_input_saturation_seq.swapBounds swap).max j
            - (c.control_input_saturation_seq.swapBounds swap).min j)
          * ((c.control_input_saturation_seq.swapBounds swap).max j
            - (c.control_input_saturation_seq.swapBounds swap).min j) / 4 + _ = _
    rw [hs, hw]
    rfl
  · show forUp _ c.dim_saturation 0 v = forUp _ c.dim_saturation 0 v
    congr 1
    funext i out
    show setAt out _ (out _ + (2 * u _ - (c.control_input_saturation_seq.swapBounds swap).min i
      - (c.control_input_saturation_seq.swapBounds swap).max i) * m i) = _
    rw [hm]
    rfl
  · show SaturationOut.mk _ _ = SaturationOut.mk _ _
    congr 1
    refine congrArg (fun f => fillEntries c f B2) ?_
    funext j i
    show (2 * U _ - (c.control_input_saturation_seq.swapBounds swap).min j
      - (c.control_input_saturation_seq.swapBounds swap).max j) * V _ = _
    rw [hm]
    rfl

/-- C29: for every time and state argument, `getError` leaves the trajectory
(`control_input_and_constraints_seq_`, `state_mat_`, `lambda_mat_`,
`dummy_input_mat_`, `saturation_lagrange_multiplier_mat_`), the stored direction
`control_input_and_constraints_update_seq_` and every stored error accumulator
unchanged (the only member it writes is the scratch vector `dx_vec_`), and a
following `controlUpdate` returns the same command and leaves the same members as
without the `getError` call. -/
theorem getError_read_only {K : Type} [Field K] (sqrt : K → K) (c : Config K)
    (eng : KrylovEngine K) (s : Solver K) (locals : GetErrorLocals K) (t : K) (x : Vec K)
    (t' sp : K) (x' : Vec K) :
    ((getError sqrt c s locals t x).1.control_input_and_constraints_seq_
        = s.control_input_and_constraints_seq_
      ∧ (getError sqrt c s locals t x).1.state_mat_ = s.state_mat_
      ∧ (getError sqrt c s locals t x).1.lambda_mat_ = s.lambda_mat_
      ∧ (getError sqrt c s locals t x).1.dummy_input_mat_ = s.dummy_input_mat_
      ∧ (getError sqrt c s locals t x).1.saturation_lagrange_multiplier_mat_
          = s.saturation_lagrange_multiplier_mat_)
    ∧ (getError sqrt c s locals t x).1.control_input_and_constraints_update_seq_
        = s.control_input_and_constraints_update_seq_
    ∧ ((getError sqrt c s locals t x).1.control_input_and_constraints_error_seq_
        = s.control_input_and_constraints_error_seq_
      ∧ (getError sqrt c s locals t x).1.control_input_and_constraints_error_seq_1_
          = s.control_input_and_constraints_error_seq_1_
      ∧ (getError sqrt c s locals t x).1.control_input_and_constraints_error_seq_2_
          = s.control_input_and_constraints_error_seq_2_
      ∧ (getError sqrt c s locals t x).1.control_input_and_constraints_error_seq_3_
          = s.control_input_and_constraints_error_seq_3_
      ∧ (getError sqrt c s locals t x).1.state_error_mat_ = s.state_error_mat_
      ∧ (getError sqrt c s locals t x).1.state_error_mat_1_ = s.state_error_mat_1_
      ∧ (getError sqrt c s locals t x).1.lambda_error_mat_ = s.lambda_error_mat_
      ∧ (getError sqrt c s locals t x).1.lambda_error_mat_1_ = s.lambda_error_mat_1_
      ∧ (getError sqrt c s locals t x).1.dummy_error_mat_ = s.dummy_error_mat_
      ∧ (getError sqrt c s locals t x).1.dummy_error_mat_1_ = s.dummy_error_mat_1_
      ∧ (getError sqrt c s locals t x).1.saturation_error_mat_ = s.saturation_error_mat_
      ∧ (getError sqrt c s locals t x).1.saturation_error_mat_1_ = s.saturation_error_mat_1_)
    ∧ controlUpdate c eng (getError sqrt c s locals t x).1 t' sp x'
        = controlUpdate c eng s t' sp x' := by
  refine ⟨⟨rfl, rfl, rfl, rfl, rfl⟩, rfl, ⟨rfl, rfl, rfl, rfl, rfl, rfl, rfl, rfl, rfl, rfl, rfl,
    rfl⟩, ?_⟩
  rw [getError_members]
  exact controlUpdate_dx_vec c eng s _ t' sp x'

/-! ## Claims on buffer accesses -/

/-- C30: for a controller with at least one node and a saturation spec whose every
`index(j)`, `j < dim_saturation`, is below `dim_control_input + dim_constraints`,
every Eigen access of the three residual routines, of the sweep and of the three
eliminator routines stays inside the buffer it goes to, the buffers having the
sizes the constructor gives them (matrices with `N` columns, saturation matrices
with `dim_saturation` rows, control vectors with `N * (dim_control_input +
dim_constraints)` entries, one node's segment and one multiplier column inside
`addDerivativeSaturationWithControlInput`); and the divisor of
`horizon_length / horizon_division_num_` is nonzero, so `delta_tau` times the node
count is the horizon length. -/
theorem accesses_within_constructor_bounds {K : Type} [Field K] [CharZero K] (c : Config K)
    (hN : 1 ≤ c.horizon_division_num)
    (hidx : ∀ j, j < c.dim_saturation →
      c.control_input_saturation_seq.index j < c.dim_control_input_and_constraints) :
    (∀ a ∈ computeOptimalityErrorforControlInputAndConstraints_accesses c, a.InBounds)
    ∧ (∀ a ∈ computeOptimalityErrorforStateAndLambda_accesses c, a.InBounds)
    ∧ (∀ a ∈ computeOptimalityErrorforSaturation_accesses c, a.InBounds)
    ∧ (∀ a ∈ computeStateAndLambda_accesses c, a.InBounds)
    ∧ (∀ a ∈ addDerivativeSaturationWithControlInput_accesses c, a.InBounds)
    ∧ (∀ a ∈ multiplySaturationDerivativeWithControlInput_accesses c, a.InBounds)
    ∧ (∀ a ∈ multiplySaturationSelfDerivativeInverse_accesses c, a.InBounds)
    ∧ (c.horizon_division_num : K) ≠ 0
    ∧ ∀ t0 t : K, deltaTau c t0 t * (c.horizon_division_num : K) = horizonLength c t0 t := by
  have hne : (c.horizon_division_num : K) ≠ 0 := by
    have : c.horizon_division_num ≠ 0 := by omega
    exact_mod_cast this
  refine ⟨computeOptimalityErrorforControlInputAndConstraints_inBounds c hN hidx,
    computeOptimalityErrorforStateAndLambda_inBounds c hN,
    computeOptimalityErrorforSaturation_inBounds c hidx,
    computeStateAndLambda_inBounds c hN,
    addDerivativeSaturationWithControlInput_inBounds c hidx,
    multiplySaturationDerivativeWithControlInput_inBounds c hidx,
    multiplySaturationSelfDerivativeInverse_inBounds c, hne, fun t0 t => ?_⟩
  unfold deltaTau
  exact div_mul_cancel₀ _ hne

/-- Witness for C30 on the instance with two nodes: the accesses of the sweep. -/
theorem accesses_within_constructor_bounds_witness :
    (1 ≤ (demoConfig Real.exp 2).horizon_division_num
      ∧ ∀ j, j < (demoConfig Real.exp 2).dim_saturation →
        (demoConfig Real.exp 2).control_input_saturation_seq.index j
          < (demoConfig Real.exp 2).dim_control_input_and_constraints)
    ∧ ∀ a ∈ computeStateAndLambda_accesses (demoConfig Real.exp 2), a.InBounds :=
  ⟨⟨by decide, fun _ _ => Nat.zero_lt_one⟩,
    (accesses_within_constructor_bounds (demoConfig Real.exp 2) (by decide)
      (fun _ _ => Nat.zero_lt_one)).2.2.2.1⟩

end AutoGenU
